import Mathlib

/-!
Verification development for the storage core of the MiniDB educational
database engine: the disk manager (`src/storage/disk_manager.cpp`), the
buffer pool manager and LRU replacer (`src/buffer/buffer_pool_manager.cpp`,
`src/buffer/lru_replacer.h`) and the `SimpleBTree` index
(`src/index/simple_btree.cpp`).

Modelling conventions:
* `page_id_t`, `frame_id_t` are `uint32_t` in the source; they are modelled
  as `Nat` (all arithmetic on them in the modelled code is increment and
  comparison, which never wraps for the values reachable here).
  `INVALID_PAGE_ID = std::numeric_limits<uint32_t>::max()`.
* C++ `int` fields (`num_keys`, keys, loop indices) are modelled as `Int`.
* A `Page`'s 4096 bytes are modelled as the fields the modelled components
  actually read or write: the `page_id_t` word at offset 0 (`pid_word`) and
  the payload area behind the 24-byte header (`NodePayload`).  The page-type
  and LSN header slots are written by nobody in the modelled code.
* `SimpleBTree::LeafNode` and `SimpleBTree::InternalNode` are overlaid on the
  same payload area by `reinterpret_cast`, and the tree sometimes reads a
  page through the wrong struct.  To keep that behaviour exact, the payload
  is modelled at 4-byte-word granularity:
    - `num_keys` : the `int` at payload offset 0 (shared by both layouts);
    - `keys`     : the ten `int`s at offsets 4..43 (shared by both layouts);
    - `words`    : the 22 32-bit words at offsets 44..131.
  Leaf layout (sizeof(RID) = 8: `uint32_t page_id` + `uint16_t slot_num`
  padded to 8): `values[i]` = words `2*i` (page_id) and `2*i+1` (slot_num),
  `next_leaf` = word 20, `parent` = word 21.
  Internal layout: `children[i]` = word `i` (i = 0..10), `parent` = word 11.
* Fallible operations return `Option`/`Bool`; disk write success is an
  explicit `Bool` oracle parameter where a claim depends on I/O failure.
-/

namespace MiniDB

/-- `RID` from `common/types.h`: record identifier `(page_id, slot_num)`. -/
structure RID where
  page_id : Nat
  slot_num : Nat
deriving Repr, DecidableEq

/-- `INVALID_PAGE_ID = std::numeric_limits<uint32_t>::max()`. -/
def INVALID_PAGE_ID : Nat := 4294967295

/-- `LeafNode::MAX_KEYS = InternalNode::MAX_KEYS = 10`. -/
def MAX_KEYS : Int := 10

/-- Word-level model of the page payload area as used by `SimpleBTree`.
`num_keys` and `keys` sit at the same offsets in both `LeafNode` and
`InternalNode`; `words` models the 22 32-bit words from payload offset 44
to 131, which the two layouts interpret differently (see file header). -/
structure NodePayload where
  num_keys : Int
  keys : List Int
  words : List Nat
deriving Repr, DecidableEq

namespace NodePayload

/-- Read `keys[i]` (payload words are zero-initialised by `ResetMemory`). -/
def key (p : NodePayload) (i : Nat) : Int := p.keys.getD i 0

/-- Read the 32-bit word at payload offset `44 + 4*i`. -/
def word (p : NodePayload) (i : Nat) : Nat := p.words.getD i 0

def setKey (p : NodePayload) (i : Nat) (k : Int) : NodePayload :=
  { p with keys := p.keys.set i k }

def setWord (p : NodePayload) (i : Nat) (w : Nat) : NodePayload :=
  { p with words := p.words.set i w }

/-- Leaf view: `values[i]` (an 8-byte `RID` = two words). -/
def leafValue (p : NodePayload) (i : Nat) : RID :=
  ⟨p.word (2 * i), p.word (2 * i + 1)⟩

def setLeafValue (p : NodePayload) (i : Nat) (v : RID) : NodePayload :=
  (p.setWord (2 * i) v.page_id).setWord (2 * i + 1) v.slot_num

/-- Leaf view: `next_leaf` (payload offset 124 = word 20). -/
def leafNext (p : NodePayload) : Nat := p.word 20

def setLeafNext (p : NodePayload) (n : Nat) : NodePayload := p.setWord 20 n

/-- Leaf view: `parent` (payload offset 128 = word 21). -/
def leafParent (p : NodePayload) : Nat := p.word 21

def setLeafParent (p : NodePayload) (n : Nat) : NodePayload := p.setWord 21 n

/-- Internal view: `children[i]` (payload offset `44 + 4*i`, i = 0..10). -/
def child (p : NodePayload) (i : Nat) : Nat := p.word i

def setChild (p : NodePayload) (i : Nat) (c : Nat) : NodePayload := p.setWord i c

/-- Internal view: `parent` (payload offset 88 = word 11). -/
def internalParent (p : NodePayload) : Nat := p.word 11

def setInternalParent (p : NodePayload) (n : Nat) : NodePayload := p.setWord 11 n

/-- `LeafNode::IsFull` / `InternalNode::IsFull`: `num_keys >= MAX_KEYS`. -/
def isFull (p : NodePayload) : Bool := p.num_keys ≥ MAX_KEYS

end NodePayload

/-- All-zero payload, as left by `Page::ResetMemory` (memset to 0). -/
def zeroPayload : NodePayload :=
  { num_keys := 0, keys := List.replicate 10 0, words := List.replicate 22 0 }

/-- `LeafNode()` constructor via placement new on a zeroed payload area:
sets `num_keys = 0`, `next_leaf = INVALID_PAGE_ID`, `parent =
INVALID_PAGE_ID`; `keys`/`values` keep the bytes already in the page. -/
def leafCtor (p : NodePayload) : NodePayload :=
  (({ p with num_keys := 0 }).setLeafNext INVALID_PAGE_ID).setLeafParent INVALID_PAGE_ID

/-- `InternalNode()` constructor: `num_keys = 0`, `parent = INVALID_PAGE_ID`. -/
def internalCtor (p : NodePayload) : NodePayload :=
  ({ p with num_keys := 0 }).setInternalParent INVALID_PAGE_ID

/-- The loop of `LeafNode::FindKey` (classic binary search; returns the index
of the key, or the insertion position).  The fuel bounds the iteration count;
each iteration shrinks `right - left` by at least one and `num_keys ≤ 10`
in every state the tree produces, so fuel 64 is never exhausted there. -/
def findKeyAux (keys : List Int) (key : Int) : Nat → Int → Int → Int
  | 0, left, _ => left
  | fuel + 1, left, right =>
    if left ≤ right then
      let mid := (left + right) / 2
      let km := keys.getD mid.toNat 0
      if km = key then mid
      else if km < key then findKeyAux keys key fuel (mid + 1) right
      else findKeyAux keys key fuel left (mid - 1)
    else left

/-- `LeafNode::FindKey`. -/
def NodePayload.findKey (p : NodePayload) (key : Int) : Int :=
  findKeyAux p.keys key 64 0 (p.num_keys - 1)

/-- The shift loop of `LeafNode::Insert`:
`for (i = num_keys; i > pos; --i) { keys[i] = keys[i-1]; values[i] = values[i-1]; }`.
The second argument is the loop variable `i` (the loop runs downwards). -/
def leafShiftUp (pos : Nat) : Nat → NodePayload → NodePayload
  | 0, p => p
  | i + 1, p =>
    if i + 1 > pos then
      leafShiftUp pos i ((p.setKey (i + 1) (p.key i)).setLeafValue (i + 1) (p.leafValue i))
    else p

/-- `LeafNode::Insert`.  Returns `(inserted, updated node)`. -/
def NodePayload.leafInsert (p : NodePayload) (key : Int) (value : RID) : Bool × NodePayload :=
  if p.isFull then (false, p)
  else
    let pos := p.findKey key
    if pos < p.num_keys ∧ p.key pos.toNat = key then (false, p)
    else
      let q := leafShiftUp pos.toNat p.num_keys.toNat p
      let q := (q.setKey pos.toNat key).setLeafValue pos.toNat value
      (true, { q with num_keys := q.num_keys + 1 })

/-- The shift loop of `LeafNode::Remove`:
`for (i = pos; i < num_keys - 1; ++i) { keys[i] = keys[i+1]; values[i] = values[i+1]; }`.
First argument counts the remaining iterations, second is the loop index. -/
def leafShiftDown : Nat → Nat → NodePayload → NodePayload
  | 0, _, p => p
  | c + 1, i, p =>
    leafShiftDown c (i + 1) ((p.setKey i (p.key (i + 1))).setLeafValue i (p.leafValue (i + 1)))

/-- `LeafNode::Remove`.  Returns `(removed, updated node)`. -/
def NodePayload.leafRemove (p : NodePayload) (key : Int) : Bool × NodePayload :=
  let pos := p.findKey key
  if pos ≥ p.num_keys ∨ p.key pos.toNat ≠ key then (false, p)
  else
    let q := leafShiftDown (p.num_keys - 1 - pos).toNat pos.toNat p
    (true, { q with num_keys := q.num_keys - 1 })

/-- The scan loop of `InternalNode::FindChild`:
`while (i < num_keys && key >= keys[i]) i++;`  then `return children[i]`. -/
def findChildAux (p : NodePayload) (key : Int) : Nat → Nat → Nat
  | 0, i => p.child i
  | fuel + 1, i =>
    if (i : Int) < p.num_keys ∧ key ≥ p.key i then findChildAux p key fuel (i + 1)
    else p.child i

/-- `InternalNode::FindChild` (`num_keys ≤ 10` in every reachable node, so
fuel 11 always covers the scan). -/
def NodePayload.findChild (p : NodePayload) (key : Int) : Nat :=
  findChildAux p key 11 0

/-- The position scan of `InternalNode::Insert`:
`while (pos < num_keys && key > keys[pos]) pos++;`. -/
def internalFindPos (p : NodePayload) (key : Int) : Nat → Nat → Nat
  | 0, pos => pos
  | fuel + 1, pos =>
    if (pos : Int) < p.num_keys ∧ key > p.key pos then internalFindPos p key fuel (pos + 1)
    else pos

/-- The shift loop of `InternalNode::Insert`:
`for (i = num_keys; i > pos; --i) { keys[i] = keys[i-1]; children[i+1] = children[i]; }`. -/
def internalShiftUp (pos : Nat) : Nat → NodePayload → NodePayload
  | 0, p => p
  | i + 1, p =>
    if i + 1 > pos then
      internalShiftUp pos i ((p.setKey (i + 1) (p.key i)).setChild (i + 2) (p.child (i + 1)))
    else p

/-- `InternalNode::Insert`. -/
def NodePayload.internalInsert (p : NodePayload) (key : Int) (childPid : Nat) :
    Bool × NodePayload :=
  if p.isFull then (false, p)
  else
    let pos := internalFindPos p key 11 0
    let q := internalShiftUp pos p.num_keys.toNat p
    let q := (q.setKey pos key).setChild (pos + 1) childPid
    (true, { q with num_keys := q.num_keys + 1 })

/-! ### Disk manager (`src/storage/disk_manager.cpp`) -/

/-- The content of a 4096-byte page slot as far as the modelled components
read it: the `page_id_t` word at offset 0 and the payload area. -/
structure DiskPage where
  pid_word : Nat
  payload : NodePayload
deriving Repr, DecidableEq

def zeroDiskPage : DiskPage := ⟨0, zeroPayload⟩

/-- In-memory state of `DiskManager`: `num_pages_`, the free-page list
(`std::vector`, pushed/popped at the back) and the file contents. -/
structure DiskManagerState where
  num_pages : Nat
  free_list : List Nat
  file : List (Nat × DiskPage)
deriving Repr, DecidableEq

/-- Association-list find (models `std::unordered_map`/file lookup). -/
def assocFind {α : Type} : List (Nat × α) → Nat → Option α
  | [], _ => none
  | (k, v) :: rest, k' => if k = k' then some v else assocFind rest k'

/-- Association-list insert-or-overwrite. -/
def assocSet {α : Type} : List (Nat × α) → Nat → α → List (Nat × α)
  | [], k', v' => [(k', v')]
  | (k, v) :: rest, k', v' =>
    if k = k' then (k', v') :: rest else (k, v) :: assocSet rest k' v'

/-- Association-list erase of the entry with the given key. -/
def assocErase {α : Type} : List (Nat × α) → Nat → List (Nat × α)
  | [], _ => []
  | (k, v) :: rest, k' => if k = k' then rest else (k, v) :: assocErase rest k'

namespace DiskManagerState

/-- `DiskManager::ReadPage`: fails (throws) iff `page_id >= num_pages_`
(`page_id_t` is unsigned, so every id compares directly); otherwise returns
the bytes at offset `page_id * PAGE_SIZE` (zero bytes if the slot was
allocated but never written). -/
def readPage (d : DiskManagerState) (pid : Nat) : Option DiskPage :=
  if pid < d.num_pages then some ((assocFind d.file pid).getD zeroDiskPage) else none

/-- `DiskManager::WritePage`: writes the page, then
`if (page_id >= num_pages_) num_pages_ = page_id + 1`.  The `ok` oracle
models low-level I/O success; on failure the function throws and the state
is unchanged. -/
def writePage (d : DiskManagerState) (pid : Nat) (pg : DiskPage) (ok : Bool) :
    Option DiskManagerState :=
  if ok then
    some { d with
      file := assocSet d.file pid pg,
      num_pages := if pid ≥ d.num_pages then pid + 1 else d.num_pages }
  else none

/-- `DiskManager::AllocatePage`: pop the back of the free list if non-empty,
else return `num_pages_` and increment it.  Touches no file bytes. -/
def allocatePage (d : DiskManagerState) : Nat × DiskManagerState :=
  if d.free_list.isEmpty then
    (d.num_pages, { d with num_pages := d.num_pages + 1 })
  else
    ((d.free_list.getLast?).getD 0, { d with free_list := d.free_list.dropLast })

/-- `DiskManager::DeallocatePage`: throws on the header page (`id = 0`) and
on `id >= num_pages_`; otherwise pushes onto the back of the free list. -/
def deallocatePage (d : DiskManagerState) (pid : Nat) : Option DiskManagerState :=
  if pid = 0 then none
  else if pid ≥ d.num_pages then none
  else some { d with free_list := d.free_list ++ [pid] }

end DiskManagerState

/-- A freshly created database file (`InitializeHeaderPage`): one header
page whose first word is the magic number, `num_pages_ = 1`, empty free
list.  (The header's `page_count`/free-list bytes at offsets 4.. are only
read on re-open, which no modelled claim exercises.) -/
def freshDisk : DiskManagerState :=
  { num_pages := 1, free_list := [], file := [(0, ⟨0xDEADBEEF, zeroPayload⟩)] }

/-! ### LRU replacer (`src/buffer/lru_replacer.h`) -/

/-- The replacer's `lru_list_`, most-recently-unpinned frame first.  The
`lru_hash_` map only gives O(1) positions and carries no extra state. -/
def lruVictim (l : List Nat) : Option Nat × List Nat :=
  if l.isEmpty then (none, l)
  else (some ((l.getLast?).getD 0), l.dropLast)

/-- `LRUReplacer::Pin`: remove the frame if tracked. -/
def lruPin (l : List Nat) (f : Nat) : List Nat := l.erase f

/-- `LRUReplacer::Unpin`: remove any existing occurrence, then push front. -/
def lruUnpin (l : List Nat) (f : Nat) : List Nat := f :: l.erase f

/-! ### Buffer pool manager (`src/buffer/buffer_pool_manager.cpp`) -/

/-- A buffer frame: one `Page` object (data word 0, payload, pin count,
dirty bit). -/
structure Frame where
  pid_word : Nat
  payload : NodePayload
  pin_count : Int
  is_dirty : Bool
deriving Repr, DecidableEq

/-- `Page()` constructor calls `ResetMemory`. -/
def zeroFrame : Frame := ⟨0, zeroPayload, 0, false⟩

structure BPMState where
  frames : List Frame
  page_table : List (Nat × Nat)
  free_list : List Nat
  replacer : List Nat
  disk : DiskManagerState
deriving Repr, DecidableEq

namespace BPMState

def getFrame (s : BPMState) (f : Nat) : Frame := s.frames.getD f zeroFrame

def setFrame (s : BPMState) (f : Nat) (fr : Frame) : BPMState :=
  { s with frames := s.frames.set f fr }

/-- `BufferPoolManager::FindFreeFrame`.  `wOk` is the success oracle for the
dirty-victim write-back. -/
def findFreeFrame (s : BPMState) (wOk : Bool) : Option Nat × BPMState :=
  match s.free_list with
  | f :: rest => (some f, { s with free_list := rest })
  | [] =>
    match lruVictim s.replacer with
    | (none, _) => (none, s)
    | (some f, rep) =>
      let s₁ := { s with replacer := rep }
      let victim := s₁.getFrame f
      let vpid := victim.pid_word
      let afterWrite : Option BPMState :=
        if victim.is_dirty then
          match s₁.disk.writePage vpid ⟨victim.pid_word, victim.payload⟩ wOk with
          | none => none
          | some d => some { s₁ with disk := d }
        else some s₁
      match afterWrite with
      | none =>
        -- write-back failed: put the frame back in the replacer and fail
        (none, { s₁ with replacer := lruUnpin s₁.replacer f })
      | some s₂ =>
        -- remove the victim's id from the page table, reset the frame
        (some f, { (s₂.setFrame f zeroFrame) with
                     page_table := assocErase s₂.page_table vpid })

/-- `BufferPoolManager::UpdatePage`: stamp the id, pin, insert into the page
table, remove from the replacer. -/
def updatePage (s : BPMState) (pid : Nat) (f : Nat) : BPMState :=
  let fr := s.getFrame f
  let s := s.setFrame f { fr with pid_word := pid, pin_count := fr.pin_count + 1 }
  { s with page_table := assocSet s.page_table pid f, replacer := lruPin s.replacer f }

/-- `BufferPoolManager::FetchPage`.  Returns the frame index of the fetched
page (a `Page*` in the source) or `none`. -/
def fetchPage (s : BPMState) (wOk : Bool) (pid : Nat) : Option Nat × BPMState :=
  match assocFind s.page_table pid with
  | some f =>
    let fr := s.getFrame f
    let s := s.setFrame f { fr with pin_count := fr.pin_count + 1 }
    (some f, { s with replacer := lruPin s.replacer f })
  | none =>
    match s.findFreeFrame wOk with
    | (none, s₁) => (none, s₁)
    | (some f, s₁) =>
      match s₁.disk.readPage pid with
      | none =>
        -- ReadPage threw: return the frame to the free list
        (none, { s₁ with free_list := s₁.free_list ++ [f] })
      | some dp =>
        let fr := s₁.getFrame f
        let s₂ := s₁.setFrame f { fr with pid_word := dp.pid_word, payload := dp.payload }
        (some f, s₂.updatePage pid f)

/-- `BufferPoolManager::UnpinPage`. -/
def unpinPage (s : BPMState) (pid : Nat) (isDirty : Bool) : Bool × BPMState :=
  match assocFind s.page_table pid with
  | none => (false, s)
  | some f =>
    let fr := s.getFrame f
    if fr.pin_count ≤ 0 then (false, s)
    else
      let fr := { fr with is_dirty := fr.is_dirty || isDirty }
      let fr := { fr with pin_count := fr.pin_count - 1 }
      let s := s.setFrame f fr
      if fr.pin_count = 0 then (true, { s with replacer := lruUnpin s.replacer f })
      else (true, s)

/-- `BufferPoolManager::NewPage`.  Returns `(page id, frame index)`. -/
def newPage (s : BPMState) (wOk : Bool) : Option (Nat × Nat) × BPMState :=
  match s.findFreeFrame wOk with
  | (none, s₁) => (none, s₁)
  | (some f, s₁) =>
    let (pid, d) := s₁.disk.allocatePage
    let s₂ := { s₁ with disk := d }
    -- ResetMemory; SetPageId; SetDirty(true)
    let s₃ := s₂.setFrame f { pid_word := pid, payload := zeroPayload,
                              pin_count := 0, is_dirty := true }
    (some (pid, f), s₃.updatePage pid f)

end BPMState

/-- `BufferPoolManager` constructor: `pool_size` zeroed frames, all frame
ids on the free list, empty page table and replacer. -/
def newBPM (pool : Nat) (d : DiskManagerState) : BPMState :=
  { frames := List.replicate pool zeroFrame,
    page_table := [],
    free_list := List.range pool,
    replacer := [],
    disk := d }

/-! ### SimpleBTree (`src/index/simple_btree.cpp`)

Tree operations drive the buffer pool with `wOk = true` (the tree-level
claims are about control flow and page contents, not about disk-write
failure, which only `FindFreeFrame` can hit).  A `LeafNode*`/`InternalNode*`
obtained from `GetLeafNode`/`GetInternalNode` is a pointer into a frame's
payload; it is modelled by the frame index, and every read or write through
the pointer goes to that frame's current payload, exactly as the aliasing
works in the source.  Where the source would dereference a null `Page*`
(it checks `FetchPage` results only in `GetLeafNode` callers that test for
`nullptr`), the model returns with the state unchanged; those paths are
unreachable in every scenario below (the pool is never exhausted). -/

structure TreeState where
  bpm : BPMState
  root_page_id : Nat
  is_root_leaf : Bool
deriving Repr, DecidableEq

namespace TreeState

/-- `SimpleBTree::IsEmpty`. -/
def isEmpty (t : TreeState) : Bool := t.root_page_id = INVALID_PAGE_ID

/-- `GetLeafNode`/`GetInternalNode`: `FetchPage` and reinterpret the frame's
payload area; the "pointer" is the frame index. -/
def getNode (t : TreeState) (pid : Nat) : Option Nat × TreeState :=
  let r := t.bpm.fetchPage true pid
  (r.1, { t with bpm := r.2 })

/-- Read through a node pointer (frame index). -/
def payloadOf (t : TreeState) (f : Nat) : NodePayload := (t.bpm.getFrame f).payload

/-- Write through a node pointer (frame index).  Writing through the pointer
does not touch the dirty bit; only `UnpinPage` does. -/
def modPayload (t : TreeState) (f : Nat) (g : NodePayload → NodePayload) : TreeState :=
  let fr := t.bpm.getFrame f
  { t with bpm := t.bpm.setFrame f { fr with payload := g fr.payload } }

def unpin (t : TreeState) (pid : Nat) (dirty : Bool) : TreeState :=
  { t with bpm := (t.bpm.unpinPage pid dirty).2 }

/-- `SimpleBTree::CreateLeafPage`: `NewPage`, placement-new a `LeafNode`,
unpin dirty; returns the new page id (or `INVALID_PAGE_ID` on failure). -/
def createLeafPage (t : TreeState) : Nat × TreeState :=
  match t.bpm.newPage true with
  | (none, b) => (INVALID_PAGE_ID, { t with bpm := b })
  | (some (pid, f), b) =>
    let t₁ := { t with bpm := b }
    let t₂ := t₁.modPayload f leafCtor
    (pid, t₂.unpin pid true)

/-- `SimpleBTree::CreateInternalPage`. -/
def createInternalPage (t : TreeState) : Nat × TreeState :=
  match t.bpm.newPage true with
  | (none, b) => (INVALID_PAGE_ID, { t with bpm := b })
  | (some (pid, f), b) =>
    let t₁ := { t with bpm := b }
    let t₂ := t₁.modPayload f internalCtor
    (pid, t₂.unpin pid true)

/-- `SimpleBTree::FindLeafPageId`.  Note the source's `while (true)` loop
returns `child_page_id` unconditionally at the end of its first iteration
("For simplicity, assume all children of internal nodes are leaves"), so an
internal root is descended exactly one step. -/
def findLeafPageId (t : TreeState) (key : Int) : Nat × TreeState :=
  if t.isEmpty then (INVALID_PAGE_ID, t)
  else if t.is_root_leaf then (t.root_page_id, t)
  else
    match t.getNode t.root_page_id with
    | (none, t₁) => (INVALID_PAGE_ID, t₁)
    | (some f, t₁) =>
      let childPid := (t₁.payloadOf f).findChild key
      (childPid, t₁.unpin t.root_page_id false)

/-- `SimpleBTree::Search`.  The C++ returns a `bool` and writes `*result`
only when found; modelled as `Option RID`. -/
def search (t : TreeState) (key : Int) : Option RID × TreeState :=
  if t.isEmpty then (none, t)
  else
    let (lpid, t₁) := t.findLeafPageId key
    match t₁.getNode lpid with
    | (none, t₂) => (none, t₂)
    | (some f, t₂) =>
      let p := t₂.payloadOf f
      let index := p.findKey key
      let found := 0 ≤ index ∧ index < p.num_keys ∧ p.key index.toNat = key
      let res := if found then some (p.leafValue index.toNat) else none
      (res, t₂.unpin lpid false)

/-- `SimpleBTree::Remove`.  `FindLeafNode` = `FindLeafPageId` + `GetLeafNode`;
the function then unpins `root_page_id_` — not the leaf it fetched (the
`// Simplified` line in the source). -/
def remove (t : TreeState) (key : Int) : Bool × TreeState :=
  if t.isEmpty then (false, t)
  else
    let (lpid, t₁) := t.findLeafPageId key
    match t₁.getNode lpid with
    | (none, t₂) => (false, t₂)
    | (some f, t₂) =>
      let r := (t₂.payloadOf f).leafRemove key
      let t₃ := t₂.modPayload f (fun _ => r.2)
      (r.1, t₃.unpin t₃.root_page_id r.1)

/-- `SimpleBTree::CreateNewRoot`: new internal page with one key and two
children; the children's parent pointers are updated through `GetLeafNode`,
i.e. through the **leaf** layout, whatever kind the children really are. -/
def createNewRoot (t : TreeState) (leftPid : Nat) (key : Int) (rightPid : Nat) : TreeState :=
  let (newRootPid, t₁) := t.createInternalPage
  match t₁.getNode newRootPid with
  | (none, t₂) => t₂
  | (some rf, t₂) =>
    let t₃ := t₂.modPayload rf fun q =>
      { ((q.setKey 0 key).setChild 0 leftPid).setChild 1 rightPid with num_keys := 1 }
    match t₃.getNode leftPid with
    | (none, t₄) => t₄
    | (some lf, t₄) =>
      let t₅ := (t₄.modPayload lf fun q => q.setLeafParent newRootPid).unpin leftPid true
      match t₅.getNode rightPid with
      | (none, t₆) => t₆
      | (some rf₂, t₆) =>
        let t₇ := (t₆.modPayload rf₂ fun q => q.setLeafParent newRootPid).unpin rightPid true
        let t₈ := { t₇ with root_page_id := newRootPid, is_root_leaf := false }
        t₈.unpin newRootPid true

/-- The copy loop of `SplitLeafNode`:
`for (i = split_point; i < leaf->num_keys; ++i) { new_leaf->keys[i-sp] = leaf->keys[i]; ... }`.
The bound is re-read from the leaf frame each iteration, as in the source. -/
def leafMoveLoop (f nf sp : Nat) : Nat → Nat → TreeState → TreeState
  | 0, _, t => t
  | fuel + 1, i, t =>
    if (i : Int) < (t.payloadOf f).num_keys then
      let leaf := t.payloadOf f
      let t₁ := t.modPayload nf fun q =>
        (q.setKey (i - sp) (leaf.key i)).setLeafValue (i - sp) (leaf.leafValue i)
      leafMoveLoop f nf sp fuel (i + 1) t₁
    else t

/-- The two copy loops of `SplitInternalNode` (keys from `split_point + 1`,
children up to and including index `num_keys`). -/
def internalKeysMoveLoop (f nf sp : Nat) : Nat → Nat → TreeState → TreeState
  | 0, _, t => t
  | fuel + 1, i, t =>
    if (i : Int) < (t.payloadOf f).num_keys then
      let node := t.payloadOf f
      internalKeysMoveLoop f nf sp fuel (i + 1)
        (t.modPayload nf fun q => q.setKey (i - sp - 1) (node.key i))
    else t

def internalChildrenMoveLoop (f nf sp : Nat) : Nat → Nat → TreeState → TreeState
  | 0, _, t => t
  | fuel + 1, i, t =>
    if (i : Int) ≤ (t.payloadOf f).num_keys then
      let node := t.payloadOf f
      internalChildrenMoveLoop f nf sp fuel (i + 1)
        (t.modPayload nf fun q => q.setChild (i - sp - 1) (node.child i))
    else t

end TreeState

mutual

/-- `SimpleBTree::Insert`.  The fuel bounds the retry recursion
(`Insert` retries itself after a split; `InsertIntoParent` retries itself
after splitting a full parent); fuel 20 covers every scenario in this file
with a wide margin. -/
def insertF : Nat → Int → RID → TreeState → Bool × TreeState
  | 0, _, _, t => (false, t)
  | fuel + 1, key, value, t =>
    if t.isEmpty then
      let (rootPid, t₁) := t.createLeafPage
      let t₂ := { t₁ with root_page_id := rootPid, is_root_leaf := true }
      match t₂.getNode rootPid with
      | (none, t₃) => (false, t₃)   -- the source would dereference null here
      | (some f, t₃) =>
        let r := (t₃.payloadOf f).leafInsert key value
        let t₄ := t₃.modPayload f (fun _ => r.2)
        (r.1, t₄.unpin rootPid true)
    else
      let (lpid, t₁) := t.findLeafPageId key
      match t₁.getNode lpid with
      | (none, t₂) => (false, t₂)
      | (some f, t₂) =>
        let p := t₂.payloadOf f
        let pos := p.findKey key
        if pos < p.num_keys ∧ p.key pos.toNat = key then
          (false, t₂.unpin lpid false)
        else if ¬ p.isFull then
          let r := p.leafInsert key value
          let t₃ := t₂.modPayload f (fun _ => r.2)
          (r.1, t₃.unpin lpid r.1)
        else
          let t₃ := splitLeafNodeF fuel f lpid t₂
          insertF fuel key value (t₃.unpin lpid true)

/-- `SimpleBTree::SplitLeafNode` (called with the pinned leaf's frame index
and page id). -/
def splitLeafNodeF : Nat → Nat → Nat → TreeState → TreeState
  | 0, _, _, t => t
  | fuel + 1, f, leafPid, t =>
    let (newPid, t₁) := t.createLeafPage
    match t₁.getNode newPid with
    | (none, t₂) => t₂
    | (some nf, t₂) =>
      let sp : Nat := 5    -- LeafNode::MAX_KEYS / 2
      let t₃ := TreeState.leafMoveLoop f nf sp 16 sp t₂
      let nk := (t₃.payloadOf f).num_keys
      let t₄ := t₃.modPayload nf fun q => { q with num_keys := nk - (sp : Int) }
      let t₅ := t₄.modPayload f fun q => { q with num_keys := (sp : Int) }
      let t₆ := t₅.modPayload nf fun q => q.setLeafNext ((t₅.payloadOf f).leafNext)
      let t₇ := t₆.modPayload f fun q => q.setLeafNext newPid
      let t₈ := t₇.modPayload nf fun q => q.setLeafParent ((t₇.payloadOf f).leafParent)
      let promoteKey := (t₈.payloadOf nf).key 0
      let t₉ := t₈.unpin newPid true
      if (t₉.payloadOf f).leafParent = INVALID_PAGE_ID then
        t₉.createNewRoot leafPid promoteKey newPid
      else
        insertIntoParentF fuel leafPid promoteKey newPid t₉

/-- `SimpleBTree::SplitInternalNode`. -/
def splitInternalNodeF : Nat → Nat → Nat → TreeState → TreeState
  | 0, _, _, t => t
  | fuel + 1, f, internalPid, t =>
    let (newPid, t₁) := t.createInternalPage
    match t₁.getNode newPid with
    | (none, t₂) => t₂
    | (some nf, t₂) =>
      let sp : Nat := 5    -- InternalNode::MAX_KEYS / 2
      let promoteKey := (t₂.payloadOf f).key sp
      let t₃ := TreeState.internalKeysMoveLoop f nf sp 16 (sp + 1) t₂
      let t₄ := TreeState.internalChildrenMoveLoop f nf sp 16 (sp + 1) t₃
      let nk := (t₄.payloadOf f).num_keys
      let t₅ := t₄.modPayload nf fun q => { q with num_keys := nk - (sp : Int) - 1 }
      let t₆ := t₅.modPayload f fun q => { q with num_keys := (sp : Int) }
      let t₇ := t₆.modPayload nf fun q => q.setInternalParent ((t₆.payloadOf f).internalParent)
      let t₈ := t₇.unpin newPid true
      if (t₈.payloadOf f).internalParent = INVALID_PAGE_ID then
        t₈.createNewRoot internalPid promoteKey newPid
      else
        insertIntoParentF fuel internalPid promoteKey newPid t₈

/-- `SimpleBTree::InsertIntoParent`.  The parent id is read from the left
child through `GetLeafNode`, i.e. through the **leaf** layout. -/
def insertIntoParentF : Nat → Nat → Int → Nat → TreeState → TreeState
  | 0, _, _, _, t => t
  | fuel + 1, leftPid, key, rightPid, t =>
    match t.getNode leftPid with
    | (none, t₁) => t₁
    | (some lf, t₁) =>
      let parentPid := (t₁.payloadOf lf).leafParent
      let t₂ := t₁.unpin leftPid false
      match t₂.getNode parentPid with
      | (none, t₃) => t₃
      | (some pf, t₃) =>
        if ¬ (t₃.payloadOf pf).isFull then
          let r := (t₃.payloadOf pf).internalInsert key rightPid
          let t₄ := t₃.modPayload pf (fun _ => r.2)
          t₄.unpin parentPid true
        else
          let t₄ := splitInternalNodeF fuel pf parentPid t₃
          insertIntoParentF fuel leftPid key rightPid (t₄.unpin parentPid true)

end

/-- `SimpleBTree::Insert` as called by clients (fresh fuel per call). -/
def TreeState.insert (t : TreeState) (key : Int) (value : RID) : Bool × TreeState :=
  insertF 20 key value t

/-- `SimpleBTree` constructor over a fresh buffer pool and database file. -/
def newTree (pool : Nat) : TreeState :=
  { bpm := newBPM pool freshDisk, root_page_id := INVALID_PAGE_ID, is_root_leaf := true }

/-- Insert a list of keys in order (value `RID(k, 0)` for key `k`), recording
whether every insert returned `true`. -/
def insertKeys (ks : List Int) (t : TreeState) : Bool × TreeState :=
  ks.foldl (fun acc k =>
    let r := acc.2.insert k ⟨k.toNat, 0⟩
    (acc.1 && r.1, r.2)) (true, t)

/-- Observe the node stored at a page id: the payload of its frame if
resident, else the payload of its disk slot. -/
def TreeState.nodeAt (t : TreeState) (pid : Nat) : NodePayload :=
  match assocFind t.bpm.page_table pid with
  | some f => (t.bpm.getFrame f).payload
  | none => ((assocFind t.bpm.disk.file pid).getD zeroDiskPage).payload

/-! ### Concrete executions used by the claims

`T0 … T61` is the run that inserts keys 1..61 (values `RID(k, 0)`) in
ascending order into a fresh tree over a 16-frame pool.  Inserting 61
keys drives ten leaf splits (filling the internal root) and then the
first internal split and second root creation, producing a tree of
depth 3.  Each `Tᵢ` is the machine state after the i-th insert, written
out literally so that each step of the run is a single cheap equation
(`chainHolds`). -/

def T0 : TreeState := newTree 16
def T1 : TreeState := { bpm := { frames := [{ pid_word := 1, payload := { num_keys := 1, keys := [1, 0, 0, 0, 0, 0, 0, 0, 0, 0], words := [1, 0, 0, 0, 0, 0, 0, 0, 0, 0, 0, 0, 0, 0, 0, 0, 0, 0, 0, 0, 4294967295, 4294967295] }, pin_count := 0, is_dirty := true }, zeroFrame, zeroFrame, zeroFrame, zeroFrame, zeroFrame, zeroFrame, zeroFrame, zeroFrame, zeroFrame, zeroFrame, zeroFrame, zeroFrame, zeroFrame, zeroFrame, zeroFrame], page_table := [(1, 0)], free_list := [1, 2, 3, 4, 5, 6, 7, 8, 9, 10, 11, 12, 13, 14, 15], replacer := [0], disk := { num_pages := 2, free_list := [], file := [(0, { pid_word := 3735928559, payload := zeroPayload })] } }, root_page_id := 1, is_root_leaf := true }
def T2 : TreeState := { bpm := { frames := [{ pid_word := 1, payload := { num_keys := 2, keys := [1, 2, 0, 0, 0, 0, 0, 0, 0, 0], words := [1, 0, 2, 0, 0, 0, 0, 0, 0, 0, 0, 0, 0, 0, 0, 0, 0, 0, 0, 0, 4294967295, 4294967295] }, pin_count := 0, is_dirty := true }, zeroFrame, zeroFrame, zeroFrame, zeroFrame, zeroFrame, zeroFrame, zeroFrame, zeroFrame, zeroFrame, zeroFrame, zeroFrame, zeroFrame, zeroFrame, zeroFrame, zeroFrame], page_table := [(1, 0)], free_list := [1, 2, 3, 4, 5, 6, 7, 8, 9, 10, 11, 12, 13, 14, 15], replacer := [0], disk := { num_pages := 2, free_list := [], file := [(0, { pid_word := 3735928559, payload := zeroPayload })] } }, root_page_id := 1, is_root_leaf := true }
def T3 : TreeState := { bpm := { frames := [{ pid_word := 1, payload := { num_keys := 3, keys := [1, 2, 3, 0, 0, 0, 0, 0, 0, 0], words := [1, 0, 2, 0, 3, 0, 0, 0, 0, 0, 0, 0, 0, 0, 0, 0, 0, 0, 0, 0, 4294967295, 4294967295] }, pin_count := 0, is_dirty := true }, zeroFrame, zeroFrame, zeroFrame, zeroFrame, zeroFrame, zeroFrame, zeroFrame, zeroFrame, zeroFrame, zeroFrame, zeroFrame, zeroFrame, zeroFrame, zeroFrame, zeroFrame], page_table := [(1, 0)], free_list := [1, 2, 3, 4, 5, 6, 7, 8, 9, 10, 11, 12, 13, 14, 15], replacer := [0], disk := { num_pages := 2, free_list := [], file := [(0, { pid_word := 3735928559, payload := zeroPayload })] } }, root_page_id := 1, is_root_leaf := true }
def T4 : TreeState := { bpm := { frames := [{ pid_word := 1, payload := { num_keys := 4, keys := [1, 2, 3, 4, 0, 0, 0, 0, 0, 0], words := [1, 0, 2, 0, 3, 0, 4, 0, 0, 0, 0, 0, 0, 0, 0, 0, 0, 0, 0, 0, 4294967295, 4294967295] }, pin_count := 0, is_dirty := true }, zeroFrame, zeroFrame, zeroFrame, zeroFrame, zeroFrame, zeroFrame, zeroFrame, zeroFrame, zeroFrame, zeroFrame, zeroFrame, zeroFrame, zeroFrame, zeroFrame, zeroFrame], page_table := [(1, 0)], free_list := [1, 2, 3, 4, 5, 6, 7, 8, 9, 10, 11, 12, 13, 14, 15], replacer := [0], disk := { num_pages := 2, free_list := [], file := [(0, { pid_word := 3735928559, payload := zeroPayload })] } }, root_page_id := 1, is_root_leaf := true }
def T5 : TreeState := { bpm := { frames := [{ pid_word := 1, payload := { num_keys := 5, keys := [1, 2, 3, 4, 5, 0, 0, 0, 0, 0], words := [1, 0, 2, 0, 3, 0, 4, 0, 5, 0, 0, 0, 0, 0, 0, 0, 0, 0, 0, 0, 4294967295, 4294967295] }, pin_count := 0, is_dirty := true }, zeroFrame, zeroFrame, zeroFrame, zeroFrame, zeroFrame, zeroFrame, zeroFrame, zeroFrame, zeroFrame, zeroFrame, zeroFrame, zeroFrame, zeroFrame, zeroFrame, zeroFrame], page_table := [(1, 0)], free_list := [1, 2, 3, 4, 5, 6, 7, 8, 9, 10, 11, 12, 13, 14, 15], replacer := [0], disk := { num_pages := 2, free_list := [], file := [(0, { pid_word := 3735928559, payload := zeroPayload })] } }, root_page_id := 1, is_root_leaf := true }
def T6 : TreeState := { bpm := { frames := [{ pid_word := 1, payload := { num_keys := 6, keys := [1, 2, 3, 4, 5, 6, 0, 0, 0, 0], words := [1, 0, 2, 0, 3, 0, 4, 0, 5, 0, 6, 0, 0, 0, 0, 0, 0, 0, 0, 0, 4294967295, 4294967295] }, pin_count := 0, is_dirty := true }, zeroFrame, zeroFrame, zeroFrame, zeroFrame, zeroFrame, zeroFrame, zeroFrame, zeroFrame, zeroFrame, zeroFrame, zeroFrame, zeroFrame, zeroFrame, zeroFrame, zeroFrame], page_table := [(1, 0)], free_list := [1, 2, 3, 4, 5, 6, 7, 8, 9, 10, 11, 12, 13, 14, 15], replacer := [0], disk := { num_pages := 2, free_list := [], file := [(0, { pid_word := 3735928559, payload := zeroPayload })] } }, root_page_id := 1, is_root_leaf := true }
def T7 : TreeState := { bpm := { frames := [{ pid_word := 1, payload := { num_keys := 7, keys := [1, 2, 3, 4, 5, 6, 7, 0, 0, 0], words := [1, 0, 2, 0, 3, 0, 4, 0, 5, 0, 6, 0, 7, 0, 0, 0, 0, 0, 0, 0, 4294967295, 4294967295] }, pin_count := 0, is_dirty := true }, zeroFrame, zeroFrame, zeroFrame, zeroFrame, zeroFrame, zeroFrame, zeroFrame, zeroFrame, zeroFrame, zeroFrame, zeroFrame, zeroFrame, zeroFrame, zeroFrame, zeroFrame], page_table := [(1, 0)], free_list := [1, 2, 3, 4, 5, 6, 7, 8, 9, 10, 11, 12, 13, 14, 15], replacer := [0], disk := { num_pages := 2, free_list := [], file := [(0, { pid_word := 3735928559, payload := zeroPayload })] } }, root_page_id := 1, is_root_leaf := true }
def T8 : TreeState := { bpm := { frames := [{ pid_word := 1, payload := { num_keys := 8, keys := [1, 2, 3, 4, 5, 6, 7, 8, 0, 0], words := [1, 0, 2, 0, 3, 0, 4, 0, 5, 0, 6, 0, 7, 0, 8, 0, 0, 0, 0, 0, 4294967295, 4294967295] }, pin_count := 0, is_dirty := true }, zeroFrame, zeroFrame, zeroFrame, zeroFrame, zeroFrame, zeroFrame, zeroFrame, zeroFrame, zeroFrame, zeroFrame, zeroFrame, zeroFrame, zeroFrame, zeroFrame, zeroFrame], page_table := [(1, 0)], free_list := [1, 2, 3, 4, 5, 6, 7, 8, 9, 10, 11, 12, 13, 14, 15], replacer := [0], disk := { num_pages := 2, free_list := [], file := [(0, { pid_word := 3735928559, payload := zeroPayload })] } }, root_page_id := 1, is_root_leaf := true }
def T9 : TreeState := { bpm := { frames := [{ pid_word := 1, payload := { num_keys := 9, keys := [1, 2, 3, 4, 5, 6, 7, 8, 9, 0], words := [1, 0, 2, 0, 3, 0, 4, 0, 5, 0, 6, 0, 7, 0, 8, 0, 9, 0, 0, 0, 4294967295, 4294967295] }, pin_count := 0, is_dirty := true }, zeroFrame, zeroFrame, zeroFrame, zeroFrame, zeroFrame, zeroFrame, zeroFrame, zeroFrame, zeroFrame, zeroFrame, zeroFrame, zeroFrame, zeroFrame, zeroFrame, zeroFrame], page_table := [(1, 0)], free_list := [1, 2, 3, 4, 5, 6, 7, 8, 9, 10, 11, 12, 13, 14, 15], replacer := [0], disk := { num_pages := 2, free_list := [], file := [(0, { pid_word := 3735928559, payload := zeroPayload })] } }, root_page_id := 1, is_root_leaf := true }
def T10 : TreeState := { bpm := { frames := [{ pid_word := 1, payload := { num_keys := 10, keys := [1, 2, 3, 4, 5, 6, 7, 8, 9, 10], words := [1, 0, 2, 0, 3, 0, 4, 0, 5, 0, 6, 0, 7, 0, 8, 0, 9, 0, 10, 0, 4294967295, 4294967295] }, pin_count := 0, is_dirty := true }, zeroFrame, zeroFrame, zeroFrame, zeroFrame, zeroFrame, zeroFrame, zeroFrame, zeroFrame, zeroFrame, zeroFrame, zeroFrame, zeroFrame, zeroFrame, zeroFrame, zeroFrame], page_table := [(1, 0)], free_list := [1, 2, 3, 4, 5, 6, 7, 8, 9, 10, 11, 12, 13, 14, 15], replacer := [0], disk := { num_pages := 2, free_list := [], file := [(0, { pid_word := 3735928559, payload := zeroPayload })] } }, root_page_id := 1, is_root_leaf := true }
def T11 : TreeState := { bpm := { frames := [{ pid_word := 1, payload := { num_keys := 5, keys := [1, 2, 3, 4, 5, 6, 7, 8, 9, 10], words := [1, 0, 2, 0, 3, 0, 4, 0, 5, 0, 6, 0, 7, 0, 8, 0, 9, 0, 10, 0, 2, 3] }, pin_count := 0, is_dirty := true }, { pid_word := 2, payload := { num_keys := 6, keys := [6, 7, 8, 9, 10, 11, 0, 0, 0, 0], words := [6, 0, 7, 0, 8, 0, 9, 0, 10, 0, 11, 0, 0, 0, 0, 0, 0, 0, 0, 0, 4294967295, 3] }, pin_count := 0, is_dirty := true }, { pid_word := 3, payload := { num_keys := 1, keys := [6, 0, 0, 0, 0, 0, 0, 0, 0, 0], words := [1, 2, 0, 0, 0, 0, 0, 0, 0, 0, 0, 4294967295, 0, 0, 0, 0, 0, 0, 0, 0, 0, 0] }, pin_count := 0, is_dirty := true }, zeroFrame, zeroFrame, zeroFrame, zeroFrame, zeroFrame, zeroFrame, zeroFrame, zeroFrame, zeroFrame, zeroFrame, zeroFrame, zeroFrame, zeroFrame], page_table := [(1, 0), (2, 1), (3, 2)], free_list := [3, 4, 5, 6, 7, 8, 9, 10, 11, 12, 13, 14, 15], replacer := [1, 2, 0], disk := { num_pages := 4, free_list := [], file := [(0, { pid_word := 3735928559, payload := zeroPayload })] } }, root_page_id := 3, is_root_leaf := false }
def T12 : TreeState := { bpm := { frames := [{ pid_word := 1, payload := { num_keys := 5, keys := [1, 2, 3, 4, 5, 6, 7, 8, 9, 10], words := [1, 0, 2, 0, 3, 0, 4, 0, 5, 0, 6, 0, 7, 0, 8, 0, 9, 0, 10, 0, 2, 3] }, pin_count := 0, is_dirty := true }, { pid_word := 2, payload := { num_keys := 7, keys := [6, 7, 8, 9, 10, 11, 12, 0, 0, 0], words := [6, 0, 7, 0, 8, 0, 9, 0, 10, 0, 11, 0, 12, 0, 0, 0, 0, 0, 0, 0, 4294967295, 3] }, pin_count := 0, is_dirty := true }, { pid_word := 3, payload := { num_keys := 1, keys := [6, 0, 0, 0, 0, 0, 0, 0, 0, 0], words := [1, 2, 0, 0, 0, 0, 0, 0, 0, 0, 0, 4294967295, 0, 0, 0, 0, 0, 0, 0, 0, 0, 0] }, pin_count := 0, is_dirty := true }, zeroFrame, zeroFrame, zeroFrame, zeroFrame, zeroFrame, zeroFrame, zeroFrame, zeroFrame, zeroFrame, zeroFrame, zeroFrame, zeroFrame, zeroFrame], page_table := [(1, 0), (2, 1), (3, 2)], free_list := [3, 4, 5, 6, 7, 8, 9, 10, 11, 12, 13, 14, 15], replacer := [1, 2, 0], disk := { num_pages := 4, free_list := [], file := [(0, { pid_word := 3735928559, payload := zeroPayload })] } }, root_page_id := 3, is_root_leaf := false }
def T13 : TreeState := { bpm := { frames := [{ pid_word := 1, payload := { num_keys := 5, keys := [1, 2, 3, 4, 5, 6, 7, 8, 9, 10], words := [1, 0, 2, 0, 3, 0, 4, 0, 5, 0, 6, 0, 7, 0, 8, 0, 9, 0, 10, 0, 2, 3] }, pin_count := 0, is_dirty := true }, { pid_word := 2, payload := { num_keys := 8, keys := [6, 7, 8, 9, 10, 11, 12, 13, 0, 0], words := [6, 0, 7, 0, 8, 0, 9, 0, 10, 0, 11, 0, 12, 0, 13, 0, 0, 0, 0, 0, 4294967295, 3] }, pin_count := 0, is_dirty := true }, { pid_word := 3, payload := { num_keys := 1, keys := [6, 0, 0, 0, 0, 0, 0, 0, 0, 0], words := [1, 2, 0, 0, 0, 0, 0, 0, 0, 0, 0, 4294967295, 0, 0, 0, 0, 0, 0, 0, 0, 0, 0] }, pin_count := 0, is_dirty := true }, zeroFrame, zeroFrame, zeroFrame, zeroFrame, zeroFrame, zeroFrame, zeroFrame, zeroFrame, zeroFrame, zeroFrame, zeroFrame, zeroFrame, zeroFrame], page_table := [(1, 0), (2, 1), (3, 2)], free_list := [3, 4, 5, 6, 7, 8, 9, 10, 11, 12, 13, 14, 15], replacer := [1, 2, 0], disk := { num_pages := 4, free_list := [], file := [(0, { pid_word := 3735928559, payload := zeroPayload })] } }, root_page_id := 3, is_root_leaf := false }
def T14 : TreeState := { bpm := { frames := [{ pid_word := 1, payload := { num_keys := 5, keys := [1, 2, 3, 4, 5, 6, 7, 8, 9, 10], words := [1, 0, 2, 0, 3, 0, 4, 0, 5, 0, 6, 0, 7, 0, 8, 0, 9, 0, 10, 0, 2, 3] }, pin_count := 0, is_dirty := true }, { pid_word := 2, payload := { num_keys := 9, keys := [6, 7, 8, 9, 10, 11, 12, 13, 14, 0], words := [6, 0, 7, 0, 8, 0, 9, 0, 10, 0, 11, 0, 12, 0, 13, 0, 14, 0, 0, 0, 4294967295, 3] }, pin_count := 0, is_dirty := true }, { pid_word := 3, payload := { num_keys := 1, keys := [6, 0, 0, 0, 0, 0, 0, 0, 0, 0], words := [1, 2, 0, 0, 0, 0, 0, 0, 0, 0, 0, 4294967295, 0, 0, 0, 0, 0, 0, 0, 0, 0, 0] }, pin_count := 0, is_dirty := true }, zeroFrame, zeroFrame, zeroFrame, zeroFrame, zeroFrame, zeroFrame, zeroFrame, zeroFrame, zeroFrame, zeroFrame, zeroFrame, zeroFrame, zeroFrame], page_table := [(1, 0), (2, 1), (3, 2)], free_list := [3, 4, 5, 6, 7, 8, 9, 10, 11, 12, 13, 14, 15], replacer := [1, 2, 0], disk := { num_pages := 4, free_list := [], file := [(0, { pid_word := 3735928559, payload := zeroPayload })] } }, root_page_id := 3, is_root_leaf := false }
def T15 : TreeState := { bpm := { frames := [{ pid_word := 1, payload := { num_keys := 5, keys := [1, 2, 3, 4, 5, 6, 7, 8, 9, 10], words := [1, 0, 2, 0, 3, 0, 4, 0, 5, 0, 6, 0, 7, 0, 8, 0, 9, 0, 10, 0, 2, 3] }, pin_count := 0, is_dirty := true }, { pid_word := 2, payload := { num_keys := 10, keys := [6, 7, 8, 9, 10, 11, 12, 13, 14, 15], words := [6, 0, 7, 0, 8, 0, 9, 0, 10, 0, 11, 0, 12, 0, 13, 0, 14, 0, 15, 0, 4294967295, 3] }, pin_count := 0, is_dirty := true }, { pid_word := 3, payload := { num_keys := 1, keys := [6, 0, 0, 0, 0, 0, 0, 0, 0, 0], words := [1, 2, 0, 0, 0, 0, 0, 0, 0, 0, 0, 4294967295, 0, 0, 0, 0, 0, 0, 0, 0, 0, 0] }, pin_count := 0, is_dirty := true }, zeroFrame, zeroFrame, zeroFrame, zeroFrame, zeroFrame, zeroFrame, zeroFrame, zeroFrame, zeroFrame, zeroFrame, zeroFrame, zeroFrame, zeroFrame], page_table := [(1, 0), (2, 1), (3, 2)], free_list := [3, 4, 5, 6, 7, 8, 9, 10, 11, 12, 13, 14, 15], replacer := [1, 2, 0], disk := { num_pages := 4, free_list := [], file := [(0, { pid_word := 3735928559, payload := zeroPayload })] } }, root_page_id := 3, is_root_leaf := false }
def T16 : TreeState := { bpm := { frames := [{ pid_word := 1, payload := { num_keys := 5, keys := [1, 2, 3, 4, 5, 6, 7, 8, 9, 10], words := [1, 0, 2, 0, 3, 0, 4, 0, 5, 0, 6, 0, 7, 0, 8, 0, 9, 0, 10, 0, 2, 3] }, pin_count := 0, is_dirty := true }, { pid_word := 2, payload := { num_keys := 5, keys := [6, 7, 8, 9, 10, 11, 12, 13, 14, 15], words := [6, 0, 7, 0, 8, 0, 9, 0, 10, 0, 11, 0, 12, 0, 13, 0, 14, 0, 15, 0, 4, 3] }, pin_count := 0, is_dirty := true }, { pid_word := 3, payload := { num_keys := 2, keys := [6, 11, 0, 0, 0, 0, 0, 0, 0, 0], words := [1, 2, 4, 0, 0, 0, 0, 0, 0, 0, 0, 4294967295, 0, 0, 0, 0, 0, 0, 0, 0, 0, 0] }, pin_count := 0, is_dirty := true }, { pid_word := 4, payload := { num_keys := 6, keys := [11, 12, 13, 14, 15, 16, 0, 0, 0, 0], words := [11, 0, 12, 0, 13, 0, 14, 0, 15, 0, 16, 0, 0, 0, 0, 0, 0, 0, 0, 0, 4294967295, 3] }, pin_count := 0, is_dirty := true }, zeroFrame, zeroFrame, zeroFrame, zeroFrame, zeroFrame, zeroFrame, zeroFrame, zeroFrame, zeroFrame, zeroFrame, zeroFrame, zeroFrame], page_table := [(1, 0), (2, 1), (3, 2), (4, 3)], free_list := [4, 5, 6, 7, 8, 9, 10, 11, 12, 13, 14, 15], replacer := [3, 2, 1, 0], disk := { num_pages := 5, free_list := [], file := [(0, { pid_word := 3735928559, payload := zeroPayload })] } }, root_page_id := 3, is_root_leaf := false }
def T17 : TreeState := { bpm := { frames := [{ pid_word := 1, payload := { num_keys := 5, keys := [1, 2, 3, 4, 5, 6, 7, 8, 9, 10], words := [1, 0, 2, 0, 3, 0, 4, 0, 5, 0, 6, 0, 7, 0, 8, 0, 9, 0, 10, 0, 2, 3] }, pin_count := 0, is_dirty := true }, { pid_word := 2, payload := { num_keys := 5, keys := [6, 7, 8, 9, 10, 11, 12, 13, 14, 15], words := [6, 0, 7, 0, 8, 0, 9, 0, 10, 0, 11, 0, 12, 0, 13, 0, 14, 0, 15, 0, 4, 3] }, pin_count := 0, is_dirty := true }, { pid_word := 3, payload := { num_keys := 2, keys := [6, 11, 0, 0, 0, 0, 0, 0, 0, 0], words := [1, 2, 4, 0, 0, 0, 0, 0, 0, 0, 0, 4294967295, 0, 0, 0, 0, 0, 0, 0, 0, 0, 0] }, pin_count := 0, is_dirty := true }, { pid_word := 4, payload := { num_keys := 7, keys := [11, 12, 13, 14, 15, 16, 17, 0, 0, 0], words := [11, 0, 12, 0, 13, 0, 14, 0, 15, 0, 16, 0, 17, 0, 0, 0, 0, 0, 0, 0, 4294967295, 3] }, pin_count := 0, is_dirty := true }, zeroFrame, zeroFrame, zeroFrame, zeroFrame, zeroFrame, zeroFrame, zeroFrame, zeroFrame, zeroFrame, zeroFrame, zeroFrame, zeroFrame], page_table := [(1, 0), (2, 1), (3, 2), (4, 3)], free_list := [4, 5, 6, 7, 8, 9, 10, 11, 12, 13, 14, 15], replacer := [3, 2, 1, 0], disk := { num_pages := 5, free_list := [], file := [(0, { pid_word := 3735928559, payload := zeroPayload })] } }, root_page_id := 3, is_root_leaf := false }
def T18 : TreeState := { bpm := { frames := [{ pid_word := 1, payload := { num_keys := 5, keys := [1, 2, 3, 4, 5, 6, 7, 8, 9, 10], words := [1, 0, 2, 0, 3, 0, 4, 0, 5, 0, 6, 0, 7, 0, 8, 0, 9, 0, 10, 0, 2, 3] }, pin_count := 0, is_dirty := true }, { pid_word := 2, payload := { num_keys := 5, keys := [6, 7, 8, 9, 10, 11, 12, 13, 14, 15], words := [6, 0, 7, 0, 8, 0, 9, 0, 10, 0, 11, 0, 12, 0, 13, 0, 14, 0, 15, 0, 4, 3] }, pin_count := 0, is_dirty := true }, { pid_word := 3, payload := { num_keys := 2, keys := [6, 11, 0, 0, 0, 0, 0, 0, 0, 0], words := [1, 2, 4, 0, 0, 0, 0, 0, 0, 0, 0, 4294967295, 0, 0, 0, 0, 0, 0, 0, 0, 0, 0] }, pin_count := 0, is_dirty := true }, { pid_word := 4, payload := { num_keys := 8, keys := [11, 12, 13, 14, 15, 16, 17, 18, 0, 0], words := [11, 0, 12, 0, 13, 0, 14, 0, 15, 0, 16, 0, 17, 0, 18, 0, 0, 0, 0, 0, 4294967295, 3] }, pin_count := 0, is_dirty := true }, zeroFrame, zeroFrame, zeroFrame, zeroFrame, zeroFrame, zeroFrame, zeroFrame, zeroFrame, zeroFrame, zeroFrame, zeroFrame, zeroFrame], page_table := [(1, 0), (2, 1), (3, 2), (4, 3)], free_list := [4, 5, 6, 7, 8, 9, 10, 11, 12, 13, 14, 15], replacer := [3, 2, 1, 0], disk := { num_pages := 5, free_list := [], file := [(0, { pid_word := 3735928559, payload := zeroPayload })] } }, root_page_id := 3, is_root_leaf := false }
def T19 : TreeState := { bpm := { frames := [{ pid_word := 1, payload := { num_keys := 5, keys := [1, 2, 3, 4, 5, 6, 7, 8, 9, 10], words := [1, 0, 2, 0, 3, 0, 4, 0, 5, 0, 6, 0, 7, 0, 8, 0, 9, 0, 10, 0, 2, 3] }, pin_count := 0, is_dirty := true }, { pid_word := 2, payload := { num_keys := 5, keys := [6, 7, 8, 9, 10, 11, 12, 13, 14, 15], words := [6, 0, 7, 0, 8, 0, 9, 0, 10, 0, 11, 0, 12, 0, 13, 0, 14, 0, 15, 0, 4, 3] }, pin_count := 0, is_dirty := true }, { pid_word := 3, payload := { num_keys := 2, keys := [6, 11, 0, 0, 0, 0, 0, 0, 0, 0], words := [1, 2, 4, 0, 0, 0, 0, 0, 0, 0, 0, 4294967295, 0, 0, 0, 0, 0, 0, 0, 0, 0, 0] }, pin_count := 0, is_dirty := true }, { pid_word := 4, payload := { num_keys := 9, keys := [11, 12, 13, 14, 15, 16, 17, 18, 19, 0], words := [11, 0, 12, 0, 13, 0, 14, 0, 15, 0, 16, 0, 17, 0, 18, 0, 19, 0, 0, 0, 4294967295, 3] }, pin_count := 0, is_dirty := true }, zeroFrame, zeroFrame, zeroFrame, zeroFrame, zeroFrame, zeroFrame, zeroFrame, zeroFrame, zeroFrame, zeroFrame, zeroFrame, zeroFrame], page_table := [(1, 0), (2, 1), (3, 2), (4, 3)], free_list := [4, 5, 6, 7, 8, 9, 10, 11, 12, 13, 14, 15], replacer := [3, 2, 1, 0], disk := { num_pages := 5, free_list := [], file := [(0, { pid_word := 3735928559, payload := zeroPayload })] } }, root_page_id := 3, is_root_leaf := false }
def T20 : TreeState := { bpm := { frames := [{ pid_word := 1, payload := { num_keys := 5, keys := [1, 2, 3, 4, 5, 6, 7, 8, 9, 10], words := [1, 0, 2, 0, 3, 0, 4, 0, 5, 0, 6, 0, 7, 0, 8, 0, 9, 0, 10, 0, 2, 3] }, pin_count := 0, is_dirty := true }, { pid_word := 2, payload := { num_keys := 5, keys := [6, 7, 8, 9, 10, 11, 12, 13, 14, 15], words := [6, 0, 7, 0, 8, 0, 9, 0, 10, 0, 11, 0, 12, 0, 13, 0, 14, 0, 15, 0, 4, 3] }, pin_count := 0, is_dirty := true }, { pid_word := 3, payload := { num_keys := 2, keys := [6, 11, 0, 0, 0, 0, 0, 0, 0, 0], words := [1, 2, 4, 0, 0, 0, 0, 0, 0, 0, 0, 4294967295, 0, 0, 0, 0, 0, 0, 0, 0, 0, 0] }, pin_count := 0, is_dirty := true }, { pid_word := 4, payload := { num_keys := 10, keys := [11, 12, 13, 14, 15, 16, 17, 18, 19, 20], words := [11, 0, 12, 0, 13, 0, 14, 0, 15, 0, 16, 0, 17, 0, 18, 0, 19, 0, 20, 0, 4294967295, 3] }, pin_count := 0, is_dirty := true }, zeroFrame, zeroFrame, zeroFrame, zeroFrame, zeroFrame, zeroFrame, zeroFrame, zeroFrame, zeroFrame, zeroFrame, zeroFrame, zeroFrame], page_table := [(1, 0), (2, 1), (3, 2), (4, 3)], free_list := [4, 5, 6, 7, 8, 9, 10, 11, 12, 13, 14, 15], replacer := [3, 2, 1, 0], disk := { num_pages := 5, free_list := [], file := [(0, { pid_word := 3735928559, payload := zeroPayload })] } }, root_page_id := 3, is_root_leaf := false }
def T21 : TreeState := { bpm := { frames := [{ pid_word := 1, payload := { num_keys := 5, keys := [1, 2, 3, 4, 5, 6, 7, 8, 9, 10], words := [1, 0, 2, 0, 3, 0, 4, 0, 5, 0, 6, 0, 7, 0, 8, 0, 9, 0, 10, 0, 2, 3] }, pin_count := 0, is_dirty := true }, { pid_word := 2, payload := { num_keys := 5, keys := [6, 7, 8, 9, 10, 11, 12, 13, 14, 15], words := [6, 0, 7, 0, 8, 0, 9, 0, 10, 0, 11, 0, 12, 0, 13, 0, 14, 0, 15, 0, 4, 3] }, pin_count := 0, is_dirty := true }, { pid_word := 3, payload := { num_keys := 3, keys := [6, 11, 16, 0, 0, 0, 0, 0, 0, 0], words := [1, 2, 4, 5, 0, 0, 0, 0, 0, 0, 0, 4294967295, 0, 0, 0, 0, 0, 0, 0, 0, 0, 0] }, pin_count := 0, is_dirty := true }, { pid_word := 4, payload := { num_keys := 5, keys := [11, 12, 13, 14, 15, 16, 17, 18, 19, 20], words := [11, 0, 12, 0, 13, 0, 14, 0, 15, 0, 16, 0, 17, 0, 18, 0, 19, 0, 20, 0, 5, 3] }, pin_count := 0, is_dirty := true }, { pid_word := 5, payload := { num_keys := 6, keys := [16, 17, 18, 19, 20, 21, 0, 0, 0, 0], words := [16, 0, 17, 0, 18, 0, 19, 0, 20, 0, 21, 0, 0, 0, 0, 0, 0, 0, 0, 0, 4294967295, 3] }, pin_count := 0, is_dirty := true }, zeroFrame, zeroFrame, zeroFrame, zeroFrame, zeroFrame, zeroFrame, zeroFrame, zeroFrame, zeroFrame, zeroFrame, zeroFrame], page_table := [(1, 0), (2, 1), (3, 2), (4, 3), (5, 4)], free_list := [5, 6, 7, 8, 9, 10, 11, 12, 13, 14, 15], replacer := [4, 2, 3, 1, 0], disk := { num_pages := 6, free_list := [], file := [(0, { pid_word := 3735928559, payload := zeroPayload })] } }, root_page_id := 3, is_root_leaf := false }
def T22 : TreeState := { bpm := { frames := [{ pid_word := 1, payload := { num_keys := 5, keys := [1, 2, 3, 4, 5, 6, 7, 8, 9, 10], words := [1, 0, 2, 0, 3, 0, 4, 0, 5, 0, 6, 0, 7, 0, 8, 0, 9, 0, 10, 0, 2, 3] }, pin_count := 0, is_dirty := true }, { pid_word := 2, payload := { num_keys := 5, keys := [6, 7, 8, 9, 10, 11, 12, 13, 14, 15], words := [6, 0, 7, 0, 8, 0, 9, 0, 10, 0, 11, 0, 12, 0, 13, 0, 14, 0, 15, 0, 4, 3] }, pin_count := 0, is_dirty := true }, { pid_word := 3, payload := { num_keys := 3, keys := [6, 11, 16, 0, 0, 0, 0, 0, 0, 0], words := [1, 2, 4, 5, 0, 0, 0, 0, 0, 0, 0, 4294967295, 0, 0, 0, 0, 0, 0, 0, 0, 0, 0] }, pin_count := 0, is_dirty := true }, { pid_word := 4, payload := { num_keys := 5, keys := [11, 12, 13, 14, 15, 16, 17, 18, 19, 20], words := [11, 0, 12, 0, 13, 0, 14, 0, 15, 0, 16, 0, 17, 0, 18, 0, 19, 0, 20, 0, 5, 3] }, pin_count := 0, is_dirty := true }, { pid_word := 5, payload := { num_keys := 7, keys := [16, 17, 18, 19, 20, 21, 22, 0, 0, 0], words := [16, 0, 17, 0, 18, 0, 19, 0, 20, 0, 21, 0, 22, 0, 0, 0, 0, 0, 0, 0, 4294967295, 3] }, pin_count := 0, is_dirty := true }, zeroFrame, zeroFrame, zeroFrame, zeroFrame, zeroFrame, zeroFrame, zeroFrame, zeroFrame, zeroFrame, zeroFrame, zeroFrame], page_table := [(1, 0), (2, 1), (3, 2), (4, 3), (5, 4)], free_list := [5, 6, 7, 8, 9, 10, 11, 12, 13, 14, 15], replacer := [4, 2, 3, 1, 0], disk := { num_pages := 6, free_list := [], file := [(0, { pid_word := 3735928559, payload := zeroPayload })] } }, root_page_id := 3, is_root_leaf := false }
def T23 : TreeState := { bpm := { frames := [{ pid_word := 1, payload := { num_keys := 5, keys := [1, 2, 3, 4, 5, 6, 7, 8, 9, 10], words := [1, 0, 2, 0, 3, 0, 4, 0, 5, 0, 6, 0, 7, 0, 8, 0, 9, 0, 10, 0, 2, 3] }, pin_count := 0, is_dirty := true }, { pid_word := 2, payload := { num_keys := 5, keys := [6, 7, 8, 9, 10, 11, 12, 13, 14, 15], words := [6, 0, 7, 0, 8, 0, 9, 0, 10, 0, 11, 0, 12, 0, 13, 0, 14, 0, 15, 0, 4, 3] }, pin_count := 0, is_dirty := true }, { pid_word := 3, payload := { num_keys := 3, keys := [6, 11, 16, 0, 0, 0, 0, 0, 0, 0], words := [1, 2, 4, 5, 0, 0, 0, 0, 0, 0, 0, 4294967295, 0, 0, 0, 0, 0, 0, 0, 0, 0, 0] }, pin_count := 0, is_dirty := true }, { pid_word := 4, payload := { num_keys := 5, keys := [11, 12, 13, 14, 15, 16, 17, 18, 19, 20], words := [11, 0, 12, 0, 13, 0, 14, 0, 15, 0, 16, 0, 17, 0, 18, 0, 19, 0, 20, 0, 5, 3] }, pin_count := 0, is_dirty := true }, { pid_word := 5, payload := { num_keys := 8, keys := [16, 17, 18, 19, 20, 21, 22, 23, 0, 0], words := [16, 0, 17, 0, 18, 0, 19, 0, 20, 0, 21, 0, 22, 0, 23, 0, 0, 0, 0, 0, 4294967295, 3] }, pin_count := 0, is_dirty := true }, zeroFrame, zeroFrame, zeroFrame, zeroFrame, zeroFrame, zeroFrame, zeroFrame, zeroFrame, zeroFrame, zeroFrame, zeroFrame], page_table := [(1, 0), (2, 1), (3, 2), (4, 3), (5, 4)], free_list := [5, 6, 7, 8, 9, 10, 11, 12, 13, 14, 15], replacer := [4, 2, 3, 1, 0], disk := { num_pages := 6, free_list := [], file := [(0, { pid_word := 3735928559, payload := zeroPayload })] } }, root_page_id := 3, is_root_leaf := false }
def T24 : TreeState := { bpm := { frames := [{ pid_word := 1, payload := { num_keys := 5, keys := [1, 2, 3, 4, 5, 6, 7, 8, 9, 10], words := [1, 0, 2, 0, 3, 0, 4, 0, 5, 0, 6, 0, 7, 0, 8, 0, 9, 0, 10, 0, 2, 3] }, pin_count := 0, is_dirty := true }, { pid_word := 2, payload := { num_keys := 5, keys := [6, 7, 8, 9, 10, 11, 12, 13, 14, 15], words := [6, 0, 7, 0, 8, 0, 9, 0, 10, 0, 11, 0, 12, 0, 13, 0, 14, 0, 15, 0, 4, 3] }, pin_count := 0, is_dirty := true }, { pid_word := 3, payload := { num_keys := 3, keys := [6, 11, 16, 0, 0, 0, 0, 0, 0, 0], words := [1, 2, 4, 5, 0, 0, 0, 0, 0, 0, 0, 4294967295, 0, 0, 0, 0, 0, 0, 0, 0, 0, 0] }, pin_count := 0, is_dirty := true }, { pid_word := 4, payload := { num_keys := 5, keys := [11, 12, 13, 14, 15, 16, 17, 18, 19, 20], words := [11, 0, 12, 0, 13, 0, 14, 0, 15, 0, 16, 0, 17, 0, 18, 0, 19, 0, 20, 0, 5, 3] }, pin_count := 0, is_dirty := true }, { pid_word := 5, payload := { num_keys := 9, keys := [16, 17, 18, 19, 20, 21, 22, 23, 24, 0], words := [16, 0, 17, 0, 18, 0, 19, 0, 20, 0, 21, 0, 22, 0, 23, 0, 24, 0, 0, 0, 4294967295, 3] }, pin_count := 0, is_dirty := true }, zeroFrame, zeroFrame, zeroFrame, zeroFrame, zeroFrame, zeroFrame, zeroFrame, zeroFrame, zeroFrame, zeroFrame, zeroFrame], page_table := [(1, 0), (2, 1), (3, 2), (4, 3), (5, 4)], free_list := [5, 6, 7, 8, 9, 10, 11, 12, 13, 14, 15], replacer := [4, 2, 3, 1, 0], disk := { num_pages := 6, free_list := [], file := [(0, { pid_word := 3735928559, payload := zeroPayload })] } }, root_page_id := 3, is_root_leaf := false }
def T25 : TreeState := { bpm := { frames := [{ pid_word := 1, payload := { num_keys := 5, keys := [1, 2, 3, 4, 5, 6, 7, 8, 9, 10], words := [1, 0, 2, 0, 3, 0, 4, 0, 5, 0, 6, 0, 7, 0, 8, 0, 9, 0, 10, 0, 2, 3] }, pin_count := 0, is_dirty := true }, { pid_word := 2, payload := { num_keys := 5, keys := [6, 7, 8, 9, 10, 11, 12, 13, 14, 15], words := [6, 0, 7, 0, 8, 0, 9, 0, 10, 0, 11, 0, 12, 0, 13, 0, 14, 0, 15, 0, 4, 3] }, pin_count := 0, is_dirty := true }, { pid_word := 3, payload := { num_keys := 3, keys := [6, 11, 16, 0, 0, 0, 0, 0, 0, 0], words := [1, 2, 4, 5, 0, 0, 0, 0, 0, 0, 0, 4294967295, 0, 0, 0, 0, 0, 0, 0, 0, 0, 0] }, pin_count := 0, is_dirty := true }, { pid_word := 4, payload := { num_keys := 5, keys := [11, 12, 13, 14, 15, 16, 17, 18, 19, 20], words := [11, 0, 12, 0, 13, 0, 14, 0, 15, 0, 16, 0, 17, 0, 18, 0, 19, 0, 20, 0, 5, 3] }, pin_count := 0, is_dirty := true }, { pid_word := 5, payload := { num_keys := 10, keys := [16, 17, 18, 19, 20, 21, 22, 23, 24, 25], words := [16, 0, 17, 0, 18, 0, 19, 0, 20, 0, 21, 0, 22, 0, 23, 0, 24, 0, 25, 0, 4294967295, 3] }, pin_count := 0, is_dirty := true }, zeroFrame, zeroFrame, zeroFrame, zeroFrame, zeroFrame, zeroFrame, zeroFrame, zeroFrame, zeroFrame, zeroFrame, zeroFrame], page_table := [(1, 0), (2, 1), (3, 2), (4, 3), (5, 4)], free_list := [5, 6, 7, 8, 9, 10, 11, 12, 13, 14, 15], replacer := [4, 2, 3, 1, 0], disk := { num_pages := 6, free_list := [], file := [(0, { pid_word := 3735928559, payload := zeroPayload })] } }, root_page_id := 3, is_root_leaf := false }
def T26 : TreeState := { bpm := { frames := [{ pid_word := 1, payload := { num_keys := 5, keys := [1, 2, 3, 4, 5, 6, 7, 8, 9, 10], words := [1, 0, 2, 0, 3, 0, 4, 0, 5, 0, 6, 0, 7, 0, 8, 0, 9, 0, 10, 0, 2, 3] }, pin_count := 0, is_dirty := true }, { pid_word := 2, payload := { num_keys := 5, keys := [6, 7, 8, 9, 10, 11, 12, 13, 14, 15], words := [6, 0, 7, 0, 8, 0, 9, 0, 10, 0, 11, 0, 12, 0, 13, 0, 14, 0, 15, 0, 4, 3] }, pin_count := 0, is_dirty := true }, { pid_word := 3, payload := { num_keys := 4, keys := [6, 11, 16, 21, 0, 0, 0, 0, 0, 0], words := [1, 2, 4, 5, 6, 0, 0, 0, 0, 0, 0, 4294967295, 0, 0, 0, 0, 0, 0, 0, 0, 0, 0] }, pin_count := 0, is_dirty := true }, { pid_word := 4, payload := { num_keys := 5, keys := [11, 12, 13, 14, 15, 16, 17, 18, 19, 20], words := [11, 0, 12, 0, 13, 0, 14, 0, 15, 0, 16, 0, 17, 0, 18, 0, 19, 0, 20, 0, 5, 3] }, pin_count := 0, is_dirty := true }, { pid_word := 5, payload := { num_keys := 5, keys := [16, 17, 18, 19, 20, 21, 22, 23, 24, 25], words := [16, 0, 17, 0, 18, 0, 19, 0, 20, 0, 21, 0, 22, 0, 23, 0, 24, 0, 25, 0, 6, 3] }, pin_count := 0, is_dirty := true }, { pid_word := 6, payload := { num_keys := 6, keys := [21, 22, 23, 24, 25, 26, 0, 0, 0, 0], words := [21, 0, 22, 0, 23, 0, 24, 0, 25, 0, 26, 0, 0, 0, 0, 0, 0, 0, 0, 0, 4294967295, 3] }, pin_count := 0, is_dirty := true }, zeroFrame, zeroFrame, zeroFrame, zeroFrame, zeroFrame, zeroFrame, zeroFrame, zeroFrame, zeroFrame, zeroFrame], page_table := [(1, 0), (2, 1), (3, 2), (4, 3), (5, 4), (6, 5)], free_list := [6, 7, 8, 9, 10, 11, 12, 13, 14, 15], replacer := [5, 2, 4, 3, 1, 0], disk := { num_pages := 7, free_list := [], file := [(0, { pid_word := 3735928559, payload := zeroPayload })] } }, root_page_id := 3, is_root_leaf := false }
def T27 : TreeState := { bpm := { frames := [{ pid_word := 1, payload := { num_keys := 5, keys := [1, 2, 3, 4, 5, 6, 7, 8, 9, 10], words := [1, 0, 2, 0, 3, 0, 4, 0, 5, 0, 6, 0, 7, 0, 8, 0, 9, 0, 10, 0, 2, 3] }, pin_count := 0, is_dirty := true }, { pid_word := 2, payload := { num_keys := 5, keys := [6, 7, 8, 9, 10, 11, 12, 13, 14, 15], words := [6, 0, 7, 0, 8, 0, 9, 0, 10, 0, 11, 0, 12, 0, 13, 0, 14, 0, 15, 0, 4, 3] }, pin_count := 0, is_dirty := true }, { pid_word := 3, payload := { num_keys := 4, keys := [6, 11, 16, 21, 0, 0, 0, 0, 0, 0], words := [1, 2, 4, 5, 6, 0, 0, 0, 0, 0, 0, 4294967295, 0, 0, 0, 0, 0, 0, 0, 0, 0, 0] }, pin_count := 0, is_dirty := true }, { pid_word := 4, payload := { num_keys := 5, keys := [11, 12, 13, 14, 15, 16, 17, 18, 19, 20], words := [11, 0, 12, 0, 13, 0, 14, 0, 15, 0, 16, 0, 17, 0, 18, 0, 19, 0, 20, 0, 5, 3] }, pin_count := 0, is_dirty := true }, { pid_word := 5, payload := { num_keys := 5, keys := [16, 17, 18, 19, 20, 21, 22, 23, 24, 25], words := [16, 0, 17, 0, 18, 0, 19, 0, 20, 0, 21, 0, 22, 0, 23, 0, 24, 0, 25, 0, 6, 3] }, pin_count := 0, is_dirty := true }, { pid_word := 6, payload := { num_keys := 7, keys := [21, 22, 23, 24, 25, 26, 27, 0, 0, 0], words := [21, 0, 22, 0, 23, 0, 24, 0, 25, 0, 26, 0, 27, 0, 0, 0, 0, 0, 0, 0, 4294967295, 3] }, pin_count := 0, is_dirty := true }, zeroFrame, zeroFrame, zeroFrame, zeroFrame, zeroFrame, zeroFrame, zeroFrame, zeroFrame, zeroFrame, zeroFrame], page_table := [(1, 0), (2, 1), (3, 2), (4, 3), (5, 4), (6, 5)], free_list := [6, 7, 8, 9, 10, 11, 12, 13, 14, 15], replacer := [5, 2, 4, 3, 1, 0], disk := { num_pages := 7, free_list := [], file := [(0, { pid_word := 3735928559, payload := zeroPayload })] } }, root_page_id := 3, is_root_leaf := false }
def T28 : TreeState := { bpm := { frames := [{ pid_word := 1, payload := { num_keys := 5, keys := [1, 2, 3, 4, 5, 6, 7, 8, 9, 10], words := [1, 0, 2, 0, 3, 0, 4, 0, 5, 0, 6, 0, 7, 0, 8, 0, 9, 0, 10, 0, 2, 3] }, pin_count := 0, is_dirty := true }, { pid_word := 2, payload := { num_keys := 5, keys := [6, 7, 8, 9, 10, 11, 12, 13, 14, 15], words := [6, 0, 7, 0, 8, 0, 9, 0, 10, 0, 11, 0, 12, 0, 13, 0, 14, 0, 15, 0, 4, 3] }, pin_count := 0, is_dirty := true }, { pid_word := 3, payload := { num_keys := 4, keys := [6, 11, 16, 21, 0, 0, 0, 0, 0, 0], words := [1, 2, 4, 5, 6, 0, 0, 0, 0, 0, 0, 4294967295, 0, 0, 0, 0, 0, 0, 0, 0, 0, 0] }, pin_count := 0, is_dirty := true }, { pid_word := 4, payload := { num_keys := 5, keys := [11, 12, 13, 14, 15, 16, 17, 18, 19, 20], words := [11, 0, 12, 0, 13, 0, 14, 0, 15, 0, 16, 0, 17, 0, 18, 0, 19, 0, 20, 0, 5, 3] }, pin_count := 0, is_dirty := true }, { pid_word := 5, payload := { num_keys := 5, keys := [16, 17, 18, 19, 20, 21, 22, 23, 24, 25], words := [16, 0, 17, 0, 18, 0, 19, 0, 20, 0, 21, 0, 22, 0, 23, 0, 24, 0, 25, 0, 6, 3] }, pin_count := 0, is_dirty := true }, { pid_word := 6, payload := { num_keys := 8, keys := [21, 22, 23, 24, 25, 26, 27, 28, 0, 0], words := [21, 0, 22, 0, 23, 0, 24, 0, 25, 0, 26, 0, 27, 0, 28, 0, 0, 0, 0, 0, 4294967295, 3] }, pin_count := 0, is_dirty := true }, zeroFrame, zeroFrame, zeroFrame, zeroFrame, zeroFrame, zeroFrame, zeroFrame, zeroFrame, zeroFrame, zeroFrame], page_table := [(1, 0), (2, 1), (3, 2), (4, 3), (5, 4), (6, 5)], free_list := [6, 7, 8, 9, 10, 11, 12, 13, 14, 15], replacer := [5, 2, 4, 3, 1, 0], disk := { num_pages := 7, free_list := [], file := [(0, { pid_word := 3735928559, payload := zeroPayload })] } }, root_page_id := 3, is_root_leaf := false }
def T29 : TreeState := { bpm := { frames := [{ pid_word := 1, payload := { num_keys := 5, keys := [1, 2, 3, 4, 5, 6, 7, 8, 9, 10], words := [1, 0, 2, 0, 3, 0, 4, 0, 5, 0, 6, 0, 7, 0, 8, 0, 9, 0, 10, 0, 2, 3] }, pin_count := 0, is_dirty := true }, { pid_word := 2, payload := { num_keys := 5, keys := [6, 7, 8, 9, 10, 11, 12, 13, 14, 15], words := [6, 0, 7, 0, 8, 0, 9, 0, 10, 0, 11, 0, 12, 0, 13, 0, 14, 0, 15, 0, 4, 3] }, pin_count := 0, is_dirty := true }, { pid_word := 3, payload := { num_keys := 4, keys := [6, 11, 16, 21, 0, 0, 0, 0, 0, 0], words := [1, 2, 4, 5, 6, 0, 0, 0, 0, 0, 0, 4294967295, 0, 0, 0, 0, 0, 0, 0, 0, 0, 0] }, pin_count := 0, is_dirty := true }, { pid_word := 4, payload := { num_keys := 5, keys := [11, 12, 13, 14, 15, 16, 17, 18, 19, 20], words := [11, 0, 12, 0, 13, 0, 14, 0, 15, 0, 16, 0, 17, 0, 18, 0, 19, 0, 20, 0, 5, 3] }, pin_count := 0, is_dirty := true }, { pid_word := 5, payload := { num_keys := 5, keys := [16, 17, 18, 19, 20, 21, 22, 23, 24, 25], words := [16, 0, 17, 0, 18, 0, 19, 0, 20, 0, 21, 0, 22, 0, 23, 0, 24, 0, 25, 0, 6, 3] }, pin_count := 0, is_dirty := true }, { pid_word := 6, payload := { num_keys := 9, keys := [21, 22, 23, 24, 25, 26, 27, 28, 29, 0], words := [21, 0, 22, 0, 23, 0, 24, 0, 25, 0, 26, 0, 27, 0, 28, 0, 29, 0, 0, 0, 4294967295, 3] }, pin_count := 0, is_dirty := true }, zeroFrame, zeroFrame, zeroFrame, zeroFrame, zeroFrame, zeroFrame, zeroFrame, zeroFrame, zeroFrame, zeroFrame], page_table := [(1, 0), (2, 1), (3, 2), (4, 3), (5, 4), (6, 5)], free_list := [6, 7, 8, 9, 10, 11, 12, 13, 14, 15], replacer := [5, 2, 4, 3, 1, 0], disk := { num_pages := 7, free_list := [], file := [(0, { pid_word := 3735928559, payload := zeroPayload })] } }, root_page_id := 3, is_root_leaf := false }
def T30 : TreeState := { bpm := { frames := [{ pid_word := 1, payload := { num_keys := 5, keys := [1, 2, 3, 4, 5, 6, 7, 8, 9, 10], words := [1, 0, 2, 0, 3, 0, 4, 0, 5, 0, 6, 0, 7, 0, 8, 0, 9, 0, 10, 0, 2, 3] }, pin_count := 0, is_dirty := true }, { pid_word := 2, payload := { num_keys := 5, keys := [6, 7, 8, 9, 10, 11, 12, 13, 14, 15], words := [6, 0, 7, 0, 8, 0, 9, 0, 10, 0, 11, 0, 12, 0, 13, 0, 14, 0, 15, 0, 4, 3] }, pin_count := 0, is_dirty := true }, { pid_word := 3, payload := { num_keys := 4, keys := [6, 11, 16, 21, 0, 0, 0, 0, 0, 0], words := [1, 2, 4, 5, 6, 0, 0, 0, 0, 0, 0, 4294967295, 0, 0, 0, 0, 0, 0, 0, 0, 0, 0] }, pin_count := 0, is_dirty := true }, { pid_word := 4, payload := { num_keys := 5, keys := [11, 12, 13, 14, 15, 16, 17, 18, 19, 20], words := [11, 0, 12, 0, 13, 0, 14, 0, 15, 0, 16, 0, 17, 0, 18, 0, 19, 0, 20, 0, 5, 3] }, pin_count := 0, is_dirty := true }, { pid_word := 5, payload := { num_keys := 5, keys := [16, 17, 18, 19, 20, 21, 22, 23, 24, 25], words := [16, 0, 17, 0, 18, 0, 19, 0, 20, 0, 21, 0, 22, 0, 23, 0, 24, 0, 25, 0, 6, 3] }, pin_count := 0, is_dirty := true }, { pid_word := 6, payload := { num_keys := 10, keys := [21, 22, 23, 24, 25, 26, 27, 28, 29, 30], words := [21, 0, 22, 0, 23, 0, 24, 0, 25, 0, 26, 0, 27, 0, 28, 0, 29, 0, 30, 0, 4294967295, 3] }, pin_count := 0, is_dirty := true }, zeroFrame, zeroFrame, zeroFrame, zeroFrame, zeroFrame, zeroFrame, zeroFrame, zeroFrame, zeroFrame, zeroFrame], page_table := [(1, 0), (2, 1), (3, 2), (4, 3), (5, 4), (6, 5)], free_list := [6, 7, 8, 9, 10, 11, 12, 13, 14, 15], replacer := [5, 2, 4, 3, 1, 0], disk := { num_pages := 7, free_list := [], file := [(0, { pid_word := 3735928559, payload := zeroPayload })] } }, root_page_id := 3, is_root_leaf := false }
def T31 : TreeState := { bpm := { frames := [{ pid_word := 1, payload := { num_keys := 5, keys := [1, 2, 3, 4, 5, 6, 7, 8, 9, 10], words := [1, 0, 2, 0, 3, 0, 4, 0, 5, 0, 6, 0, 7, 0, 8, 0, 9, 0, 10, 0, 2, 3] }, pin_count := 0, is_dirty := true }, { pid_word := 2, payload := { num_keys := 5, keys := [6, 7, 8, 9, 10, 11, 12, 13, 14, 15], words := [6, 0, 7, 0, 8, 0, 9, 0, 10, 0, 11, 0, 12, 0, 13, 0, 14, 0, 15, 0, 4, 3] }, pin_count := 0, is_dirty := true }, { pid_word := 3, payload := { num_keys := 5, keys := [6, 11, 16, 21, 26, 0, 0, 0, 0, 0], words := [1, 2, 4, 5, 6, 7, 0, 0, 0, 0, 0, 4294967295, 0, 0, 0, 0, 0, 0, 0, 0, 0, 0] }, pin_count := 0, is_dirty := true }, { pid_word := 4, payload := { num_keys := 5, keys := [11, 12, 13, 14, 15, 16, 17, 18, 19, 20], words := [11, 0, 12, 0, 13, 0, 14, 0, 15, 0, 16, 0, 17, 0, 18, 0, 19, 0, 20, 0, 5, 3] }, pin_count := 0, is_dirty := true }, { pid_word := 5, payload := { num_keys := 5, keys := [16, 17, 18, 19, 20, 21, 22, 23, 24, 25], words := [16, 0, 17, 0, 18, 0, 19, 0, 20, 0, 21, 0, 22, 0, 23, 0, 24, 0, 25, 0, 6, 3] }, pin_count := 0, is_dirty := true }, { pid_word := 6, payload := { num_keys := 5, keys := [21, 22, 23, 24, 25, 26, 27, 28, 29, 30], words := [21, 0, 22, 0, 23, 0, 24, 0, 25, 0, 26, 0, 27, 0, 28, 0, 29, 0, 30, 0, 7, 3] }, pin_count := 0, is_dirty := true }, { pid_word := 7, payload := { num_keys := 6, keys := [26, 27, 28, 29, 30, 31, 0, 0, 0, 0], words := [26, 0, 27, 0, 28, 0, 29, 0, 30, 0, 31, 0, 0, 0, 0, 0, 0, 0, 0, 0, 4294967295, 3] }, pin_count := 0, is_dirty := true }, zeroFrame, zeroFrame, zeroFrame, zeroFrame, zeroFrame, zeroFrame, zeroFrame, zeroFrame, zeroFrame], page_table := [(1, 0), (2, 1), (3, 2), (4, 3), (5, 4), (6, 5), (7, 6)], free_list := [7, 8, 9, 10, 11, 12, 13, 14, 15], replacer := [6, 2, 5, 4, 3, 1, 0], disk := { num_pages := 8, free_list := [], file := [(0, { pid_word := 3735928559, payload := zeroPayload })] } }, root_page_id := 3, is_root_leaf := false }
def T32 : TreeState := { bpm := { frames := [{ pid_word := 1, payload := { num_keys := 5, keys := [1, 2, 3, 4, 5, 6, 7, 8, 9, 10], words := [1, 0, 2, 0, 3, 0, 4, 0, 5, 0, 6, 0, 7, 0, 8, 0, 9, 0, 10, 0, 2, 3] }, pin_count := 0, is_dirty := true }, { pid_word := 2, payload := { num_keys := 5, keys := [6, 7, 8, 9, 10, 11, 12, 13, 14, 15], words := [6, 0, 7, 0, 8, 0, 9, 0, 10, 0, 11, 0, 12, 0, 13, 0, 14, 0, 15, 0, 4, 3] }, pin_count := 0, is_dirty := true }, { pid_word := 3, payload := { num_keys := 5, keys := [6, 11, 16, 21, 26, 0, 0, 0, 0, 0], words := [1, 2, 4, 5, 6, 7, 0, 0, 0, 0, 0, 4294967295, 0, 0, 0, 0, 0, 0, 0, 0, 0, 0] }, pin_count := 0, is_dirty := true }, { pid_word := 4, payload := { num_keys := 5, keys := [11, 12, 13, 14, 15, 16, 17, 18, 19, 20], words := [11, 0, 12, 0, 13, 0, 14, 0, 15, 0, 16, 0, 17, 0, 18, 0, 19, 0, 20, 0, 5, 3] }, pin_count := 0, is_dirty := true }, { pid_word := 5, payload := { num_keys := 5, keys := [16, 17, 18, 19, 20, 21, 22, 23, 24, 25], words := [16, 0, 17, 0, 18, 0, 19, 0, 20, 0, 21, 0, 22, 0, 23, 0, 24, 0, 25, 0, 6, 3] }, pin_count := 0, is_dirty := true }, { pid_word := 6, payload := { num_keys := 5, keys := [21, 22, 23, 24, 25, 26, 27, 28, 29, 30], words := [21, 0, 22, 0, 23, 0, 24, 0, 25, 0, 26, 0, 27, 0, 28, 0, 29, 0, 30, 0, 7, 3] }, pin_count := 0, is_dirty := true }, { pid_word := 7, payload := { num_keys := 7, keys := [26, 27, 28, 29, 30, 31, 32, 0, 0, 0], words := [26, 0, 27, 0, 28, 0, 29, 0, 30, 0, 31, 0, 32, 0, 0, 0, 0, 0, 0, 0, 4294967295, 3] }, pin_count := 0, is_dirty := true }, zeroFrame, zeroFrame, zeroFrame, zeroFrame, zeroFrame, zeroFrame, zeroFrame, zeroFrame, zeroFrame], page_table := [(1, 0), (2, 1), (3, 2), (4, 3), (5, 4), (6, 5), (7, 6)], free_list := [7, 8, 9, 10, 11, 12, 13, 14, 15], replacer := [6, 2, 5, 4, 3, 1, 0], disk := { num_pages := 8, free_list := [], file := [(0, { pid_word := 3735928559, payload := zeroPayload })] } }, root_page_id := 3, is_root_leaf := false }
def T33 : TreeState := { bpm := { frames := [{ pid_word := 1, payload := { num_keys := 5, keys := [1, 2, 3, 4, 5, 6, 7, 8, 9, 10], words := [1, 0, 2, 0, 3, 0, 4, 0, 5, 0, 6, 0, 7, 0, 8, 0, 9, 0, 10, 0, 2, 3] }, pin_count := 0, is_dirty := true }, { pid_word := 2, payload := { num_keys := 5, keys := [6, 7, 8, 9, 10, 11, 12, 13, 14, 15], words := [6, 0, 7, 0, 8, 0, 9, 0, 10, 0, 11, 0, 12, 0, 13, 0, 14, 0, 15, 0, 4, 3] }, pin_count := 0, is_dirty := true }, { pid_word := 3, payload := { num_keys := 5, keys := [6, 11, 16, 21, 26, 0, 0, 0, 0, 0], words := [1, 2, 4, 5, 6, 7, 0, 0, 0, 0, 0, 4294967295, 0, 0, 0, 0, 0, 0, 0, 0, 0, 0] }, pin_count := 0, is_dirty := true }, { pid_word := 4, payload := { num_keys := 5, keys := [11, 12, 13, 14, 15, 16, 17, 18, 19, 20], words := [11, 0, 12, 0, 13, 0, 14, 0, 15, 0, 16, 0, 17, 0, 18, 0, 19, 0, 20, 0, 5, 3] }, pin_count := 0, is_dirty := true }, { pid_word := 5, payload := { num_keys := 5, keys := [16, 17, 18, 19, 20, 21, 22, 23, 24, 25], words := [16, 0, 17, 0, 18, 0, 19, 0, 20, 0, 21, 0, 22, 0, 23, 0, 24, 0, 25, 0, 6, 3] }, pin_count := 0, is_dirty := true }, { pid_word := 6, payload := { num_keys := 5, keys := [21, 22, 23, 24, 25, 26, 27, 28, 29, 30], words := [21, 0, 22, 0, 23, 0, 24, 0, 25, 0, 26, 0, 27, 0, 28, 0, 29, 0, 30, 0, 7, 3] }, pin_count := 0, is_dirty := true }, { pid_word := 7, payload := { num_keys := 8, keys := [26, 27, 28, 29, 30, 31, 32, 33, 0, 0], words := [26, 0, 27, 0, 28, 0, 29, 0, 30, 0, 31, 0, 32, 0, 33, 0, 0, 0, 0, 0, 4294967295, 3] }, pin_count := 0, is_dirty := true }, zeroFrame, zeroFrame, zeroFrame, zeroFrame, zeroFrame, zeroFrame, zeroFrame, zeroFrame, zeroFrame], page_table := [(1, 0), (2, 1), (3, 2), (4, 3), (5, 4), (6, 5), (7, 6)], free_list := [7, 8, 9, 10, 11, 12, 13, 14, 15], replacer := [6, 2, 5, 4, 3, 1, 0], disk := { num_pages := 8, free_list := [], file := [(0, { pid_word := 3735928559, payload := zeroPayload })] } }, root_page_id := 3, is_root_leaf := false }
def T34 : TreeState := { bpm := { frames := [{ pid_word := 1, payload := { num_keys := 5, keys := [1, 2, 3, 4, 5, 6, 7, 8, 9, 10], words := [1, 0, 2, 0, 3, 0, 4, 0, 5, 0, 6, 0, 7, 0, 8, 0, 9, 0, 10, 0, 2, 3] }, pin_count := 0, is_dirty := true }, { pid_word := 2, payload := { num_keys := 5, keys := [6, 7, 8, 9, 10, 11, 12, 13, 14, 15], words := [6, 0, 7, 0, 8, 0, 9, 0, 10, 0, 11, 0, 12, 0, 13, 0, 14, 0, 15, 0, 4, 3] }, pin_count := 0, is_dirty := true }, { pid_word := 3, payload := { num_keys := 5, keys := [6, 11, 16, 21, 26, 0, 0, 0, 0, 0], words := [1, 2, 4, 5, 6, 7, 0, 0, 0, 0, 0, 4294967295, 0, 0, 0, 0, 0, 0, 0, 0, 0, 0] }, pin_count := 0, is_dirty := true }, { pid_word := 4, payload := { num_keys := 5, keys := [11, 12, 13, 14, 15, 16, 17, 18, 19, 20], words := [11, 0, 12, 0, 13, 0, 14, 0, 15, 0, 16, 0, 17, 0, 18, 0, 19, 0, 20, 0, 5, 3] }, pin_count := 0, is_dirty := true }, { pid_word := 5, payload := { num_keys := 5, keys := [16, 17, 18, 19, 20, 21, 22, 23, 24, 25], words := [16, 0, 17, 0, 18, 0, 19, 0, 20, 0, 21, 0, 22, 0, 23, 0, 24, 0, 25, 0, 6, 3] }, pin_count := 0, is_dirty := true }, { pid_word := 6, payload := { num_keys := 5, keys := [21, 22, 23, 24, 25, 26, 27, 28, 29, 30], words := [21, 0, 22, 0, 23, 0, 24, 0, 25, 0, 26, 0, 27, 0, 28, 0, 29, 0, 30, 0, 7, 3] }, pin_count := 0, is_dirty := true }, { pid_word := 7, payload := { num_keys := 9, keys := [26, 27, 28, 29, 30, 31, 32, 33, 34, 0], words := [26, 0, 27, 0, 28, 0, 29, 0, 30, 0, 31, 0, 32, 0, 33, 0, 34, 0, 0, 0, 4294967295, 3] }, pin_count := 0, is_dirty := true }, zeroFrame, zeroFrame, zeroFrame, zeroFrame, zeroFrame, zeroFrame, zeroFrame, zeroFrame, zeroFrame], page_table := [(1, 0), (2, 1), (3, 2), (4, 3), (5, 4), (6, 5), (7, 6)], free_list := [7, 8, 9, 10, 11, 12, 13, 14, 15], replacer := [6, 2, 5, 4, 3, 1, 0], disk := { num_pages := 8, free_list := [], file := [(0, { pid_word := 3735928559, payload := zeroPayload })] } }, root_page_id := 3, is_root_leaf := false }
def T35 : TreeState := { bpm := { frames := [{ pid_word := 1, payload := { num_keys := 5, keys := [1, 2, 3, 4, 5, 6, 7, 8, 9, 10], words := [1, 0, 2, 0, 3, 0, 4, 0, 5, 0, 6, 0, 7, 0, 8, 0, 9, 0, 10, 0, 2, 3] }, pin_count := 0, is_dirty := true }, { pid_word := 2, payload := { num_keys := 5, keys := [6, 7, 8, 9, 10, 11, 12, 13, 14, 15], words := [6, 0, 7, 0, 8, 0, 9, 0, 10, 0, 11, 0, 12, 0, 13, 0, 14, 0, 15, 0, 4, 3] }, pin_count := 0, is_dirty := true }, { pid_word := 3, payload := { num_keys := 5, keys := [6, 11, 16, 21, 26, 0, 0, 0, 0, 0], words := [1, 2, 4, 5, 6, 7, 0, 0, 0, 0, 0, 4294967295, 0, 0, 0, 0, 0, 0, 0, 0, 0, 0] }, pin_count := 0, is_dirty := true }, { pid_word := 4, payload := { num_keys := 5, keys := [11, 12, 13, 14, 15, 16, 17, 18, 19, 20], words := [11, 0, 12, 0, 13, 0, 14, 0, 15, 0, 16, 0, 17, 0, 18, 0, 19, 0, 20, 0, 5, 3] }, pin_count := 0, is_dirty := true }, { pid_word := 5, payload := { num_keys := 5, keys := [16, 17, 18, 19, 20, 21, 22, 23, 24, 25], words := [16, 0, 17, 0, 18, 0, 19, 0, 20, 0, 21, 0, 22, 0, 23, 0, 24, 0, 25, 0, 6, 3] }, pin_count := 0, is_dirty := true }, { pid_word := 6, payload := { num_keys := 5, keys := [21, 22, 23, 24, 25, 26, 27, 28, 29, 30], words := [21, 0, 22, 0, 23, 0, 24, 0, 25, 0, 26, 0, 27, 0, 28, 0, 29, 0, 30, 0, 7, 3] }, pin_count := 0, is_dirty := true }, { pid_word := 7, payload := { num_keys := 10, keys := [26, 27, 28, 29, 30, 31, 32, 33, 34, 35], words := [26, 0, 27, 0, 28, 0, 29, 0, 30, 0, 31, 0, 32, 0, 33, 0, 34, 0, 35, 0, 4294967295, 3] }, pin_count := 0, is_dirty := true }, zeroFrame, zeroFrame, zeroFrame, zeroFrame, zeroFrame, zeroFrame, zeroFrame, zeroFrame, zeroFrame], page_table := [(1, 0), (2, 1), (3, 2), (4, 3), (5, 4), (6, 5), (7, 6)], free_list := [7, 8, 9, 10, 11, 12, 13, 14, 15], replacer := [6, 2, 5, 4, 3, 1, 0], disk := { num_pages := 8, free_list := [], file := [(0, { pid_word := 3735928559, payload := zeroPayload })] } }, root_page_id := 3, is_root_leaf := false }
def T36 : TreeState := { bpm := { frames := [{ pid_word := 1, payload := { num_keys := 5, keys := [1, 2, 3, 4, 5, 6, 7, 8, 9, 10], words := [1, 0, 2, 0, 3, 0, 4, 0, 5, 0, 6, 0, 7, 0, 8, 0, 9, 0, 10, 0, 2, 3] }, pin_count := 0, is_dirty := true }, { pid_word := 2, payload := { num_keys := 5, keys := [6, 7, 8, 9, 10, 11, 12, 13, 14, 15], words := [6, 0, 7, 0, 8, 0, 9, 0, 10, 0, 11, 0, 12, 0, 13, 0, 14, 0, 15, 0, 4, 3] }, pin_count := 0, is_dirty := true }, { pid_word := 3, payload := { num_keys := 6, keys := [6, 11, 16, 21, 26, 31, 0, 0, 0, 0], words := [1, 2, 4, 5, 6, 7, 8, 0, 0, 0, 0, 4294967295, 0, 0, 0, 0, 0, 0, 0, 0, 0, 0] }, pin_count := 0, is_dirty := true }, { pid_word := 4, payload := { num_keys := 5, keys := [11, 12, 13, 14, 15, 16, 17, 18, 19, 20], words := [11, 0, 12, 0, 13, 0, 14, 0, 15, 0, 16, 0, 17, 0, 18, 0, 19, 0, 20, 0, 5, 3] }, pin_count := 0, is_dirty := true }, { pid_word := 5, payload := { num_keys := 5, keys := [16, 17, 18, 19, 20, 21, 22, 23, 24, 25], words := [16, 0, 17, 0, 18, 0, 19, 0, 20, 0, 21, 0, 22, 0, 23, 0, 24, 0, 25, 0, 6, 3] }, pin_count := 0, is_dirty := true }, { pid_word := 6, payload := { num_keys := 5, keys := [21, 22, 23, 24, 25, 26, 27, 28, 29, 30], words := [21, 0, 22, 0, 23, 0, 24, 0, 25, 0, 26, 0, 27, 0, 28, 0, 29, 0, 30, 0, 7, 3] }, pin_count := 0, is_dirty := true }, { pid_word := 7, payload := { num_keys := 5, keys := [26, 27, 28, 29, 30, 31, 32, 33, 34, 35], words := [26, 0, 27, 0, 28, 0, 29, 0, 30, 0, 31, 0, 32, 0, 33, 0, 34, 0, 35, 0, 8, 3] }, pin_count := 0, is_dirty := true }, { pid_word := 8, payload := { num_keys := 6, keys := [31, 32, 33, 34, 35, 36, 0, 0, 0, 0], words := [31, 0, 32, 0, 33, 0, 34, 0, 35, 0, 36, 0, 0, 0, 0, 0, 0, 0, 0, 0, 4294967295, 3] }, pin_count := 0, is_dirty := true }, zeroFrame, zeroFrame, zeroFrame, zeroFrame, zeroFrame, zeroFrame, zeroFrame, zeroFrame], page_table := [(1, 0), (2, 1), (3, 2), (4, 3), (5, 4), (6, 5), (7, 6), (8, 7)], free_list := [8, 9, 10, 11, 12, 13, 14, 15], replacer := [7, 2, 6, 5, 4, 3, 1, 0], disk := { num_pages := 9, free_list := [], file := [(0, { pid_word := 3735928559, payload := zeroPayload })] } }, root_page_id := 3, is_root_leaf := false }
def T37 : TreeState := { bpm := { frames := [{ pid_word := 1, payload := { num_keys := 5, keys := [1, 2, 3, 4, 5, 6, 7, 8, 9, 10], words := [1, 0, 2, 0, 3, 0, 4, 0, 5, 0, 6, 0, 7, 0, 8, 0, 9, 0, 10, 0, 2, 3] }, pin_count := 0, is_dirty := true }, { pid_word := 2, payload := { num_keys := 5, keys := [6, 7, 8, 9, 10, 11, 12, 13, 14, 15], words := [6, 0, 7, 0, 8, 0, 9, 0, 10, 0, 11, 0, 12, 0, 13, 0, 14, 0, 15, 0, 4, 3] }, pin_count := 0, is_dirty := true }, { pid_word := 3, payload := { num_keys := 6, keys := [6, 11, 16, 21, 26, 31, 0, 0, 0, 0], words := [1, 2, 4, 5, 6, 7, 8, 0, 0, 0, 0, 4294967295, 0, 0, 0, 0, 0, 0, 0, 0, 0, 0] }, pin_count := 0, is_dirty := true }, { pid_word := 4, payload := { num_keys := 5, keys := [11, 12, 13, 14, 15, 16, 17, 18, 19, 20], words := [11, 0, 12, 0, 13, 0, 14, 0, 15, 0, 16, 0, 17, 0, 18, 0, 19, 0, 20, 0, 5, 3] }, pin_count := 0, is_dirty := true }, { pid_word := 5, payload := { num_keys := 5, keys := [16, 17, 18, 19, 20, 21, 22, 23, 24, 25], words := [16, 0, 17, 0, 18, 0, 19, 0, 20, 0, 21, 0, 22, 0, 23, 0, 24, 0, 25, 0, 6, 3] }, pin_count := 0, is_dirty := true }, { pid_word := 6, payload := { num_keys := 5, keys := [21, 22, 23, 24, 25, 26, 27, 28, 29, 30], words := [21, 0, 22, 0, 23, 0, 24, 0, 25, 0, 26, 0, 27, 0, 28, 0, 29, 0, 30, 0, 7, 3] }, pin_count := 0, is_dirty := true }, { pid_word := 7, payload := { num_keys := 5, keys := [26, 27, 28, 29, 30, 31, 32, 33, 34, 35], words := [26, 0, 27, 0, 28, 0, 29, 0, 30, 0, 31, 0, 32, 0, 33, 0, 34, 0, 35, 0, 8, 3] }, pin_count := 0, is_dirty := true }, { pid_word := 8, payload := { num_keys := 7, keys := [31, 32, 33, 34, 35, 36, 37, 0, 0, 0], words := [31, 0, 32, 0, 33, 0, 34, 0, 35, 0, 36, 0, 37, 0, 0, 0, 0, 0, 0, 0, 4294967295, 3] }, pin_count := 0, is_dirty := true }, zeroFrame, zeroFrame, zeroFrame, zeroFrame, zeroFrame, zeroFrame, zeroFrame, zeroFrame], page_table := [(1, 0), (2, 1), (3, 2), (4, 3), (5, 4), (6, 5), (7, 6), (8, 7)], free_list := [8, 9, 10, 11, 12, 13, 14, 15], replacer := [7, 2, 6, 5, 4, 3, 1, 0], disk := { num_pages := 9, free_list := [], file := [(0, { pid_word := 3735928559, payload := zeroPayload })] } }, root_page_id := 3, is_root_leaf := false }
def T38 : TreeState := { bpm := { frames := [{ pid_word := 1, payload := { num_keys := 5, keys := [1, 2, 3, 4, 5, 6, 7, 8, 9, 10], words := [1, 0, 2, 0, 3, 0, 4, 0, 5, 0, 6, 0, 7, 0, 8, 0, 9, 0, 10, 0, 2, 3] }, pin_count := 0, is_dirty := true }, { pid_word := 2, payload := { num_keys := 5, keys := [6, 7, 8, 9, 10, 11, 12, 13, 14, 15], words := [6, 0, 7, 0, 8, 0, 9, 0, 10, 0, 11, 0, 12, 0, 13, 0, 14, 0, 15, 0, 4, 3] }, pin_count := 0, is_dirty := true }, { pid_word := 3, payload := { num_keys := 6, keys := [6, 11, 16, 21, 26, 31, 0, 0, 0, 0], words := [1, 2, 4, 5, 6, 7, 8, 0, 0, 0, 0, 4294967295, 0, 0, 0, 0, 0, 0, 0, 0, 0, 0] }, pin_count := 0, is_dirty := true }, { pid_word := 4, payload := { num_keys := 5, keys := [11, 12, 13, 14, 15, 16, 17, 18, 19, 20], words := [11, 0, 12, 0, 13, 0, 14, 0, 15, 0, 16, 0, 17, 0, 18, 0, 19, 0, 20, 0, 5, 3] }, pin_count := 0, is_dirty := true }, { pid_word := 5, payload := { num_keys := 5, keys := [16, 17, 18, 19, 20, 21, 22, 23, 24, 25], words := [16, 0, 17, 0, 18, 0, 19, 0, 20, 0, 21, 0, 22, 0, 23, 0, 24, 0, 25, 0, 6, 3] }, pin_count := 0, is_dirty := true }, { pid_word := 6, payload := { num_keys := 5, keys := [21, 22, 23, 24, 25, 26, 27, 28, 29, 30], words := [21, 0, 22, 0, 23, 0, 24, 0, 25, 0, 26, 0, 27, 0, 28, 0, 29, 0, 30, 0, 7, 3] }, pin_count := 0, is_dirty := true }, { pid_word := 7, payload := { num_keys := 5, keys := [26, 27, 28, 29, 30, 31, 32, 33, 34, 35], words := [26, 0, 27, 0, 28, 0, 29, 0, 30, 0, 31, 0, 32, 0, 33, 0, 34, 0, 35, 0, 8, 3] }, pin_count := 0, is_dirty := true }, { pid_word := 8, payload := { num_keys := 8, keys := [31, 32, 33, 34, 35, 36, 37, 38, 0, 0], words := [31, 0, 32, 0, 33, 0, 34, 0, 35, 0, 36, 0, 37, 0, 38, 0, 0, 0, 0, 0, 4294967295, 3] }, pin_count := 0, is_dirty := true }, zeroFrame, zeroFrame, zeroFrame, zeroFrame, zeroFrame, zeroFrame, zeroFrame, zeroFrame], page_table := [(1, 0), (2, 1), (3, 2), (4, 3), (5, 4), (6, 5), (7, 6), (8, 7)], free_list := [8, 9, 10, 11, 12, 13, 14, 15], replacer := [7, 2, 6, 5, 4, 3, 1, 0], disk := { num_pages := 9, free_list := [], file := [(0, { pid_word := 3735928559, payload := zeroPayload })] } }, root_page_id := 3, is_root_leaf := false }
def T39 : TreeState := { bpm := { frames := [{ pid_word := 1, payload := { num_keys := 5, keys := [1, 2, 3, 4, 5, 6, 7, 8, 9, 10], words := [1, 0, 2, 0, 3, 0, 4, 0, 5, 0, 6, 0, 7, 0, 8, 0, 9, 0, 10, 0, 2, 3] }, pin_count := 0, is_dirty := true }, { pid_word := 2, payload := { num_keys := 5, keys := [6, 7, 8, 9, 10, 11, 12, 13, 14, 15], words := [6, 0, 7, 0, 8, 0, 9, 0, 10, 0, 11, 0, 12, 0, 13, 0, 14, 0, 15, 0, 4, 3] }, pin_count := 0, is_dirty := true }, { pid_word := 3, payload := { num_keys := 6, keys := [6, 11, 16, 21, 26, 31, 0, 0, 0, 0], words := [1, 2, 4, 5, 6, 7, 8, 0, 0, 0, 0, 4294967295, 0, 0, 0, 0, 0, 0, 0, 0, 0, 0] }, pin_count := 0, is_dirty := true }, { pid_word := 4, payload := { num_keys := 5, keys := [11, 12, 13, 14, 15, 16, 17, 18, 19, 20], words := [11, 0, 12, 0, 13, 0, 14, 0, 15, 0, 16, 0, 17, 0, 18, 0, 19, 0, 20, 0, 5, 3] }, pin_count := 0, is_dirty := true }, { pid_word := 5, payload := { num_keys := 5, keys := [16, 17, 18, 19, 20, 21, 22, 23, 24, 25], words := [16, 0, 17, 0, 18, 0, 19, 0, 20, 0, 21, 0, 22, 0, 23, 0, 24, 0, 25, 0, 6, 3] }, pin_count := 0, is_dirty := true }, { pid_word := 6, payload := { num_keys := 5, keys := [21, 22, 23, 24, 25, 26, 27, 28, 29, 30], words := [21, 0, 22, 0, 23, 0, 24, 0, 25, 0, 26, 0, 27, 0, 28, 0, 29, 0, 30, 0, 7, 3] }, pin_count := 0, is_dirty := true }, { pid_word := 7, payload := { num_keys := 5, keys := [26, 27, 28, 29, 30, 31, 32, 33, 34, 35], words := [26, 0, 27, 0, 28, 0, 29, 0, 30, 0, 31, 0, 32, 0, 33, 0, 34, 0, 35, 0, 8, 3] }, pin_count := 0, is_dirty := true }, { pid_word := 8, payload := { num_keys := 9, keys := [31, 32, 33, 34, 35, 36, 37, 38, 39, 0], words := [31, 0, 32, 0, 33, 0, 34, 0, 35, 0, 36, 0, 37, 0, 38, 0, 39, 0, 0, 0, 4294967295, 3] }, pin_count := 0, is_dirty := true }, zeroFrame, zeroFrame, zeroFrame, zeroFrame, zeroFrame, zeroFrame, zeroFrame, zeroFrame], page_table := [(1, 0), (2, 1), (3, 2), (4, 3), (5, 4), (6, 5), (7, 6), (8, 7)], free_list := [8, 9, 10, 11, 12, 13, 14, 15], replacer := [7, 2, 6, 5, 4, 3, 1, 0], disk := { num_pages := 9, free_list := [], file := [(0, { pid_word := 3735928559, payload := zeroPayload })] } }, root_page_id := 3, is_root_leaf := false }
def T40 : TreeState := { bpm := { frames := [{ pid_word := 1, payload := { num_keys := 5, keys := [1, 2, 3, 4, 5, 6, 7, 8, 9, 10], words := [1, 0, 2, 0, 3, 0, 4, 0, 5, 0, 6, 0, 7, 0, 8, 0, 9, 0, 10, 0, 2, 3] }, pin_count := 0, is_dirty := true }, { pid_word := 2, payload := { num_keys := 5, keys := [6, 7, 8, 9, 10, 11, 12, 13, 14, 15], words := [6, 0, 7, 0, 8, 0, 9, 0, 10, 0, 11, 0, 12, 0, 13, 0, 14, 0, 15, 0, 4, 3] }, pin_count := 0, is_dirty := true }, { pid_word := 3, payload := { num_keys := 6, keys := [6, 11, 16, 21, 26, 31, 0, 0, 0, 0], words := [1, 2, 4, 5, 6, 7, 8, 0, 0, 0, 0, 4294967295, 0, 0, 0, 0, 0, 0, 0, 0, 0, 0] }, pin_count := 0, is_dirty := true }, { pid_word := 4, payload := { num_keys := 5, keys := [11, 12, 13, 14, 15, 16, 17, 18, 19, 20], words := [11, 0, 12, 0, 13, 0, 14, 0, 15, 0, 16, 0, 17, 0, 18, 0, 19, 0, 20, 0, 5, 3] }, pin_count := 0, is_dirty := true }, { pid_word := 5, payload := { num_keys := 5, keys := [16, 17, 18, 19, 20, 21, 22, 23, 24, 25], words := [16, 0, 17, 0, 18, 0, 19, 0, 20, 0, 21, 0, 22, 0, 23, 0, 24, 0, 25, 0, 6, 3] }, pin_count := 0, is_dirty := true }, { pid_word := 6, payload := { num_keys := 5, keys := [21, 22, 23, 24, 25, 26, 27, 28, 29, 30], words := [21, 0, 22, 0, 23, 0, 24, 0, 25, 0, 26, 0, 27, 0, 28, 0, 29, 0, 30, 0, 7, 3] }, pin_count := 0, is_dirty := true }, { pid_word := 7, payload := { num_keys := 5, keys := [26, 27, 28, 29, 30, 31, 32, 33, 34, 35], words := [26, 0, 27, 0, 28, 0, 29, 0, 30, 0, 31, 0, 32, 0, 33, 0, 34, 0, 35, 0, 8, 3] }, pin_count := 0, is_dirty := true }, { pid_word := 8, payload := { num_keys := 10, keys := [31, 32, 33, 34, 35, 36, 37, 38, 39, 40], words := [31, 0, 32, 0, 33, 0, 34, 0, 35, 0, 36, 0, 37, 0, 38, 0, 39, 0, 40, 0, 4294967295, 3] }, pin_count := 0, is_dirty := true }, zeroFrame, zeroFrame, zeroFrame, zeroFrame, zeroFrame, zeroFrame, zeroFrame, zeroFrame], page_table := [(1, 0), (2, 1), (3, 2), (4, 3), (5, 4), (6, 5), (7, 6), (8, 7)], free_list := [8, 9, 10, 11, 12, 13, 14, 15], replacer := [7, 2, 6, 5, 4, 3, 1, 0], disk := { num_pages := 9, free_list := [], file := [(0, { pid_word := 3735928559, payload := zeroPayload })] } }, root_page_id := 3, is_root_leaf := false }
def T41 : TreeState := { bpm := { frames := [{ pid_word := 1, payload := { num_keys := 5, keys := [1, 2, 3, 4, 5, 6, 7, 8, 9, 10], words := [1, 0, 2, 0, 3, 0, 4, 0, 5, 0, 6, 0, 7, 0, 8, 0, 9, 0, 10, 0, 2, 3] }, pin_count := 0, is_dirty := true }, { pid_word := 2, payload := { num_keys := 5, keys := [6, 7, 8, 9, 10, 11, 12, 13, 14, 15], words := [6, 0, 7, 0, 8, 0, 9, 0, 10, 0, 11, 0, 12, 0, 13, 0, 14, 0, 15, 0, 4, 3] }, pin_count := 0, is_dirty := true }, { pid_word := 3, payload := { num_keys := 7, keys := [6, 11, 16, 21, 26, 31, 36, 0, 0, 0], words := [1, 2, 4, 5, 6, 7, 8, 9, 0, 0, 0, 4294967295, 0, 0, 0, 0, 0, 0, 0, 0, 0, 0] }, pin_count := 0, is_dirty := true }, { pid_word := 4, payload := { num_keys := 5, keys := [11, 12, 13, 14, 15, 16, 17, 18, 19, 20], words := [11, 0, 12, 0, 13, 0, 14, 0, 15, 0, 16, 0, 17, 0, 18, 0, 19, 0, 20, 0, 5, 3] }, pin_count := 0, is_dirty := true }, { pid_word := 5, payload := { num_keys := 5, keys := [16, 17, 18, 19, 20, 21, 22, 23, 24, 25], words := [16, 0, 17, 0, 18, 0, 19, 0, 20, 0, 21, 0, 22, 0, 23, 0, 24, 0, 25, 0, 6, 3] }, pin_count := 0, is_dirty := true }, { pid_word := 6, payload := { num_keys := 5, keys := [21, 22, 23, 24, 25, 26, 27, 28, 29, 30], words := [21, 0, 22, 0, 23, 0, 24, 0, 25, 0, 26, 0, 27, 0, 28, 0, 29, 0, 30, 0, 7, 3] }, pin_count := 0, is_dirty := true }, { pid_word := 7, payload := { num_keys := 5, keys := [26, 27, 28, 29, 30, 31, 32, 33, 34, 35], words := [26, 0, 27, 0, 28, 0, 29, 0, 30, 0, 31, 0, 32, 0, 33, 0, 34, 0, 35, 0, 8, 3] }, pin_count := 0, is_dirty := true }, { pid_word := 8, payload := { num_keys := 5, keys := [31, 32, 33, 34, 35, 36, 37, 38, 39, 40], words := [31, 0, 32, 0, 33, 0, 34, 0, 35, 0, 36, 0, 37, 0, 38, 0, 39, 0, 40, 0, 9, 3] }, pin_count := 0, is_dirty := true }, { pid_word := 9, payload := { num_keys := 6, keys := [36, 37, 38, 39, 40, 41, 0, 0, 0, 0], words := [36, 0, 37, 0, 38, 0, 39, 0, 40, 0, 41, 0, 0, 0, 0, 0, 0, 0, 0, 0, 4294967295, 3] }, pin_count := 0, is_dirty := true }, zeroFrame, zeroFrame, zeroFrame, zeroFrame, zeroFrame, zeroFrame, zeroFrame], page_table := [(1, 0), (2, 1), (3, 2), (4, 3), (5, 4), (6, 5), (7, 6), (8, 7), (9, 8)], free_list := [9, 10, 11, 12, 13, 14, 15], replacer := [8, 2, 7, 6, 5, 4, 3, 1, 0], disk := { num_pages := 10, free_list := [], file := [(0, { pid_word := 3735928559, payload := zeroPayload })] } }, root_page_id := 3, is_root_leaf := false }
def T42 : TreeState := { bpm := { frames := [{ pid_word := 1, payload := { num_keys := 5, keys := [1, 2, 3, 4, 5, 6, 7, 8, 9, 10], words := [1, 0, 2, 0, 3, 0, 4, 0, 5, 0, 6, 0, 7, 0, 8, 0, 9, 0, 10, 0, 2, 3] }, pin_count := 0, is_dirty := true }, { pid_word := 2, payload := { num_keys := 5, keys := [6, 7, 8, 9, 10, 11, 12, 13, 14, 15], words := [6, 0, 7, 0, 8, 0, 9, 0, 10, 0, 11, 0, 12, 0, 13, 0, 14, 0, 15, 0, 4, 3] }, pin_count := 0, is_dirty := true }, { pid_word := 3, payload := { num_keys := 7, keys := [6, 11, 16, 21, 26, 31, 36, 0, 0, 0], words := [1, 2, 4, 5, 6, 7, 8, 9, 0, 0, 0, 4294967295, 0, 0, 0, 0, 0, 0, 0, 0, 0, 0] }, pin_count := 0, is_dirty := true }, { pid_word := 4, payload := { num_keys := 5, keys := [11, 12, 13, 14, 15, 16, 17, 18, 19, 20], words := [11, 0, 12, 0, 13, 0, 14, 0, 15, 0, 16, 0, 17, 0, 18, 0, 19, 0, 20, 0, 5, 3] }, pin_count := 0, is_dirty := true }, { pid_word := 5, payload := { num_keys := 5, keys := [16, 17, 18, 19, 20, 21, 22, 23, 24, 25], words := [16, 0, 17, 0, 18, 0, 19, 0, 20, 0, 21, 0, 22, 0, 23, 0, 24, 0, 25, 0, 6, 3] }, pin_count := 0, is_dirty := true }, { pid_word := 6, payload := { num_keys := 5, keys := [21, 22, 23, 24, 25, 26, 27, 28, 29, 30], words := [21, 0, 22, 0, 23, 0, 24, 0, 25, 0, 26, 0, 27, 0, 28, 0, 29, 0, 30, 0, 7, 3] }, pin_count := 0, is_dirty := true }, { pid_word := 7, payload := { num_keys := 5, keys := [26, 27, 28, 29, 30, 31, 32, 33, 34, 35], words := [26, 0, 27, 0, 28, 0, 29, 0, 30, 0, 31, 0, 32, 0, 33, 0, 34, 0, 35, 0, 8, 3] }, pin_count := 0, is_dirty := true }, { pid_word := 8, payload := { num_keys := 5, keys := [31, 32, 33, 34, 35, 36, 37, 38, 39, 40], words := [31, 0, 32, 0, 33, 0, 34, 0, 35, 0, 36, 0, 37, 0, 38, 0, 39, 0, 40, 0, 9, 3] }, pin_count := 0, is_dirty := true }, { pid_word := 9, payload := { num_keys := 7, keys := [36, 37, 38, 39, 40, 41, 42, 0, 0, 0], words := [36, 0, 37, 0, 38, 0, 39, 0, 40, 0, 41, 0, 42, 0, 0, 0, 0, 0, 0, 0, 4294967295, 3] }, pin_count := 0, is_dirty := true }, zeroFrame, zeroFrame, zeroFrame, zeroFrame, zeroFrame, zeroFrame, zeroFrame], page_table := [(1, 0), (2, 1), (3, 2), (4, 3), (5, 4), (6, 5), (7, 6), (8, 7), (9, 8)], free_list := [9, 10, 11, 12, 13, 14, 15], replacer := [8, 2, 7, 6, 5, 4, 3, 1, 0], disk := { num_pages := 10, free_list := [], file := [(0, { pid_word := 3735928559, payload := zeroPayload })] } }, root_page_id := 3, is_root_leaf := false }
def T43 : TreeState := { bpm := { frames := [{ pid_word := 1, payload := { num_keys := 5, keys := [1, 2, 3, 4, 5, 6, 7, 8, 9, 10], words := [1, 0, 2, 0, 3, 0, 4, 0, 5, 0, 6, 0, 7, 0, 8, 0, 9, 0, 10, 0, 2, 3] }, pin_count := 0, is_dirty := true }, { pid_word := 2, payload := { num_keys := 5, keys := [6, 7, 8, 9, 10, 11, 12, 13, 14, 15], words := [6, 0, 7, 0, 8, 0, 9, 0, 10, 0, 11, 0, 12, 0, 13, 0, 14, 0, 15, 0, 4, 3] }, pin_count := 0, is_dirty := true }, { pid_word := 3, payload := { num_keys := 7, keys := [6, 11, 16, 21, 26, 31, 36, 0, 0, 0], words := [1, 2, 4, 5, 6, 7, 8, 9, 0, 0, 0, 4294967295, 0, 0, 0, 0, 0, 0, 0, 0, 0, 0] }, pin_count := 0, is_dirty := true }, { pid_word := 4, payload := { num_keys := 5, keys := [11, 12, 13, 14, 15, 16, 17, 18, 19, 20], words := [11, 0, 12, 0, 13, 0, 14, 0, 15, 0, 16, 0, 17, 0, 18, 0, 19, 0, 20, 0, 5, 3] }, pin_count := 0, is_dirty := true }, { pid_word := 5, payload := { num_keys := 5, keys := [16, 17, 18, 19, 20, 21, 22, 23, 24, 25], words := [16, 0, 17, 0, 18, 0, 19, 0, 20, 0, 21, 0, 22, 0, 23, 0, 24, 0, 25, 0, 6, 3] }, pin_count := 0, is_dirty := true }, { pid_word := 6, payload := { num_keys := 5, keys := [21, 22, 23, 24, 25, 26, 27, 28, 29, 30], words := [21, 0, 22, 0, 23, 0, 24, 0, 25, 0, 26, 0, 27, 0, 28, 0, 29, 0, 30, 0, 7, 3] }, pin_count := 0, is_dirty := true }, { pid_word := 7, payload := { num_keys := 5, keys := [26, 27, 28, 29, 30, 31, 32, 33, 34, 35], words := [26, 0, 27, 0, 28, 0, 29, 0, 30, 0, 31, 0, 32, 0, 33, 0, 34, 0, 35, 0, 8, 3] }, pin_count := 0, is_dirty := true }, { pid_word := 8, payload := { num_keys := 5, keys := [31, 32, 33, 34, 35, 36, 37, 38, 39, 40], words := [31, 0, 32, 0, 33, 0, 34, 0, 35, 0, 36, 0, 37, 0, 38, 0, 39, 0, 40, 0, 9, 3] }, pin_count := 0, is_dirty := true }, { pid_word := 9, payload := { num_keys := 8, keys := [36, 37, 38, 39, 40, 41, 42, 43, 0, 0], words := [36, 0, 37, 0, 38, 0, 39, 0, 40, 0, 41, 0, 42, 0, 43, 0, 0, 0, 0, 0, 4294967295, 3] }, pin_count := 0, is_dirty := true }, zeroFrame, zeroFrame, zeroFrame, zeroFrame, zeroFrame, zeroFrame, zeroFrame], page_table := [(1, 0), (2, 1), (3, 2), (4, 3), (5, 4), (6, 5), (7, 6), (8, 7), (9, 8)], free_list := [9, 10, 11, 12, 13, 14, 15], replacer := [8, 2, 7, 6, 5, 4, 3, 1, 0], disk := { num_pages := 10, free_list := [], file := [(0, { pid_word := 3735928559, payload := zeroPayload })] } }, root_page_id := 3, is_root_leaf := false }
def T44 : TreeState := { bpm := { frames := [{ pid_word := 1, payload := { num_keys := 5, keys := [1, 2, 3, 4, 5, 6, 7, 8, 9, 10], words := [1, 0, 2, 0, 3, 0, 4, 0, 5, 0, 6, 0, 7, 0, 8, 0, 9, 0, 10, 0, 2, 3] }, pin_count := 0, is_dirty := true }, { pid_word := 2, payload := { num_keys := 5, keys := [6, 7, 8, 9, 10, 11, 12, 13, 14, 15], words := [6, 0, 7, 0, 8, 0, 9, 0, 10, 0, 11, 0, 12, 0, 13, 0, 14, 0, 15, 0, 4, 3] }, pin_count := 0, is_dirty := true }, { pid_word := 3, payload := { num_keys := 7, keys := [6, 11, 16, 21, 26, 31, 36, 0, 0, 0], words := [1, 2, 4, 5, 6, 7, 8, 9, 0, 0, 0, 4294967295, 0, 0, 0, 0, 0, 0, 0, 0, 0, 0] }, pin_count := 0, is_dirty := true }, { pid_word := 4, payload := { num_keys := 5, keys := [11, 12, 13, 14, 15, 16, 17, 18, 19, 20], words := [11, 0, 12, 0, 13, 0, 14, 0, 15, 0, 16, 0, 17, 0, 18, 0, 19, 0, 20, 0, 5, 3] }, pin_count := 0, is_dirty := true }, { pid_word := 5, payload := { num_keys := 5, keys := [16, 17, 18, 19, 20, 21, 22, 23, 24, 25], words := [16, 0, 17, 0, 18, 0, 19, 0, 20, 0, 21, 0, 22, 0, 23, 0, 24, 0, 25, 0, 6, 3] }, pin_count := 0, is_dirty := true }, { pid_word := 6, payload := { num_keys := 5, keys := [21, 22, 23, 24, 25, 26, 27, 28, 29, 30], words := [21, 0, 22, 0, 23, 0, 24, 0, 25, 0, 26, 0, 27, 0, 28, 0, 29, 0, 30, 0, 7, 3] }, pin_count := 0, is_dirty := true }, { pid_word := 7, payload := { num_keys := 5, keys := [26, 27, 28, 29, 30, 31, 32, 33, 34, 35], words := [26, 0, 27, 0, 28, 0, 29, 0, 30, 0, 31, 0, 32, 0, 33, 0, 34, 0, 35, 0, 8, 3] }, pin_count := 0, is_dirty := true }, { pid_word := 8, payload := { num_keys := 5, keys := [31, 32, 33, 34, 35, 36, 37, 38, 39, 40], words := [31, 0, 32, 0, 33, 0, 34, 0, 35, 0, 36, 0, 37, 0, 38, 0, 39, 0, 40, 0, 9, 3] }, pin_count := 0, is_dirty := true }, { pid_word := 9, payload := { num_keys := 9, keys := [36, 37, 38, 39, 40, 41, 42, 43, 44, 0], words := [36, 0, 37, 0, 38, 0, 39, 0, 40, 0, 41, 0, 42, 0, 43, 0, 44, 0, 0, 0, 4294967295, 3] }, pin_count := 0, is_dirty := true }, zeroFrame, zeroFrame, zeroFrame, zeroFrame, zeroFrame, zeroFrame, zeroFrame], page_table := [(1, 0), (2, 1), (3, 2), (4, 3), (5, 4), (6, 5), (7, 6), (8, 7), (9, 8)], free_list := [9, 10, 11, 12, 13, 14, 15], replacer := [8, 2, 7, 6, 5, 4, 3, 1, 0], disk := { num_pages := 10, free_list := [], file := [(0, { pid_word := 3735928559, payload := zeroPayload })] } }, root_page_id := 3, is_root_leaf := false }
def T45 : TreeState := { bpm := { frames := [{ pid_word := 1, payload := { num_keys := 5, keys := [1, 2, 3, 4, 5, 6, 7, 8, 9, 10], words := [1, 0, 2, 0, 3, 0, 4, 0, 5, 0, 6, 0, 7, 0, 8, 0, 9, 0, 10, 0, 2, 3] }, pin_count := 0, is_dirty := true }, { pid_word := 2, payload := { num_keys := 5, keys := [6, 7, 8, 9, 10, 11, 12, 13, 14, 15], words := [6, 0, 7, 0, 8, 0, 9, 0, 10, 0, 11, 0, 12, 0, 13, 0, 14, 0, 15, 0, 4, 3] }, pin_count := 0, is_dirty := true }, { pid_word := 3, payload := { num_keys := 7, keys := [6, 11, 16, 21, 26, 31, 36, 0, 0, 0], words := [1, 2, 4, 5, 6, 7, 8, 9, 0, 0, 0, 4294967295, 0, 0, 0, 0, 0, 0, 0, 0, 0, 0] }, pin_count := 0, is_dirty := true }, { pid_word := 4, payload := { num_keys := 5, keys := [11, 12, 13, 14, 15, 16, 17, 18, 19, 20], words := [11, 0, 12, 0, 13, 0, 14, 0, 15, 0, 16, 0, 17, 0, 18, 0, 19, 0, 20, 0, 5, 3] }, pin_count := 0, is_dirty := true }, { pid_word := 5, payload := { num_keys := 5, keys := [16, 17, 18, 19, 20, 21, 22, 23, 24, 25], words := [16, 0, 17, 0, 18, 0, 19, 0, 20, 0, 21, 0, 22, 0, 23, 0, 24, 0, 25, 0, 6, 3] }, pin_count := 0, is_dirty := true }, { pid_word := 6, payload := { num_keys := 5, keys := [21, 22, 23, 24, 25, 26, 27, 28, 29, 30], words := [21, 0, 22, 0, 23, 0, 24, 0, 25, 0, 26, 0, 27, 0, 28, 0, 29, 0, 30, 0, 7, 3] }, pin_count := 0, is_dirty := true }, { pid_word := 7, payload := { num_keys := 5, keys := [26, 27, 28, 29, 30, 31, 32, 33, 34, 35], words := [26, 0, 27, 0, 28, 0, 29, 0, 30, 0, 31, 0, 32, 0, 33, 0, 34, 0, 35, 0, 8, 3] }, pin_count := 0, is_dirty := true }, { pid_word := 8, payload := { num_keys := 5, keys := [31, 32, 33, 34, 35, 36, 37, 38, 39, 40], words := [31, 0, 32, 0, 33, 0, 34, 0, 35, 0, 36, 0, 37, 0, 38, 0, 39, 0, 40, 0, 9, 3] }, pin_count := 0, is_dirty := true }, { pid_word := 9, payload := { num_keys := 10, keys := [36, 37, 38, 39, 40, 41, 42, 43, 44, 45], words := [36, 0, 37, 0, 38, 0, 39, 0, 40, 0, 41, 0, 42, 0, 43, 0, 44, 0, 45, 0, 4294967295, 3] }, pin_count := 0, is_dirty := true }, zeroFrame, zeroFrame, zeroFrame, zeroFrame, zeroFrame, zeroFrame, zeroFrame], page_table := [(1, 0), (2, 1), (3, 2), (4, 3), (5, 4), (6, 5), (7, 6), (8, 7), (9, 8)], free_list := [9, 10, 11, 12, 13, 14, 15], replacer := [8, 2, 7, 6, 5, 4, 3, 1, 0], disk := { num_pages := 10, free_list := [], file := [(0, { pid_word := 3735928559, payload := zeroPayload })] } }, root_page_id := 3, is_root_leaf := false }
def T46 : TreeState := { bpm := { frames := [{ pid_word := 1, payload := { num_keys := 5, keys := [1, 2, 3, 4, 5, 6, 7, 8, 9, 10], words := [1, 0, 2, 0, 3, 0, 4, 0, 5, 0, 6, 0, 7, 0, 8, 0, 9, 0, 10, 0, 2, 3] }, pin_count := 0, is_dirty := true }, { pid_word := 2, payload := { num_keys := 5, keys := [6, 7, 8, 9, 10, 11, 12, 13, 14, 15], words := [6, 0, 7, 0, 8, 0, 9, 0, 10, 0, 11, 0, 12, 0, 13, 0, 14, 0, 15, 0, 4, 3] }, pin_count := 0, is_dirty := true }, { pid_word := 3, payload := { num_keys := 8, keys := [6, 11, 16, 21, 26, 31, 36, 41, 0, 0], words := [1, 2, 4, 5, 6, 7, 8, 9, 10, 0, 0, 4294967295, 0, 0, 0, 0, 0, 0, 0, 0, 0, 0] }, pin_count := 0, is_dirty := true }, { pid_word := 4, payload := { num_keys := 5, keys := [11, 12, 13, 14, 15, 16, 17, 18, 19, 20], words := [11, 0, 12, 0, 13, 0, 14, 0, 15, 0, 16, 0, 17, 0, 18, 0, 19, 0, 20, 0, 5, 3] }, pin_count := 0, is_dirty := true }, { pid_word := 5, payload := { num_keys := 5, keys := [16, 17, 18, 19, 20, 21, 22, 23, 24, 25], words := [16, 0, 17, 0, 18, 0, 19, 0, 20, 0, 21, 0, 22, 0, 23, 0, 24, 0, 25, 0, 6, 3] }, pin_count := 0, is_dirty := true }, { pid_word := 6, payload := { num_keys := 5, keys := [21, 22, 23, 24, 25, 26, 27, 28, 29, 30], words := [21, 0, 22, 0, 23, 0, 24, 0, 25, 0, 26, 0, 27, 0, 28, 0, 29, 0, 30, 0, 7, 3] }, pin_count := 0, is_dirty := true }, { pid_word := 7, payload := { num_keys := 5, keys := [26, 27, 28, 29, 30, 31, 32, 33, 34, 35], words := [26, 0, 27, 0, 28, 0, 29, 0, 30, 0, 31, 0, 32, 0, 33, 0, 34, 0, 35, 0, 8, 3] }, pin_count := 0, is_dirty := true }, { pid_word := 8, payload := { num_keys := 5, keys := [31, 32, 33, 34, 35, 36, 37, 38, 39, 40], words := [31, 0, 32, 0, 33, 0, 34, 0, 35, 0, 36, 0, 37, 0, 38, 0, 39, 0, 40, 0, 9, 3] }, pin_count := 0, is_dirty := true }, { pid_word := 9, payload := { num_keys := 5, keys := [36, 37, 38, 39, 40, 41, 42, 43, 44, 45], words := [36, 0, 37, 0, 38, 0, 39, 0, 40, 0, 41, 0, 42, 0, 43, 0, 44, 0, 45, 0, 10, 3] }, pin_count := 0, is_dirty := true }, { pid_word := 10, payload := { num_keys := 6, keys := [41, 42, 43, 44, 45, 46, 0, 0, 0, 0], words := [41, 0, 42, 0, 43, 0, 44, 0, 45, 0, 46, 0, 0, 0, 0, 0, 0, 0, 0, 0, 4294967295, 3] }, pin_count := 0, is_dirty := true }, zeroFrame, zeroFrame, zeroFrame, zeroFrame, zeroFrame, zeroFrame], page_table := [(1, 0), (2, 1), (3, 2), (4, 3), (5, 4), (6, 5), (7, 6), (8, 7), (9, 8), (10, 9)], free_list := [10, 11, 12, 13, 14, 15], replacer := [9, 2, 8, 7, 6, 5, 4, 3, 1, 0], disk := { num_pages := 11, free_list := [], file := [(0, { pid_word := 3735928559, payload := zeroPayload })] } }, root_page_id := 3, is_root_leaf := false }
def T47 : TreeState := { bpm := { frames := [{ pid_word := 1, payload := { num_keys := 5, keys := [1, 2, 3, 4, 5, 6, 7, 8, 9, 10], words := [1, 0, 2, 0, 3, 0, 4, 0, 5, 0, 6, 0, 7, 0, 8, 0, 9, 0, 10, 0, 2, 3] }, pin_count := 0, is_dirty := true }, { pid_word := 2, payload := { num_keys := 5, keys := [6, 7, 8, 9, 10, 11, 12, 13, 14, 15], words := [6, 0, 7, 0, 8, 0, 9, 0, 10, 0, 11, 0, 12, 0, 13, 0, 14, 0, 15, 0, 4, 3] }, pin_count := 0, is_dirty := true }, { pid_word := 3, payload := { num_keys := 8, keys := [6, 11, 16, 21, 26, 31, 36, 41, 0, 0], words := [1, 2, 4, 5, 6, 7, 8, 9, 10, 0, 0, 4294967295, 0, 0, 0, 0, 0, 0, 0, 0, 0, 0] }, pin_count := 0, is_dirty := true }, { pid_word := 4, payload := { num_keys := 5, keys := [11, 12, 13, 14, 15, 16, 17, 18, 19, 20], words := [11, 0, 12, 0, 13, 0, 14, 0, 15, 0, 16, 0, 17, 0, 18, 0, 19, 0, 20, 0, 5, 3] }, pin_count := 0, is_dirty := true }, { pid_word := 5, payload := { num_keys := 5, keys := [16, 17, 18, 19, 20, 21, 22, 23, 24, 25], words := [16, 0, 17, 0, 18, 0, 19, 0, 20, 0, 21, 0, 22, 0, 23, 0, 24, 0, 25, 0, 6, 3] }, pin_count := 0, is_dirty := true }, { pid_word := 6, payload := { num_keys := 5, keys := [21, 22, 23, 24, 25, 26, 27, 28, 29, 30], words := [21, 0, 22, 0, 23, 0, 24, 0, 25, 0, 26, 0, 27, 0, 28, 0, 29, 0, 30, 0, 7, 3] }, pin_count := 0, is_dirty := true }, { pid_word := 7, payload := { num_keys := 5, keys := [26, 27, 28, 29, 30, 31, 32, 33, 34, 35], words := [26, 0, 27, 0, 28, 0, 29, 0, 30, 0, 31, 0, 32, 0, 33, 0, 34, 0, 35, 0, 8, 3] }, pin_count := 0, is_dirty := true }, { pid_word := 8, payload := { num_keys := 5, keys := [31, 32, 33, 34, 35, 36, 37, 38, 39, 40], words := [31, 0, 32, 0, 33, 0, 34, 0, 35, 0, 36, 0, 37, 0, 38, 0, 39, 0, 40, 0, 9, 3] }, pin_count := 0, is_dirty := true }, { pid_word := 9, payload := { num_keys := 5, keys := [36, 37, 38, 39, 40, 41, 42, 43, 44, 45], words := [36, 0, 37, 0, 38, 0, 39, 0, 40, 0, 41, 0, 42, 0, 43, 0, 44, 0, 45, 0, 10, 3] }, pin_count := 0, is_dirty := true }, { pid_word := 10, payload := { num_keys := 7, keys := [41, 42, 43, 44, 45, 46, 47, 0, 0, 0], words := [41, 0, 42, 0, 43, 0, 44, 0, 45, 0, 46, 0, 47, 0, 0, 0, 0, 0, 0, 0, 4294967295, 3] }, pin_count := 0, is_dirty := true }, zeroFrame, zeroFrame, zeroFrame, zeroFrame, zeroFrame, zeroFrame], page_table := [(1, 0), (2, 1), (3, 2), (4, 3), (5, 4), (6, 5), (7, 6), (8, 7), (9, 8), (10, 9)], free_list := [10, 11, 12, 13, 14, 15], replacer := [9, 2, 8, 7, 6, 5, 4, 3, 1, 0], disk := { num_pages := 11, free_list := [], file := [(0, { pid_word := 3735928559, payload := zeroPayload })] } }, root_page_id := 3, is_root_leaf := false }
def T48 : TreeState := { bpm := { frames := [{ pid_word := 1, payload := { num_keys := 5, keys := [1, 2, 3, 4, 5, 6, 7, 8, 9, 10], words := [1, 0, 2, 0, 3, 0, 4, 0, 5, 0, 6, 0, 7, 0, 8, 0, 9, 0, 10, 0, 2, 3] }, pin_count := 0, is_dirty := true }, { pid_word := 2, payload := { num_keys := 5, keys := [6, 7, 8, 9, 10, 11, 12, 13, 14, 15], words := [6, 0, 7, 0, 8, 0, 9, 0, 10, 0, 11, 0, 12, 0, 13, 0, 14, 0, 15, 0, 4, 3] }, pin_count := 0, is_dirty := true }, { pid_word := 3, payload := { num_keys := 8, keys := [6, 11, 16, 21, 26, 31, 36, 41, 0, 0], words := [1, 2, 4, 5, 6, 7, 8, 9, 10, 0, 0, 4294967295, 0, 0, 0, 0, 0, 0, 0, 0, 0, 0] }, pin_count := 0, is_dirty := true }, { pid_word := 4, payload := { num_keys := 5, keys := [11, 12, 13, 14, 15, 16, 17, 18, 19, 20], words := [11, 0, 12, 0, 13, 0, 14, 0, 15, 0, 16, 0, 17, 0, 18, 0, 19, 0, 20, 0, 5, 3] }, pin_count := 0, is_dirty := true }, { pid_word := 5, payload := { num_keys := 5, keys := [16, 17, 18, 19, 20, 21, 22, 23, 24, 25], words := [16, 0, 17, 0, 18, 0, 19, 0, 20, 0, 21, 0, 22, 0, 23, 0, 24, 0, 25, 0, 6, 3] }, pin_count := 0, is_dirty := true }, { pid_word := 6, payload := { num_keys := 5, keys := [21, 22, 23, 24, 25, 26, 27, 28, 29, 30], words := [21, 0, 22, 0, 23, 0, 24, 0, 25, 0, 26, 0, 27, 0, 28, 0, 29, 0, 30, 0, 7, 3] }, pin_count := 0, is_dirty := true }, { pid_word := 7, payload := { num_keys := 5, keys := [26, 27, 28, 29, 30, 31, 32, 33, 34, 35], words := [26, 0, 27, 0, 28, 0, 29, 0, 30, 0, 31, 0, 32, 0, 33, 0, 34, 0, 35, 0, 8, 3] }, pin_count := 0, is_dirty := true }, { pid_word := 8, payload := { num_keys := 5, keys := [31, 32, 33, 34, 35, 36, 37, 38, 39, 40], words := [31, 0, 32, 0, 33, 0, 34, 0, 35, 0, 36, 0, 37, 0, 38, 0, 39, 0, 40, 0, 9, 3] }, pin_count := 0, is_dirty := true }, { pid_word := 9, payload := { num_keys := 5, keys := [36, 37, 38, 39, 40, 41, 42, 43, 44, 45], words := [36, 0, 37, 0, 38, 0, 39, 0, 40, 0, 41, 0, 42, 0, 43, 0, 44, 0, 45, 0, 10, 3] }, pin_count := 0, is_dirty := true }, { pid_word := 10, payload := { num_keys := 8, keys := [41, 42, 43, 44, 45, 46, 47, 48, 0, 0], words := [41, 0, 42, 0, 43, 0, 44, 0, 45, 0, 46, 0, 47, 0, 48, 0, 0, 0, 0, 0, 4294967295, 3] }, pin_count := 0, is_dirty := true }, zeroFrame, zeroFrame, zeroFrame, zeroFrame, zeroFrame, zeroFrame], page_table := [(1, 0), (2, 1), (3, 2), (4, 3), (5, 4), (6, 5), (7, 6), (8, 7), (9, 8), (10, 9)], free_list := [10, 11, 12, 13, 14, 15], replacer := [9, 2, 8, 7, 6, 5, 4, 3, 1, 0], disk := { num_pages := 11, free_list := [], file := [(0, { pid_word := 3735928559, payload := zeroPayload })] } }, root_page_id := 3, is_root_leaf := false }
def T49 : TreeState := { bpm := { frames := [{ pid_word := 1, payload := { num_keys := 5, keys := [1, 2, 3, 4, 5, 6, 7, 8, 9, 10], words := [1, 0, 2, 0, 3, 0, 4, 0, 5, 0, 6, 0, 7, 0, 8, 0, 9, 0, 10, 0, 2, 3] }, pin_count := 0, is_dirty := true }, { pid_word := 2, payload := { num_keys := 5, keys := [6, 7, 8, 9, 10, 11, 12, 13, 14, 15], words := [6, 0, 7, 0, 8, 0, 9, 0, 10, 0, 11, 0, 12, 0, 13, 0, 14, 0, 15, 0, 4, 3] }, pin_count := 0, is_dirty := true }, { pid_word := 3, payload := { num_keys := 8, keys := [6, 11, 16, 21, 26, 31, 36, 41, 0, 0], words := [1, 2, 4, 5, 6, 7, 8, 9, 10, 0, 0, 4294967295, 0, 0, 0, 0, 0, 0, 0, 0, 0, 0] }, pin_count := 0, is_dirty := true }, { pid_word := 4, payload := { num_keys := 5, keys := [11, 12, 13, 14, 15, 16, 17, 18, 19, 20], words := [11, 0, 12, 0, 13, 0, 14, 0, 15, 0, 16, 0, 17, 0, 18, 0, 19, 0, 20, 0, 5, 3] }, pin_count := 0, is_dirty := true }, { pid_word := 5, payload := { num_keys := 5, keys := [16, 17, 18, 19, 20, 21, 22, 23, 24, 25], words := [16, 0, 17, 0, 18, 0, 19, 0, 20, 0, 21, 0, 22, 0, 23, 0, 24, 0, 25, 0, 6, 3] }, pin_count := 0, is_dirty := true }, { pid_word := 6, payload := { num_keys := 5, keys := [21, 22, 23, 24, 25, 26, 27, 28, 29, 30], words := [21, 0, 22, 0, 23, 0, 24, 0, 25, 0, 26, 0, 27, 0, 28, 0, 29, 0, 30, 0, 7, 3] }, pin_count := 0, is_dirty := true }, { pid_word := 7, payload := { num_keys := 5, keys := [26, 27, 28, 29, 30, 31, 32, 33, 34, 35], words := [26, 0, 27, 0, 28, 0, 29, 0, 30, 0, 31, 0, 32, 0, 33, 0, 34, 0, 35, 0, 8, 3] }, pin_count := 0, is_dirty := true }, { pid_word := 8, payload := { num_keys := 5, keys := [31, 32, 33, 34, 35, 36, 37, 38, 39, 40], words := [31, 0, 32, 0, 33, 0, 34, 0, 35, 0, 36, 0, 37, 0, 38, 0, 39, 0, 40, 0, 9, 3] }, pin_count := 0, is_dirty := true }, { pid_word := 9, payload := { num_keys := 5, keys := [36, 37, 38, 39, 40, 41, 42, 43, 44, 45], words := [36, 0, 37, 0, 38, 0, 39, 0, 40, 0, 41, 0, 42, 0, 43, 0, 44, 0, 45, 0, 10, 3] }, pin_count := 0, is_dirty := true }, { pid_word := 10, payload := { num_keys := 9, keys := [41, 42, 43, 44, 45, 46, 47, 48, 49, 0], words := [41, 0, 42, 0, 43, 0, 44, 0, 45, 0, 46, 0, 47, 0, 48, 0, 49, 0, 0, 0, 4294967295, 3] }, pin_count := 0, is_dirty := true }, zeroFrame, zeroFrame, zeroFrame, zeroFrame, zeroFrame, zeroFrame], page_table := [(1, 0), (2, 1), (3, 2), (4, 3), (5, 4), (6, 5), (7, 6), (8, 7), (9, 8), (10, 9)], free_list := [10, 11, 12, 13, 14, 15], replacer := [9, 2, 8, 7, 6, 5, 4, 3, 1, 0], disk := { num_pages := 11, free_list := [], file := [(0, { pid_word := 3735928559, payload := zeroPayload })] } }, root_page_id := 3, is_root_leaf := false }
def T50 : TreeState := { bpm := { frames := [{ pid_word := 1, payload := { num_keys := 5, keys := [1, 2, 3, 4, 5, 6, 7, 8, 9, 10], words := [1, 0, 2, 0, 3, 0, 4, 0, 5, 0, 6, 0, 7, 0, 8, 0, 9, 0, 10, 0, 2, 3] }, pin_count := 0, is_dirty := true }, { pid_word := 2, payload := { num_keys := 5, keys := [6, 7, 8, 9, 10, 11, 12, 13, 14, 15], words := [6, 0, 7, 0, 8, 0, 9, 0, 10, 0, 11, 0, 12, 0, 13, 0, 14, 0, 15, 0, 4, 3] }, pin_count := 0, is_dirty := true }, { pid_word := 3, payload := { num_keys := 8, keys := [6, 11, 16, 21, 26, 31, 36, 41, 0, 0], words := [1, 2, 4, 5, 6, 7, 8, 9, 10, 0, 0, 4294967295, 0, 0, 0, 0, 0, 0, 0, 0, 0, 0] }, pin_count := 0, is_dirty := true }, { pid_word := 4, payload := { num_keys := 5, keys := [11, 12, 13, 14, 15, 16, 17, 18, 19, 20], words := [11, 0, 12, 0, 13, 0, 14, 0, 15, 0, 16, 0, 17, 0, 18, 0, 19, 0, 20, 0, 5, 3] }, pin_count := 0, is_dirty := true }, { pid_word := 5, payload := { num_keys := 5, keys := [16, 17, 18, 19, 20, 21, 22, 23, 24, 25], words := [16, 0, 17, 0, 18, 0, 19, 0, 20, 0, 21, 0, 22, 0, 23, 0, 24, 0, 25, 0, 6, 3] }, pin_count := 0, is_dirty := true }, { pid_word := 6, payload := { num_keys := 5, keys := [21, 22, 23, 24, 25, 26, 27, 28, 29, 30], words := [21, 0, 22, 0, 23, 0, 24, 0, 25, 0, 26, 0, 27, 0, 28, 0, 29, 0, 30, 0, 7, 3] }, pin_count := 0, is_dirty := true }, { pid_word := 7, payload := { num_keys := 5, keys := [26, 27, 28, 29, 30, 31, 32, 33, 34, 35], words := [26, 0, 27, 0, 28, 0, 29, 0, 30, 0, 31, 0, 32, 0, 33, 0, 34, 0, 35, 0, 8, 3] }, pin_count := 0, is_dirty := true }, { pid_word := 8, payload := { num_keys := 5, keys := [31, 32, 33, 34, 35, 36, 37, 38, 39, 40], words := [31, 0, 32, 0, 33, 0, 34, 0, 35, 0, 36, 0, 37, 0, 38, 0, 39, 0, 40, 0, 9, 3] }, pin_count := 0, is_dirty := true }, { pid_word := 9, payload := { num_keys := 5, keys := [36, 37, 38, 39, 40, 41, 42, 43, 44, 45], words := [36, 0, 37, 0, 38, 0, 39, 0, 40, 0, 41, 0, 42, 0, 43, 0, 44, 0, 45, 0, 10, 3] }, pin_count := 0, is_dirty := true }, { pid_word := 10, payload := { num_keys := 10, keys := [41, 42, 43, 44, 45, 46, 47, 48, 49, 50], words := [41, 0, 42, 0, 43, 0, 44, 0, 45, 0, 46, 0, 47, 0, 48, 0, 49, 0, 50, 0, 4294967295, 3] }, pin_count := 0, is_dirty := true }, zeroFrame, zeroFrame, zeroFrame, zeroFrame, zeroFrame, zeroFrame], page_table := [(1, 0), (2, 1), (3, 2), (4, 3), (5, 4), (6, 5), (7, 6), (8, 7), (9, 8), (10, 9)], free_list := [10, 11, 12, 13, 14, 15], replacer := [9, 2, 8, 7, 6, 5, 4, 3, 1, 0], disk := { num_pages := 11, free_list := [], file := [(0, { pid_word := 3735928559, payload := zeroPayload })] } }, root_page_id := 3, is_root_leaf := false }
def T51 : TreeState := { bpm := { frames := [{ pid_word := 1, payload := { num_keys := 5, keys := [1, 2, 3, 4, 5, 6, 7, 8, 9, 10], words := [1, 0, 2, 0, 3, 0, 4, 0, 5, 0, 6, 0, 7, 0, 8, 0, 9, 0, 10, 0, 2, 3] }, pin_count := 0, is_dirty := true }, { pid_word := 2, payload := { num_keys := 5, keys := [6, 7, 8, 9, 10, 11, 12, 13, 14, 15], words := [6, 0, 7, 0, 8, 0, 9, 0, 10, 0, 11, 0, 12, 0, 13, 0, 14, 0, 15, 0, 4, 3] }, pin_count := 0, is_dirty := true }, { pid_word := 3, payload := { num_keys := 9, keys := [6, 11, 16, 21, 26, 31, 36, 41, 46, 0], words := [1, 2, 4, 5, 6, 7, 8, 9, 10, 11, 0, 4294967295, 0, 0, 0, 0, 0, 0, 0, 0, 0, 0] }, pin_count := 0, is_dirty := true }, { pid_word := 4, payload := { num_keys := 5, keys := [11, 12, 13, 14, 15, 16, 17, 18, 19, 20], words := [11, 0, 12, 0, 13, 0, 14, 0, 15, 0, 16, 0, 17, 0, 18, 0, 19, 0, 20, 0, 5, 3] }, pin_count := 0, is_dirty := true }, { pid_word := 5, payload := { num_keys := 5, keys := [16, 17, 18, 19, 20, 21, 22, 23, 24, 25], words := [16, 0, 17, 0, 18, 0, 19, 0, 20, 0, 21, 0, 22, 0, 23, 0, 24, 0, 25, 0, 6, 3] }, pin_count := 0, is_dirty := true }, { pid_word := 6, payload := { num_keys := 5, keys := [21, 22, 23, 24, 25, 26, 27, 28, 29, 30], words := [21, 0, 22, 0, 23, 0, 24, 0, 25, 0, 26, 0, 27, 0, 28, 0, 29, 0, 30, 0, 7, 3] }, pin_count := 0, is_dirty := true }, { pid_word := 7, payload := { num_keys := 5, keys := [26, 27, 28, 29, 30, 31, 32, 33, 34, 35], words := [26, 0, 27, 0, 28, 0, 29, 0, 30, 0, 31, 0, 32, 0, 33, 0, 34, 0, 35, 0, 8, 3] }, pin_count := 0, is_dirty := true }, { pid_word := 8, payload := { num_keys := 5, keys := [31, 32, 33, 34, 35, 36, 37, 38, 39, 40], words := [31, 0, 32, 0, 33, 0, 34, 0, 35, 0, 36, 0, 37, 0, 38, 0, 39, 0, 40, 0, 9, 3] }, pin_count := 0, is_dirty := true }, { pid_word := 9, payload := { num_keys := 5, keys := [36, 37, 38, 39, 40, 41, 42, 43, 44, 45], words := [36, 0, 37, 0, 38, 0, 39, 0, 40, 0, 41, 0, 42, 0, 43, 0, 44, 0, 45, 0, 10, 3] }, pin_count := 0, is_dirty := true }, { pid_word := 10, payload := { num_keys := 5, keys := [41, 42, 43, 44, 45, 46, 47, 48, 49, 50], words := [41, 0, 42, 0, 43, 0, 44, 0, 45, 0, 46, 0, 47, 0, 48, 0, 49, 0, 50, 0, 11, 3] }, pin_count := 0, is_dirty := true }, { pid_word := 11, payload := { num_keys := 6, keys := [46, 47, 48, 49, 50, 51, 0, 0, 0, 0], words := [46, 0, 47, 0, 48, 0, 49, 0, 50, 0, 51, 0, 0, 0, 0, 0, 0, 0, 0, 0, 4294967295, 3] }, pin_count := 0, is_dirty := true }, zeroFrame, zeroFrame, zeroFrame, zeroFrame, zeroFrame], page_table := [(1, 0), (2, 1), (3, 2), (4, 3), (5, 4), (6, 5), (7, 6), (8, 7), (9, 8), (10, 9), (11, 10)], free_list := [11, 12, 13, 14, 15], replacer := [10, 2, 9, 8, 7, 6, 5, 4, 3, 1, 0], disk := { num_pages := 12, free_list := [], file := [(0, { pid_word := 3735928559, payload := zeroPayload })] } }, root_page_id := 3, is_root_leaf := false }
def T52 : TreeState := { bpm := { frames := [{ pid_word := 1, payload := { num_keys := 5, keys := [1, 2, 3, 4, 5, 6, 7, 8, 9, 10], words := [1, 0, 2, 0, 3, 0, 4, 0, 5, 0, 6, 0, 7, 0, 8, 0, 9, 0, 10, 0, 2, 3] }, pin_count := 0, is_dirty := true }, { pid_word := 2, payload := { num_keys := 5, keys := [6, 7, 8, 9, 10, 11, 12, 13, 14, 15], words := [6, 0, 7, 0, 8, 0, 9, 0, 10, 0, 11, 0, 12, 0, 13, 0, 14, 0, 15, 0, 4, 3] }, pin_count := 0, is_dirty := true }, { pid_word := 3, payload := { num_keys := 9, keys := [6, 11, 16, 21, 26, 31, 36, 41, 46, 0], words := [1, 2, 4, 5, 6, 7, 8, 9, 10, 11, 0, 4294967295, 0, 0, 0, 0, 0, 0, 0, 0, 0, 0] }, pin_count := 0, is_dirty := true }, { pid_word := 4, payload := { num_keys := 5, keys := [11, 12, 13, 14, 15, 16, 17, 18, 19, 20], words := [11, 0, 12, 0, 13, 0, 14, 0, 15, 0, 16, 0, 17, 0, 18, 0, 19, 0, 20, 0, 5, 3] }, pin_count := 0, is_dirty := true }, { pid_word := 5, payload := { num_keys := 5, keys := [16, 17, 18, 19, 20, 21, 22, 23, 24, 25], words := [16, 0, 17, 0, 18, 0, 19, 0, 20, 0, 21, 0, 22, 0, 23, 0, 24, 0, 25, 0, 6, 3] }, pin_count := 0, is_dirty := true }, { pid_word := 6, payload := { num_keys := 5, keys := [21, 22, 23, 24, 25, 26, 27, 28, 29, 30], words := [21, 0, 22, 0, 23, 0, 24, 0, 25, 0, 26, 0, 27, 0, 28, 0, 29, 0, 30, 0, 7, 3] }, pin_count := 0, is_dirty := true }, { pid_word := 7, payload := { num_keys := 5, keys := [26, 27, 28, 29, 30, 31, 32, 33, 34, 35], words := [26, 0, 27, 0, 28, 0, 29, 0, 30, 0, 31, 0, 32, 0, 33, 0, 34, 0, 35, 0, 8, 3] }, pin_count := 0, is_dirty := true }, { pid_word := 8, payload := { num_keys := 5, keys := [31, 32, 33, 34, 35, 36, 37, 38, 39, 40], words := [31, 0, 32, 0, 33, 0, 34, 0, 35, 0, 36, 0, 37, 0, 38, 0, 39, 0, 40, 0, 9, 3] }, pin_count := 0, is_dirty := true }, { pid_word := 9, payload := { num_keys := 5, keys := [36, 37, 38, 39, 40, 41, 42, 43, 44, 45], words := [36, 0, 37, 0, 38, 0, 39, 0, 40, 0, 41, 0, 42, 0, 43, 0, 44, 0, 45, 0, 10, 3] }, pin_count := 0, is_dirty := true }, { pid_word := 10, payload := { num_keys := 5, keys := [41, 42, 43, 44, 45, 46, 47, 48, 49, 50], words := [41, 0, 42, 0, 43, 0, 44, 0, 45, 0, 46, 0, 47, 0, 48, 0, 49, 0, 50, 0, 11, 3] }, pin_count := 0, is_dirty := true }, { pid_word := 11, payload := { num_keys := 7, keys := [46, 47, 48, 49, 50, 51, 52, 0, 0, 0], words := [46, 0, 47, 0, 48, 0, 49, 0, 50, 0, 51, 0, 52, 0, 0, 0, 0, 0, 0, 0, 4294967295, 3] }, pin_count := 0, is_dirty := true }, zeroFrame, zeroFrame, zeroFrame, zeroFrame, zeroFrame], page_table := [(1, 0), (2, 1), (3, 2), (4, 3), (5, 4), (6, 5), (7, 6), (8, 7), (9, 8), (10, 9), (11, 10)], free_list := [11, 12, 13, 14, 15], replacer := [10, 2, 9, 8, 7, 6, 5, 4, 3, 1, 0], disk := { num_pages := 12, free_list := [], file := [(0, { pid_word := 3735928559, payload := zeroPayload })] } }, root_page_id := 3, is_root_leaf := false }
def T53 : TreeState := { bpm := { frames := [{ pid_word := 1, payload := { num_keys := 5, keys := [1, 2, 3, 4, 5, 6, 7, 8, 9, 10], words := [1, 0, 2, 0, 3, 0, 4, 0, 5, 0, 6, 0, 7, 0, 8, 0, 9, 0, 10, 0, 2, 3] }, pin_count := 0, is_dirty := true }, { pid_word := 2, payload := { num_keys := 5, keys := [6, 7, 8, 9, 10, 11, 12, 13, 14, 15], words := [6, 0, 7, 0, 8, 0, 9, 0, 10, 0, 11, 0, 12, 0, 13, 0, 14, 0, 15, 0, 4, 3] }, pin_count := 0, is_dirty := true }, { pid_word := 3, payload := { num_keys := 9, keys := [6, 11, 16, 21, 26, 31, 36, 41, 46, 0], words := [1, 2, 4, 5, 6, 7, 8, 9, 10, 11, 0, 4294967295, 0, 0, 0, 0, 0, 0, 0, 0, 0, 0] }, pin_count := 0, is_dirty := true }, { pid_word := 4, payload := { num_keys := 5, keys := [11, 12, 13, 14, 15, 16, 17, 18, 19, 20], words := [11, 0, 12, 0, 13, 0, 14, 0, 15, 0, 16, 0, 17, 0, 18, 0, 19, 0, 20, 0, 5, 3] }, pin_count := 0, is_dirty := true }, { pid_word := 5, payload := { num_keys := 5, keys := [16, 17, 18, 19, 20, 21, 22, 23, 24, 25], words := [16, 0, 17, 0, 18, 0, 19, 0, 20, 0, 21, 0, 22, 0, 23, 0, 24, 0, 25, 0, 6, 3] }, pin_count := 0, is_dirty := true }, { pid_word := 6, payload := { num_keys := 5, keys := [21, 22, 23, 24, 25, 26, 27, 28, 29, 30], words := [21, 0, 22, 0, 23, 0, 24, 0, 25, 0, 26, 0, 27, 0, 28, 0, 29, 0, 30, 0, 7, 3] }, pin_count := 0, is_dirty := true }, { pid_word := 7, payload := { num_keys := 5, keys := [26, 27, 28, 29, 30, 31, 32, 33, 34, 35], words := [26, 0, 27, 0, 28, 0, 29, 0, 30, 0, 31, 0, 32, 0, 33, 0, 34, 0, 35, 0, 8, 3] }, pin_count := 0, is_dirty := true }, { pid_word := 8, payload := { num_keys := 5, keys := [31, 32, 33, 34, 35, 36, 37, 38, 39, 40], words := [31, 0, 32, 0, 33, 0, 34, 0, 35, 0, 36, 0, 37, 0, 38, 0, 39, 0, 40, 0, 9, 3] }, pin_count := 0, is_dirty := true }, { pid_word := 9, payload := { num_keys := 5, keys := [36, 37, 38, 39, 40, 41, 42, 43, 44, 45], words := [36, 0, 37, 0, 38, 0, 39, 0, 40, 0, 41, 0, 42, 0, 43, 0, 44, 0, 45, 0, 10, 3] }, pin_count := 0, is_dirty := true }, { pid_word := 10, payload := { num_keys := 5, keys := [41, 42, 43, 44, 45, 46, 47, 48, 49, 50], words := [41, 0, 42, 0, 43, 0, 44, 0, 45, 0, 46, 0, 47, 0, 48, 0, 49, 0, 50, 0, 11, 3] }, pin_count := 0, is_dirty := true }, { pid_word := 11, payload := { num_keys := 8, keys := [46, 47, 48, 49, 50, 51, 52, 53, 0, 0], words := [46, 0, 47, 0, 48, 0, 49, 0, 50, 0, 51, 0, 52, 0, 53, 0, 0, 0, 0, 0, 4294967295, 3] }, pin_count := 0, is_dirty := true }, zeroFrame, zeroFrame, zeroFrame, zeroFrame, zeroFrame], page_table := [(1, 0), (2, 1), (3, 2), (4, 3), (5, 4), (6, 5), (7, 6), (8, 7), (9, 8), (10, 9), (11, 10)], free_list := [11, 12, 13, 14, 15], replacer := [10, 2, 9, 8, 7, 6, 5, 4, 3, 1, 0], disk := { num_pages := 12, free_list := [], file := [(0, { pid_word := 3735928559, payload := zeroPayload })] } }, root_page_id := 3, is_root_leaf := false }
def T54 : TreeState := { bpm := { frames := [{ pid_word := 1, payload := { num_keys := 5, keys := [1, 2, 3, 4, 5, 6, 7, 8, 9, 10], words := [1, 0, 2, 0, 3, 0, 4, 0, 5, 0, 6, 0, 7, 0, 8, 0, 9, 0, 10, 0, 2, 3] }, pin_count := 0, is_dirty := true }, { pid_word := 2, payload := { num_keys := 5, keys := [6, 7, 8, 9, 10, 11, 12, 13, 14, 15], words := [6, 0, 7, 0, 8, 0, 9, 0, 10, 0, 11, 0, 12, 0, 13, 0, 14, 0, 15, 0, 4, 3] }, pin_count := 0, is_dirty := true }, { pid_word := 3, payload := { num_keys := 9, keys := [6, 11, 16, 21, 26, 31, 36, 41, 46, 0], words := [1, 2, 4, 5, 6, 7, 8, 9, 10, 11, 0, 4294967295, 0, 0, 0, 0, 0, 0, 0, 0, 0, 0] }, pin_count := 0, is_dirty := true }, { pid_word := 4, payload := { num_keys := 5, keys := [11, 12, 13, 14, 15, 16, 17, 18, 19, 20], words := [11, 0, 12, 0, 13, 0, 14, 0, 15, 0, 16, 0, 17, 0, 18, 0, 19, 0, 20, 0, 5, 3] }, pin_count := 0, is_dirty := true }, { pid_word := 5, payload := { num_keys := 5, keys := [16, 17, 18, 19, 20, 21, 22, 23, 24, 25], words := [16, 0, 17, 0, 18, 0, 19, 0, 20, 0, 21, 0, 22, 0, 23, 0, 24, 0, 25, 0, 6, 3] }, pin_count := 0, is_dirty := true }, { pid_word := 6, payload := { num_keys := 5, keys := [21, 22, 23, 24, 25, 26, 27, 28, 29, 30], words := [21, 0, 22, 0, 23, 0, 24, 0, 25, 0, 26, 0, 27, 0, 28, 0, 29, 0, 30, 0, 7, 3] }, pin_count := 0, is_dirty := true }, { pid_word := 7, payload := { num_keys := 5, keys := [26, 27, 28, 29, 30, 31, 32, 33, 34, 35], words := [26, 0, 27, 0, 28, 0, 29, 0, 30, 0, 31, 0, 32, 0, 33, 0, 34, 0, 35, 0, 8, 3] }, pin_count := 0, is_dirty := true }, { pid_word := 8, payload := { num_keys := 5, keys := [31, 32, 33, 34, 35, 36, 37, 38, 39, 40], words := [31, 0, 32, 0, 33, 0, 34, 0, 35, 0, 36, 0, 37, 0, 38, 0, 39, 0, 40, 0, 9, 3] }, pin_count := 0, is_dirty := true }, { pid_word := 9, payload := { num_keys := 5, keys := [36, 37, 38, 39, 40, 41, 42, 43, 44, 45], words := [36, 0, 37, 0, 38, 0, 39, 0, 40, 0, 41, 0, 42, 0, 43, 0, 44, 0, 45, 0, 10, 3] }, pin_count := 0, is_dirty := true }, { pid_word := 10, payload := { num_keys := 5, keys := [41, 42, 43, 44, 45, 46, 47, 48, 49, 50], words := [41, 0, 42, 0, 43, 0, 44, 0, 45, 0, 46, 0, 47, 0, 48, 0, 49, 0, 50, 0, 11, 3] }, pin_count := 0, is_dirty := true }, { pid_word := 11, payload := { num_keys := 9, keys := [46, 47, 48, 49, 50, 51, 52, 53, 54, 0], words := [46, 0, 47, 0, 48, 0, 49, 0, 50, 0, 51, 0, 52, 0, 53, 0, 54, 0, 0, 0, 4294967295, 3] }, pin_count := 0, is_dirty := true }, zeroFrame, zeroFrame, zeroFrame, zeroFrame, zeroFrame], page_table := [(1, 0), (2, 1), (3, 2), (4, 3), (5, 4), (6, 5), (7, 6), (8, 7), (9, 8), (10, 9), (11, 10)], free_list := [11, 12, 13, 14, 15], replacer := [10, 2, 9, 8, 7, 6, 5, 4, 3, 1, 0], disk := { num_pages := 12, free_list := [], file := [(0, { pid_word := 3735928559, payload := zeroPayload })] } }, root_page_id := 3, is_root_leaf := false }
def T55 : TreeState := { bpm := { frames := [{ pid_word := 1, payload := { num_keys := 5, keys := [1, 2, 3, 4, 5, 6, 7, 8, 9, 10], words := [1, 0, 2, 0, 3, 0, 4, 0, 5, 0, 6, 0, 7, 0, 8, 0, 9, 0, 10, 0, 2, 3] }, pin_count := 0, is_dirty := true }, { pid_word := 2, payload := { num_keys := 5, keys := [6, 7, 8, 9, 10, 11, 12, 13, 14, 15], words := [6, 0, 7, 0, 8, 0, 9, 0, 10, 0, 11, 0, 12, 0, 13, 0, 14, 0, 15, 0, 4, 3] }, pin_count := 0, is_dirty := true }, { pid_word := 3, payload := { num_keys := 9, keys := [6, 11, 16, 21, 26, 31, 36, 41, 46, 0], words := [1, 2, 4, 5, 6, 7, 8, 9, 10, 11, 0, 4294967295, 0, 0, 0, 0, 0, 0, 0, 0, 0, 0] }, pin_count := 0, is_dirty := true }, { pid_word := 4, payload := { num_keys := 5, keys := [11, 12, 13, 14, 15, 16, 17, 18, 19, 20], words := [11, 0, 12, 0, 13, 0, 14, 0, 15, 0, 16, 0, 17, 0, 18, 0, 19, 0, 20, 0, 5, 3] }, pin_count := 0, is_dirty := true }, { pid_word := 5, payload := { num_keys := 5, keys := [16, 17, 18, 19, 20, 21, 22, 23, 24, 25], words := [16, 0, 17, 0, 18, 0, 19, 0, 20, 0, 21, 0, 22, 0, 23, 0, 24, 0, 25, 0, 6, 3] }, pin_count := 0, is_dirty := true }, { pid_word := 6, payload := { num_keys := 5, keys := [21, 22, 23, 24, 25, 26, 27, 28, 29, 30], words := [21, 0, 22, 0, 23, 0, 24, 0, 25, 0, 26, 0, 27, 0, 28, 0, 29, 0, 30, 0, 7, 3] }, pin_count := 0, is_dirty := true }, { pid_word := 7, payload := { num_keys := 5, keys := [26, 27, 28, 29, 30, 31, 32, 33, 34, 35], words := [26, 0, 27, 0, 28, 0, 29, 0, 30, 0, 31, 0, 32, 0, 33, 0, 34, 0, 35, 0, 8, 3] }, pin_count := 0, is_dirty := true }, { pid_word := 8, payload := { num_keys := 5, keys := [31, 32, 33, 34, 35, 36, 37, 38, 39, 40], words := [31, 0, 32, 0, 33, 0, 34, 0, 35, 0, 36, 0, 37, 0, 38, 0, 39, 0, 40, 0, 9, 3] }, pin_count := 0, is_dirty := true }, { pid_word := 9, payload := { num_keys := 5, keys := [36, 37, 38, 39, 40, 41, 42, 43, 44, 45], words := [36, 0, 37, 0, 38, 0, 39, 0, 40, 0, 41, 0, 42, 0, 43, 0, 44, 0, 45, 0, 10, 3] }, pin_count := 0, is_dirty := true }, { pid_word := 10, payload := { num_keys := 5, keys := [41, 42, 43, 44, 45, 46, 47, 48, 49, 50], words := [41, 0, 42, 0, 43, 0, 44, 0, 45, 0, 46, 0, 47, 0, 48, 0, 49, 0, 50, 0, 11, 3] }, pin_count := 0, is_dirty := true }, { pid_word := 11, payload := { num_keys := 10, keys := [46, 47, 48, 49, 50, 51, 52, 53, 54, 55], words := [46, 0, 47, 0, 48, 0, 49, 0, 50, 0, 51, 0, 52, 0, 53, 0, 54, 0, 55, 0, 4294967295, 3] }, pin_count := 0, is_dirty := true }, zeroFrame, zeroFrame, zeroFrame, zeroFrame, zeroFrame], page_table := [(1, 0), (2, 1), (3, 2), (4, 3), (5, 4), (6, 5), (7, 6), (8, 7), (9, 8), (10, 9), (11, 10)], free_list := [11, 12, 13, 14, 15], replacer := [10, 2, 9, 8, 7, 6, 5, 4, 3, 1, 0], disk := { num_pages := 12, free_list := [], file := [(0, { pid_word := 3735928559, payload := zeroPayload })] } }, root_page_id := 3, is_root_leaf := false }
def T56 : TreeState := { bpm := { frames := [{ pid_word := 1, payload := { num_keys := 5, keys := [1, 2, 3, 4, 5, 6, 7, 8, 9, 10], words := [1, 0, 2, 0, 3, 0, 4, 0, 5, 0, 6, 0, 7, 0, 8, 0, 9, 0, 10, 0, 2, 3] }, pin_count := 0, is_dirty := true }, { pid_word := 2, payload := { num_keys := 5, keys := [6, 7, 8, 9, 10, 11, 12, 13, 14, 15], words := [6, 0, 7, 0, 8, 0, 9, 0, 10, 0, 11, 0, 12, 0, 13, 0, 14, 0, 15, 0, 4, 3] }, pin_count := 0, is_dirty := true }, { pid_word := 3, payload := { num_keys := 10, keys := [6, 11, 16, 21, 26, 31, 36, 41, 46, 51], words := [1, 2, 4, 5, 6, 7, 8, 9, 10, 11, 12, 4294967295, 0, 0, 0, 0, 0, 0, 0, 0, 0, 0] }, pin_count := 0, is_dirty := true }, { pid_word := 4, payload := { num_keys := 5, keys := [11, 12, 13, 14, 15, 16, 17, 18, 19, 20], words := [11, 0, 12, 0, 13, 0, 14, 0, 15, 0, 16, 0, 17, 0, 18, 0, 19, 0, 20, 0, 5, 3] }, pin_count := 0, is_dirty := true }, { pid_word := 5, payload := { num_keys := 5, keys := [16, 17, 18, 19, 20, 21, 22, 23, 24, 25], words := [16, 0, 17, 0, 18, 0, 19, 0, 20, 0, 21, 0, 22, 0, 23, 0, 24, 0, 25, 0, 6, 3] }, pin_count := 0, is_dirty := true }, { pid_word := 6, payload := { num_keys := 5, keys := [21, 22, 23, 24, 25, 26, 27, 28, 29, 30], words := [21, 0, 22, 0, 23, 0, 24, 0, 25, 0, 26, 0, 27, 0, 28, 0, 29, 0, 30, 0, 7, 3] }, pin_count := 0, is_dirty := true }, { pid_word := 7, payload := { num_keys := 5, keys := [26, 27, 28, 29, 30, 31, 32, 33, 34, 35], words := [26, 0, 27, 0, 28, 0, 29, 0, 30, 0, 31, 0, 32, 0, 33, 0, 34, 0, 35, 0, 8, 3] }, pin_count := 0, is_dirty := true }, { pid_word := 8, payload := { num_keys := 5, keys := [31, 32, 33, 34, 35, 36, 37, 38, 39, 40], words := [31, 0, 32, 0, 33, 0, 34, 0, 35, 0, 36, 0, 37, 0, 38, 0, 39, 0, 40, 0, 9, 3] }, pin_count := 0, is_dirty := true }, { pid_word := 9, payload := { num_keys := 5, keys := [36, 37, 38, 39, 40, 41, 42, 43, 44, 45], words := [36, 0, 37, 0, 38, 0, 39, 0, 40, 0, 41, 0, 42, 0, 43, 0, 44, 0, 45, 0, 10, 3] }, pin_count := 0, is_dirty := true }, { pid_word := 10, payload := { num_keys := 5, keys := [41, 42, 43, 44, 45, 46, 47, 48, 49, 50], words := [41, 0, 42, 0, 43, 0, 44, 0, 45, 0, 46, 0, 47, 0, 48, 0, 49, 0, 50, 0, 11, 3] }, pin_count := 0, is_dirty := true }, { pid_word := 11, payload := { num_keys := 5, keys := [46, 47, 48, 49, 50, 51, 52, 53, 54, 55], words := [46, 0, 47, 0, 48, 0, 49, 0, 50, 0, 51, 0, 52, 0, 53, 0, 54, 0, 55, 0, 12, 3] }, pin_count := 0, is_dirty := true }, { pid_word := 12, payload := { num_keys := 6, keys := [51, 52, 53, 54, 55, 56, 0, 0, 0, 0], words := [51, 0, 52, 0, 53, 0, 54, 0, 55, 0, 56, 0, 0, 0, 0, 0, 0, 0, 0, 0, 4294967295, 3] }, pin_count := 0, is_dirty := true }, zeroFrame, zeroFrame, zeroFrame, zeroFrame], page_table := [(1, 0), (2, 1), (3, 2), (4, 3), (5, 4), (6, 5), (7, 6), (8, 7), (9, 8), (10, 9), (11, 10), (12, 11)], free_list := [12, 13, 14, 15], replacer := [11, 2, 10, 9, 8, 7, 6, 5, 4, 3, 1, 0], disk := { num_pages := 13, free_list := [], file := [(0, { pid_word := 3735928559, payload := zeroPayload })] } }, root_page_id := 3, is_root_leaf := false }
def T57 : TreeState := { bpm := { frames := [{ pid_word := 1, payload := { num_keys := 5, keys := [1, 2, 3, 4, 5, 6, 7, 8, 9, 10], words := [1, 0, 2, 0, 3, 0, 4, 0, 5, 0, 6, 0, 7, 0, 8, 0, 9, 0, 10, 0, 2, 3] }, pin_count := 0, is_dirty := true }, { pid_word := 2, payload := { num_keys := 5, keys := [6, 7, 8, 9, 10, 11, 12, 13, 14, 15], words := [6, 0, 7, 0, 8, 0, 9, 0, 10, 0, 11, 0, 12, 0, 13, 0, 14, 0, 15, 0, 4, 3] }, pin_count := 0, is_dirty := true }, { pid_word := 3, payload := { num_keys := 10, keys := [6, 11, 16, 21, 26, 31, 36, 41, 46, 51], words := [1, 2, 4, 5, 6, 7, 8, 9, 10, 11, 12, 4294967295, 0, 0, 0, 0, 0, 0, 0, 0, 0, 0] }, pin_count := 0, is_dirty := true }, { pid_word := 4, payload := { num_keys := 5, keys := [11, 12, 13, 14, 15, 16, 17, 18, 19, 20], words := [11, 0, 12, 0, 13, 0, 14, 0, 15, 0, 16, 0, 17, 0, 18, 0, 19, 0, 20, 0, 5, 3] }, pin_count := 0, is_dirty := true }, { pid_word := 5, payload := { num_keys := 5, keys := [16, 17, 18, 19, 20, 21, 22, 23, 24, 25], words := [16, 0, 17, 0, 18, 0, 19, 0, 20, 0, 21, 0, 22, 0, 23, 0, 24, 0, 25, 0, 6, 3] }, pin_count := 0, is_dirty := true }, { pid_word := 6, payload := { num_keys := 5, keys := [21, 22, 23, 24, 25, 26, 27, 28, 29, 30], words := [21, 0, 22, 0, 23, 0, 24, 0, 25, 0, 26, 0, 27, 0, 28, 0, 29, 0, 30, 0, 7, 3] }, pin_count := 0, is_dirty := true }, { pid_word := 7, payload := { num_keys := 5, keys := [26, 27, 28, 29, 30, 31, 32, 33, 34, 35], words := [26, 0, 27, 0, 28, 0, 29, 0, 30, 0, 31, 0, 32, 0, 33, 0, 34, 0, 35, 0, 8, 3] }, pin_count := 0, is_dirty := true }, { pid_word := 8, payload := { num_keys := 5, keys := [31, 32, 33, 34, 35, 36, 37, 38, 39, 40], words := [31, 0, 32, 0, 33, 0, 34, 0, 35, 0, 36, 0, 37, 0, 38, 0, 39, 0, 40, 0, 9, 3] }, pin_count := 0, is_dirty := true }, { pid_word := 9, payload := { num_keys := 5, keys := [36, 37, 38, 39, 40, 41, 42, 43, 44, 45], words := [36, 0, 37, 0, 38, 0, 39, 0, 40, 0, 41, 0, 42, 0, 43, 0, 44, 0, 45, 0, 10, 3] }, pin_count := 0, is_dirty := true }, { pid_word := 10, payload := { num_keys := 5, keys := [41, 42, 43, 44, 45, 46, 47, 48, 49, 50], words := [41, 0, 42, 0, 43, 0, 44, 0, 45, 0, 46, 0, 47, 0, 48, 0, 49, 0, 50, 0, 11, 3] }, pin_count := 0, is_dirty := true }, { pid_word := 11, payload := { num_keys := 5, keys := [46, 47, 48, 49, 50, 51, 52, 53, 54, 55], words := [46, 0, 47, 0, 48, 0, 49, 0, 50, 0, 51, 0, 52, 0, 53, 0, 54, 0, 55, 0, 12, 3] }, pin_count := 0, is_dirty := true }, { pid_word := 12, payload := { num_keys := 7, keys := [51, 52, 53, 54, 55, 56, 57, 0, 0, 0], words := [51, 0, 52, 0, 53, 0, 54, 0, 55, 0, 56, 0, 57, 0, 0, 0, 0, 0, 0, 0, 4294967295, 3] }, pin_count := 0, is_dirty := true }, zeroFrame, zeroFrame, zeroFrame, zeroFrame], page_table := [(1, 0), (2, 1), (3, 2), (4, 3), (5, 4), (6, 5), (7, 6), (8, 7), (9, 8), (10, 9), (11, 10), (12, 11)], free_list := [12, 13, 14, 15], replacer := [11, 2, 10, 9, 8, 7, 6, 5, 4, 3, 1, 0], disk := { num_pages := 13, free_list := [], file := [(0, { pid_word := 3735928559, payload := zeroPayload })] } }, root_page_id := 3, is_root_leaf := false }
def T58 : TreeState := { bpm := { frames := [{ pid_word := 1, payload := { num_keys := 5, keys := [1, 2, 3, 4, 5, 6, 7, 8, 9, 10], words := [1, 0, 2, 0, 3, 0, 4, 0, 5, 0, 6, 0, 7, 0, 8, 0, 9, 0, 10, 0, 2, 3] }, pin_count := 0, is_dirty := true }, { pid_word := 2, payload := { num_keys := 5, keys := [6, 7, 8, 9, 10, 11, 12, 13, 14, 15], words := [6, 0, 7, 0, 8, 0, 9, 0, 10, 0, 11, 0, 12, 0, 13, 0, 14, 0, 15, 0, 4, 3] }, pin_count := 0, is_dirty := true }, { pid_word := 3, payload := { num_keys := 10, keys := [6, 11, 16, 21, 26, 31, 36, 41, 46, 51], words := [1, 2, 4, 5, 6, 7, 8, 9, 10, 11, 12, 4294967295, 0, 0, 0, 0, 0, 0, 0, 0, 0, 0] }, pin_count := 0, is_dirty := true }, { pid_word := 4, payload := { num_keys := 5, keys := [11, 12, 13, 14, 15, 16, 17, 18, 19, 20], words := [11, 0, 12, 0, 13, 0, 14, 0, 15, 0, 16, 0, 17, 0, 18, 0, 19, 0, 20, 0, 5, 3] }, pin_count := 0, is_dirty := true }, { pid_word := 5, payload := { num_keys := 5, keys := [16, 17, 18, 19, 20, 21, 22, 23, 24, 25], words := [16, 0, 17, 0, 18, 0, 19, 0, 20, 0, 21, 0, 22, 0, 23, 0, 24, 0, 25, 0, 6, 3] }, pin_count := 0, is_dirty := true }, { pid_word := 6, payload := { num_keys := 5, keys := [21, 22, 23, 24, 25, 26, 27, 28, 29, 30], words := [21, 0, 22, 0, 23, 0, 24, 0, 25, 0, 26, 0, 27, 0, 28, 0, 29, 0, 30, 0, 7, 3] }, pin_count := 0, is_dirty := true }, { pid_word := 7, payload := { num_keys := 5, keys := [26, 27, 28, 29, 30, 31, 32, 33, 34, 35], words := [26, 0, 27, 0, 28, 0, 29, 0, 30, 0, 31, 0, 32, 0, 33, 0, 34, 0, 35, 0, 8, 3] }, pin_count := 0, is_dirty := true }, { pid_word := 8, payload := { num_keys := 5, keys := [31, 32, 33, 34, 35, 36, 37, 38, 39, 40], words := [31, 0, 32, 0, 33, 0, 34, 0, 35, 0, 36, 0, 37, 0, 38, 0, 39, 0, 40, 0, 9, 3] }, pin_count := 0, is_dirty := true }, { pid_word := 9, payload := { num_keys := 5, keys := [36, 37, 38, 39, 40, 41, 42, 43, 44, 45], words := [36, 0, 37, 0, 38, 0, 39, 0, 40, 0, 41, 0, 42, 0, 43, 0, 44, 0, 45, 0, 10, 3] }, pin_count := 0, is_dirty := true }, { pid_word := 10, payload := { num_keys := 5, keys := [41, 42, 43, 44, 45, 46, 47, 48, 49, 50], words := [41, 0, 42, 0, 43, 0, 44, 0, 45, 0, 46, 0, 47, 0, 48, 0, 49, 0, 50, 0, 11, 3] }, pin_count := 0, is_dirty := true }, { pid_word := 11, payload := { num_keys := 5, keys := [46, 47, 48, 49, 50, 51, 52, 53, 54, 55], words := [46, 0, 47, 0, 48, 0, 49, 0, 50, 0, 51, 0, 52, 0, 53, 0, 54, 0, 55, 0, 12, 3] }, pin_count := 0, is_dirty := true }, { pid_word := 12, payload := { num_keys := 8, keys := [51, 52, 53, 54, 55, 56, 57, 58, 0, 0], words := [51, 0, 52, 0, 53, 0, 54, 0, 55, 0, 56, 0, 57, 0, 58, 0, 0, 0, 0, 0, 4294967295, 3] }, pin_count := 0, is_dirty := true }, zeroFrame, zeroFrame, zeroFrame, zeroFrame], page_table := [(1, 0), (2, 1), (3, 2), (4, 3), (5, 4), (6, 5), (7, 6), (8, 7), (9, 8), (10, 9), (11, 10), (12, 11)], free_list := [12, 13, 14, 15], replacer := [11, 2, 10, 9, 8, 7, 6, 5, 4, 3, 1, 0], disk := { num_pages := 13, free_list := [], file := [(0, { pid_word := 3735928559, payload := zeroPayload })] } }, root_page_id := 3, is_root_leaf := false }
def T59 : TreeState := { bpm := { frames := [{ pid_word := 1, payload := { num_keys := 5, keys := [1, 2, 3, 4, 5, 6, 7, 8, 9, 10], words := [1, 0, 2, 0, 3, 0, 4, 0, 5, 0, 6, 0, 7, 0, 8, 0, 9, 0, 10, 0, 2, 3] }, pin_count := 0, is_dirty := true }, { pid_word := 2, payload := { num_keys := 5, keys := [6, 7, 8, 9, 10, 11, 12, 13, 14, 15], words := [6, 0, 7, 0, 8, 0, 9, 0, 10, 0, 11, 0, 12, 0, 13, 0, 14, 0, 15, 0, 4, 3] }, pin_count := 0, is_dirty := true }, { pid_word := 3, payload := { num_keys := 10, keys := [6, 11, 16, 21, 26, 31, 36, 41, 46, 51], words := [1, 2, 4, 5, 6, 7, 8, 9, 10, 11, 12, 4294967295, 0, 0, 0, 0, 0, 0, 0, 0, 0, 0] }, pin_count := 0, is_dirty := true }, { pid_word := 4, payload := { num_keys := 5, keys := [11, 12, 13, 14, 15, 16, 17, 18, 19, 20], words := [11, 0, 12, 0, 13, 0, 14, 0, 15, 0, 16, 0, 17, 0, 18, 0, 19, 0, 20, 0, 5, 3] }, pin_count := 0, is_dirty := true }, { pid_word := 5, payload := { num_keys := 5, keys := [16, 17, 18, 19, 20, 21, 22, 23, 24, 25], words := [16, 0, 17, 0, 18, 0, 19, 0, 20, 0, 21, 0, 22, 0, 23, 0, 24, 0, 25, 0, 6, 3] }, pin_count := 0, is_dirty := true }, { pid_word := 6, payload := { num_keys := 5, keys := [21, 22, 23, 24, 25, 26, 27, 28, 29, 30], words := [21, 0, 22, 0, 23, 0, 24, 0, 25, 0, 26, 0, 27, 0, 28, 0, 29, 0, 30, 0, 7, 3] }, pin_count := 0, is_dirty := true }, { pid_word := 7, payload := { num_keys := 5, keys := [26, 27, 28, 29, 30, 31, 32, 33, 34, 35], words := [26, 0, 27, 0, 28, 0, 29, 0, 30, 0, 31, 0, 32, 0, 33, 0, 34, 0, 35, 0, 8, 3] }, pin_count := 0, is_dirty := true }, { pid_word := 8, payload := { num_keys := 5, keys := [31, 32, 33, 34, 35, 36, 37, 38, 39, 40], words := [31, 0, 32, 0, 33, 0, 34, 0, 35, 0, 36, 0, 37, 0, 38, 0, 39, 0, 40, 0, 9, 3] }, pin_count := 0, is_dirty := true }, { pid_word := 9, payload := { num_keys := 5, keys := [36, 37, 38, 39, 40, 41, 42, 43, 44, 45], words := [36, 0, 37, 0, 38, 0, 39, 0, 40, 0, 41, 0, 42, 0, 43, 0, 44, 0, 45, 0, 10, 3] }, pin_count := 0, is_dirty := true }, { pid_word := 10, payload := { num_keys := 5, keys := [41, 42, 43, 44, 45, 46, 47, 48, 49, 50], words := [41, 0, 42, 0, 43, 0, 44, 0, 45, 0, 46, 0, 47, 0, 48, 0, 49, 0, 50, 0, 11, 3] }, pin_count := 0, is_dirty := true }, { pid_word := 11, payload := { num_keys := 5, keys := [46, 47, 48, 49, 50, 51, 52, 53, 54, 55], words := [46, 0, 47, 0, 48, 0, 49, 0, 50, 0, 51, 0, 52, 0, 53, 0, 54, 0, 55, 0, 12, 3] }, pin_count := 0, is_dirty := true }, { pid_word := 12, payload := { num_keys := 9, keys := [51, 52, 53, 54, 55, 56, 57, 58, 59, 0], words := [51, 0, 52, 0, 53, 0, 54, 0, 55, 0, 56, 0, 57, 0, 58, 0, 59, 0, 0, 0, 4294967295, 3] }, pin_count := 0, is_dirty := true }, zeroFrame, zeroFrame, zeroFrame, zeroFrame], page_table := [(1, 0), (2, 1), (3, 2), (4, 3), (5, 4), (6, 5), (7, 6), (8, 7), (9, 8), (10, 9), (11, 10), (12, 11)], free_list := [12, 13, 14, 15], replacer := [11, 2, 10, 9, 8, 7, 6, 5, 4, 3, 1, 0], disk := { num_pages := 13, free_list := [], file := [(0, { pid_word := 3735928559, payload := zeroPayload })] } }, root_page_id := 3, is_root_leaf := false }
def T60 : TreeState := { bpm := { frames := [{ pid_word := 1, payload := { num_keys := 5, keys := [1, 2, 3, 4, 5, 6, 7, 8, 9, 10], words := [1, 0, 2, 0, 3, 0, 4, 0, 5, 0, 6, 0, 7, 0, 8, 0, 9, 0, 10, 0, 2, 3] }, pin_count := 0, is_dirty := true }, { pid_word := 2, payload := { num_keys := 5, keys := [6, 7, 8, 9, 10, 11, 12, 13, 14, 15], words := [6, 0, 7, 0, 8, 0, 9, 0, 10, 0, 11, 0, 12, 0, 13, 0, 14, 0, 15, 0, 4, 3] }, pin_count := 0, is_dirty := true }, { pid_word := 3, payload := { num_keys := 10, keys := [6, 11, 16, 21, 26, 31, 36, 41, 46, 51], words := [1, 2, 4, 5, 6, 7, 8, 9, 10, 11, 12, 4294967295, 0, 0, 0, 0, 0, 0, 0, 0, 0, 0] }, pin_count := 0, is_dirty := true }, { pid_word := 4, payload := { num_keys := 5, keys := [11, 12, 13, 14, 15, 16, 17, 18, 19, 20], words := [11, 0, 12, 0, 13, 0, 14, 0, 15, 0, 16, 0, 17, 0, 18, 0, 19, 0, 20, 0, 5, 3] }, pin_count := 0, is_dirty := true }, { pid_word := 5, payload := { num_keys := 5, keys := [16, 17, 18, 19, 20, 21, 22, 23, 24, 25], words := [16, 0, 17, 0, 18, 0, 19, 0, 20, 0, 21, 0, 22, 0, 23, 0, 24, 0, 25, 0, 6, 3] }, pin_count := 0, is_dirty := true }, { pid_word := 6, payload := { num_keys := 5, keys := [21, 22, 23, 24, 25, 26, 27, 28, 29, 30], words := [21, 0, 22, 0, 23, 0, 24, 0, 25, 0, 26, 0, 27, 0, 28, 0, 29, 0, 30, 0, 7, 3] }, pin_count := 0, is_dirty := true }, { pid_word := 7, payload := { num_keys := 5, keys := [26, 27, 28, 29, 30, 31, 32, 33, 34, 35], words := [26, 0, 27, 0, 28, 0, 29, 0, 30, 0, 31, 0, 32, 0, 33, 0, 34, 0, 35, 0, 8, 3] }, pin_count := 0, is_dirty := true }, { pid_word := 8, payload := { num_keys := 5, keys := [31, 32, 33, 34, 35, 36, 37, 38, 39, 40], words := [31, 0, 32, 0, 33, 0, 34, 0, 35, 0, 36, 0, 37, 0, 38, 0, 39, 0, 40, 0, 9, 3] }, pin_count := 0, is_dirty := true }, { pid_word := 9, payload := { num_keys := 5, keys := [36, 37, 38, 39, 40, 41, 42, 43, 44, 45], words := [36, 0, 37, 0, 38, 0, 39, 0, 40, 0, 41, 0, 42, 0, 43, 0, 44, 0, 45, 0, 10, 3] }, pin_count := 0, is_dirty := true }, { pid_word := 10, payload := { num_keys := 5, keys := [41, 42, 43, 44, 45, 46, 47, 48, 49, 50], words := [41, 0, 42, 0, 43, 0, 44, 0, 45, 0, 46, 0, 47, 0, 48, 0, 49, 0, 50, 0, 11, 3] }, pin_count := 0, is_dirty := true }, { pid_word := 11, payload := { num_keys := 5, keys := [46, 47, 48, 49, 50, 51, 52, 53, 54, 55], words := [46, 0, 47, 0, 48, 0, 49, 0, 50, 0, 51, 0, 52, 0, 53, 0, 54, 0, 55, 0, 12, 3] }, pin_count := 0, is_dirty := true }, { pid_word := 12, payload := { num_keys := 10, keys := [51, 52, 53, 54, 55, 56, 57, 58, 59, 60], words := [51, 0, 52, 0, 53, 0, 54, 0, 55, 0, 56, 0, 57, 0, 58, 0, 59, 0, 60, 0, 4294967295, 3] }, pin_count := 0, is_dirty := true }, zeroFrame, zeroFrame, zeroFrame, zeroFrame], page_table := [(1, 0), (2, 1), (3, 2), (4, 3), (5, 4), (6, 5), (7, 6), (8, 7), (9, 8), (10, 9), (11, 10), (12, 11)], free_list := [12, 13, 14, 15], replacer := [11, 2, 10, 9, 8, 7, 6, 5, 4, 3, 1, 0], disk := { num_pages := 13, free_list := [], file := [(0, { pid_word := 3735928559, payload := zeroPayload })] } }, root_page_id := 3, is_root_leaf := false }
def T61 : TreeState := { bpm := { frames := [{ pid_word := 1, payload := { num_keys := 5, keys := [1, 2, 3, 4, 5, 6, 7, 8, 9, 10], words := [1, 0, 2, 0, 3, 0, 4, 0, 5, 0, 6, 0, 7, 0, 8, 0, 9, 0, 10, 0, 2, 3] }, pin_count := 0, is_dirty := true }, { pid_word := 2, payload := { num_keys := 5, keys := [6, 7, 8, 9, 10, 11, 12, 13, 14, 15], words := [6, 0, 7, 0, 8, 0, 9, 0, 10, 0, 11, 0, 12, 0, 13, 0, 14, 0, 15, 0, 4, 3] }, pin_count := 0, is_dirty := true }, { pid_word := 3, payload := { num_keys := 6, keys := [6, 11, 16, 21, 26, 56, 36, 41, 46, 51], words := [1, 2, 4, 5, 6, 7, 13, 9, 10, 11, 12, 4294967295, 0, 0, 0, 0, 0, 0, 0, 0, 0, 15] }, pin_count := 0, is_dirty := true }, { pid_word := 4, payload := { num_keys := 5, keys := [11, 12, 13, 14, 15, 16, 17, 18, 19, 20], words := [11, 0, 12, 0, 13, 0, 14, 0, 15, 0, 16, 0, 17, 0, 18, 0, 19, 0, 20, 0, 5, 3] }, pin_count := 0, is_dirty := true }, { pid_word := 5, payload := { num_keys := 5, keys := [16, 17, 18, 19, 20, 21, 22, 23, 24, 25], words := [16, 0, 17, 0, 18, 0, 19, 0, 20, 0, 21, 0, 22, 0, 23, 0, 24, 0, 25, 0, 6, 3] }, pin_count := 0, is_dirty := true }, { pid_word := 6, payload := { num_keys := 5, keys := [21, 22, 23, 24, 25, 26, 27, 28, 29, 30], words := [21, 0, 22, 0, 23, 0, 24, 0, 25, 0, 26, 0, 27, 0, 28, 0, 29, 0, 30, 0, 7, 3] }, pin_count := 0, is_dirty := true }, { pid_word := 7, payload := { num_keys := 5, keys := [26, 27, 28, 29, 30, 31, 32, 33, 34, 35], words := [26, 0, 27, 0, 28, 0, 29, 0, 30, 0, 31, 0, 32, 0, 33, 0, 34, 0, 35, 0, 8, 3] }, pin_count := 0, is_dirty := true }, { pid_word := 8, payload := { num_keys := 5, keys := [31, 32, 33, 34, 35, 36, 37, 38, 39, 40], words := [31, 0, 32, 0, 33, 0, 34, 0, 35, 0, 36, 0, 37, 0, 38, 0, 39, 0, 40, 0, 9, 3] }, pin_count := 0, is_dirty := true }, { pid_word := 9, payload := { num_keys := 5, keys := [36, 37, 38, 39, 40, 41, 42, 43, 44, 45], words := [36, 0, 37, 0, 38, 0, 39, 0, 40, 0, 41, 0, 42, 0, 43, 0, 44, 0, 45, 0, 10, 3] }, pin_count := 0, is_dirty := true }, { pid_word := 10, payload := { num_keys := 5, keys := [41, 42, 43, 44, 45, 46, 47, 48, 49, 50], words := [41, 0, 42, 0, 43, 0, 44, 0, 45, 0, 46, 0, 47, 0, 48, 0, 49, 0, 50, 0, 11, 3] }, pin_count := 0, is_dirty := true }, { pid_word := 11, payload := { num_keys := 5, keys := [46, 47, 48, 49, 50, 51, 52, 53, 54, 55], words := [46, 0, 47, 0, 48, 0, 49, 0, 50, 0, 51, 0, 52, 0, 53, 0, 54, 0, 55, 0, 12, 3] }, pin_count := 0, is_dirty := true }, { pid_word := 12, payload := { num_keys := 5, keys := [51, 52, 53, 54, 55, 56, 57, 58, 59, 60], words := [51, 0, 52, 0, 53, 0, 54, 0, 55, 0, 56, 0, 57, 0, 58, 0, 59, 0, 60, 0, 13, 3] }, pin_count := 0, is_dirty := true }, { pid_word := 13, payload := { num_keys := 5, keys := [56, 57, 58, 59, 60, 0, 0, 0, 0, 0], words := [56, 0, 57, 0, 58, 0, 59, 0, 60, 0, 0, 0, 0, 0, 0, 0, 0, 0, 0, 0, 4294967295, 3] }, pin_count := 0, is_dirty := true }, { pid_word := 14, payload := { num_keys := 5, keys := [36, 41, 46, 51, 61, 0, 0, 0, 0, 0], words := [8, 9, 10, 11, 12, 0, 0, 0, 61, 0, 0, 4294967295, 0, 0, 0, 0, 0, 0, 0, 0, 0, 15] }, pin_count := 0, is_dirty := true }, { pid_word := 15, payload := { num_keys := 1, keys := [31, 0, 0, 0, 0, 0, 0, 0, 0, 0], words := [3, 14, 0, 0, 0, 0, 0, 0, 0, 0, 0, 4294967295, 0, 0, 0, 0, 0, 0, 0, 0, 0, 0] }, pin_count := 0, is_dirty := true }, zeroFrame], page_table := [(1, 0), (2, 1), (3, 2), (4, 3), (5, 4), (6, 5), (7, 6), (8, 7), (9, 8), (10, 9), (11, 10), (12, 11), (13, 12), (14, 13), (15, 14)], free_list := [15], replacer := [13, 14, 11, 2, 12, 10, 9, 8, 7, 6, 5, 4, 3, 1, 0], disk := { num_pages := 16, free_list := [], file := [(0, { pid_word := 3735928559, payload := zeroPayload })] } }, root_page_id := 15, is_root_leaf := false }

/-- Every step of the 61-insert run: each insert returns `true` and
produces the next recorded state. -/
def chainHolds : Prop := T0.insert 1 ⟨1, 0⟩ = (true, T1) ∧ T1.insert 2 ⟨2, 0⟩ = (true, T2) ∧ T2.insert 3 ⟨3, 0⟩ = (true, T3) ∧ T3.insert 4 ⟨4, 0⟩ = (true, T4) ∧ T4.insert 5 ⟨5, 0⟩ = (true, T5) ∧ T5.insert 6 ⟨6, 0⟩ = (true, T6) ∧ T6.insert 7 ⟨7, 0⟩ = (true, T7) ∧ T7.insert 8 ⟨8, 0⟩ = (true, T8) ∧ T8.insert 9 ⟨9, 0⟩ = (true, T9) ∧ T9.insert 10 ⟨10, 0⟩ = (true, T10) ∧ T10.insert 11 ⟨11, 0⟩ = (true, T11) ∧ T11.insert 12 ⟨12, 0⟩ = (true, T12) ∧ T12.insert 13 ⟨13, 0⟩ = (true, T13) ∧ T13.insert 14 ⟨14, 0⟩ = (true, T14) ∧ T14.insert 15 ⟨15, 0⟩ = (true, T15) ∧ T15.insert 16 ⟨16, 0⟩ = (true, T16) ∧ T16.insert 17 ⟨17, 0⟩ = (true, T17) ∧ T17.insert 18 ⟨18, 0⟩ = (true, T18) ∧ T18.insert 19 ⟨19, 0⟩ = (true, T19) ∧ T19.insert 20 ⟨20, 0⟩ = (true, T20) ∧ T20.insert 21 ⟨21, 0⟩ = (true, T21) ∧ T21.insert 22 ⟨22, 0⟩ = (true, T22) ∧ T22.insert 23 ⟨23, 0⟩ = (true, T23) ∧ T23.insert 24 ⟨24, 0⟩ = (true, T24) ∧ T24.insert 25 ⟨25, 0⟩ = (true, T25) ∧ T25.insert 26 ⟨26, 0⟩ = (true, T26) ∧ T26.insert 27 ⟨27, 0⟩ = (true, T27) ∧ T27.insert 28 ⟨28, 0⟩ = (true, T28) ∧ T28.insert 29 ⟨29, 0⟩ = (true, T29) ∧ T29.insert 30 ⟨30, 0⟩ = (true, T30) ∧ T30.insert 31 ⟨31, 0⟩ = (true, T31) ∧ T31.insert 32 ⟨32, 0⟩ = (true, T32) ∧ T32.insert 33 ⟨33, 0⟩ = (true, T33) ∧ T33.insert 34 ⟨34, 0⟩ = (true, T34) ∧ T34.insert 35 ⟨35, 0⟩ = (true, T35) ∧ T35.insert 36 ⟨36, 0⟩ = (true, T36) ∧ T36.insert 37 ⟨37, 0⟩ = (true, T37) ∧ T37.insert 38 ⟨38, 0⟩ = (true, T38) ∧ T38.insert 39 ⟨39, 0⟩ = (true, T39) ∧ T39.insert 40 ⟨40, 0⟩ = (true, T40) ∧ T40.insert 41 ⟨41, 0⟩ = (true, T41) ∧ T41.insert 42 ⟨42, 0⟩ = (true, T42) ∧ T42.insert 43 ⟨43, 0⟩ = (true, T43) ∧ T43.insert 44 ⟨44, 0⟩ = (true, T44) ∧ T44.insert 45 ⟨45, 0⟩ = (true, T45) ∧ T45.insert 46 ⟨46, 0⟩ = (true, T46) ∧ T46.insert 47 ⟨47, 0⟩ = (true, T47) ∧ T47.insert 48 ⟨48, 0⟩ = (true, T48) ∧ T48.insert 49 ⟨49, 0⟩ = (true, T49) ∧ T49.insert 50 ⟨50, 0⟩ = (true, T50) ∧ T50.insert 51 ⟨51, 0⟩ = (true, T51) ∧ T51.insert 52 ⟨52, 0⟩ = (true, T52) ∧ T52.insert 53 ⟨53, 0⟩ = (true, T53) ∧ T53.insert 54 ⟨54, 0⟩ = (true, T54) ∧ T54.insert 55 ⟨55, 0⟩ = (true, T55) ∧ T55.insert 56 ⟨56, 0⟩ = (true, T56) ∧ T56.insert 57 ⟨57, 0⟩ = (true, T57) ∧ T57.insert 58 ⟨58, 0⟩ = (true, T58) ∧ T58.insert 59 ⟨59, 0⟩ = (true, T59) ∧ T59.insert 60 ⟨60, 0⟩ = (true, T60) ∧ T60.insert 61 ⟨61, 0⟩ = (true, T61)

/-- The pin counts of all frames, in frame order. -/
def pinCounts (s : BPMState) : List Int := s.frames.map (fun fr => fr.pin_count)

/-! ### Other concrete states used by the claims -/

/-- A fresh 3-frame buffer pool over a fresh one-page database file. -/
def freshPool3 : BPMState := newBPM 3 freshDisk

/-- A database file that already contains five page slots (contents never
read by the LRU scenario). -/
def fivePageDisk : DiskManagerState := { num_pages := 5, free_list := [], file := [] }

/-- LRU scenario (spec §8, scenario 2): pool of 3; fetch pages 1, 2, 3;
unpin all three with `dirty = false`. -/
def lruLoaded : BPMState :=
  let s1 := (((newBPM 3 fivePageDisk).fetchPage true 1).2.fetchPage true 2).2
  let s2 := (s1.fetchPage true 3).2
  (((s2.unpinPage 1 false).2.unpinPage 2 false).2.unpinPage 3 false).2

/-- A one-frame pool holding a dirty page 7, unpinned (so the frame is the
replacer's only victim candidate). -/
def dirtyVictimPool : BPMState :=
  { frames := [{ pid_word := 7, payload := zeroPayload, pin_count := 0, is_dirty := true }],
    page_table := [(7, 0)],
    free_list := [],
    replacer := [0],
    disk := { num_pages := 8, free_list := [], file := [] } }

/-- A leaf node holding the single pair `(5, RID(7, 0))`. -/
def singleLeaf : NodePayload := ((leafCtor zeroPayload).leafInsert 5 ⟨7, 0⟩).2

/-- A tree whose root is the leaf page 1 stored only on disk (not resident):
searching it must load the page, changing the directory. -/
def searchMissTree : TreeState :=
  { bpm := newBPM 2 { num_pages := 2, free_list := [],
                      file := [(0, ⟨0xDEADBEEF, zeroPayload⟩), (1, ⟨1, singleLeaf⟩)] },
    root_page_id := 1, is_root_leaf := true }

/-- A tree whose root is the resident leaf page 1. -/
def residentLeafTree : TreeState :=
  { bpm := { frames := [{ pid_word := 1, payload := singleLeaf, pin_count := 0, is_dirty := false }],
             page_table := [(1, 0)],
             free_list := [],
             replacer := [0],
             disk := { num_pages := 2, free_list := [], file := [] } },
    root_page_id := 1, is_root_leaf := true }

/-- `s'` sets no new dirty bit relative to `s`: every frame that is dirty
after is dirty before.  (A frame may become *cleaner* — eviction write-back
resets the victim — but a read-only operation never turns a bit on.) -/
def dirtyMono (s s' : BPMState) : Prop :=
  ∀ i : Nat, (s'.getFrame i).is_dirty = true → (s.getFrame i).is_dirty = true

end MiniDB

namespace MiniDB

/-! ## Theorems -/

theorem assocFind_mem {α : Type} {l : List (Nat × α)} {k : Nat} {v : α}
    (h : assocFind l k = some v) : (k, v) ∈ l := by
  induction l with
  | nil => simp [assocFind] at h
  | cons hd tl ih =>
    obtain ⟨k', v'⟩ := hd
    by_cases hk : k' = k
    · subst hk
      simp [assocFind] at h
      simp [h]
    · simp [assocFind, hk] at h
      exact List.mem_cons_of_mem _ (ih h)

theorem assocFind_assocSet_self {α : Type} (l : List (Nat × α)) (k : Nat) (v : α) :
    assocFind (assocSet l k v) k = some v := by
  induction l with
  | nil => simp [assocFind, assocSet]
  | cons hd tl ih =>
    obtain ⟨k', v'⟩ := hd
    by_cases hk : k' = k
    · subst hk; simp [assocFind, assocSet]
    · simp [assocFind, assocSet, hk, ih]

/-- Every step of the 61-insert run holds by computation. -/
theorem chain_all_inserts_ok : chainHolds := ⟨rfl, rfl, rfl, rfl, rfl, rfl, rfl, rfl, rfl, rfl, rfl, rfl, rfl, rfl, rfl, rfl, rfl, rfl, rfl, rfl, rfl, rfl, rfl, rfl, rfl, rfl, rfl, rfl, rfl, rfl, rfl, rfl, rfl, rfl, rfl, rfl, rfl, rfl, rfl, rfl, rfl, rfl, rfl, rfl, rfl, rfl, rfl, rfl, rfl, rfl, rfl, rfl, rfl, rfl, rfl, rfl, rfl, rfl, rfl, rfl, rfl⟩

/-- C1: refutation at the code level.  Starting from an empty tree, the 61
inserts of keys 1..61 all return `true` (the run `chainHolds`), producing a
depth-3 tree; yet `Search(1)` — key 1 was inserted and never removed —
returns no result, because `FindLeafPageId` descends exactly one level from
the internal root and hands an internal page to the leaf-side binary search. -/
theorem deep_tree_search_returns_none :
    chainHolds ∧ T61.is_root_leaf = false ∧ (T61.search 1).1 = none :=
  ⟨chain_all_inserts_ok, rfl, rfl⟩

/-- C2: refutation at the code level.  After the first 11 inserts of the run
(state `T11`, a two-level tree with root page 3 and leaves 1 and 2), every
frame's pin count is 0; `Remove(7)` then fetches leaf page 2 but unpins
`root_page_id_` (page 3, whose pin count is 0, so the unpin fails), leaving
leaf 2's frame with pin count 1: the fetch is not matched by an unpin of the
same page id, and pin counts after the call differ from before. -/
theorem remove_leaks_leaf_pin :
    chainHolds ∧
      pinCounts T11.bpm = List.replicate 16 0 ∧
      (T11.remove 7).1 = true ∧
      pinCounts (T11.remove 7).2.bpm ≠ pinCounts T11.bpm ∧
      ((T11.remove 7).2.bpm.getFrame 1).pin_count = 1 :=
  ⟨chain_all_inserts_ok, by decide, rfl, by decide, rfl⟩

/-- C5: refutation at the code level.  In state `T61` (after the internal
split and second root creation of the 61-insert run) the new root is page 15
and its `children[0]` is the old internal root, page 3; but page 3's
internal-layout `parent` field still holds `INVALID_PAGE_ID` — `CreateNewRoot`
wrote the new root's id through `GetLeafNode`, i.e. at the *leaf* layout's
parent offset, which lies outside the internal struct's fields. -/
theorem split_leaves_stale_parent_pointer :
    chainHolds ∧
      T61.root_page_id = 15 ∧
      (T61.nodeAt 15).child 0 = 3 ∧
      (T61.nodeAt 3).internalParent = INVALID_PAGE_ID ∧
      INVALID_PAGE_ID ≠ 15 ∧
      (T61.nodeAt 3).leafParent = 15 :=
  ⟨chain_all_inserts_ok, rfl, rfl, rfl, by decide, rfl⟩

/-- C6: refutation at the code level.  Key 1 was inserted by the run
`chainHolds` (its first step) and never removed, yet a second
`Insert(1, RID(9,9))` on `T61` returns `true` and changes the tree — the
duplicate is not detected because the descent never reaches the leaf that
holds key 1. -/
theorem duplicate_insert_accepted_in_deep_tree :
    chainHolds ∧ (T61.insert 1 ⟨9, 9⟩).1 = true ∧ (T61.insert 1 ⟨9, 9⟩).2 ≠ T61 :=
  ⟨chain_all_inserts_ok, rfl, by decide⟩

/-- C3: counterexample to the claim as stated.  On a fresh 3-frame pool all
three frames are free and unpinned, yet `FetchPage(5)` returns `None`: the
disk read fails (`5 ≥ page_count = 1`), a failure mode outside the claimed
"None iff all frames pinned" equivalence. -/
theorem fetch_none_despite_free_frames :
    (freshPool3.fetchPage true 5).1 = none ∧
      freshPool3.free_list ≠ [] ∧
      (∀ fr ∈ freshPool3.frames, fr.pin_count = 0) :=
  ⟨rfl, by decide, by decide⟩

end MiniDB


namespace MiniDB

theorem assocFind_eq_none_of_not_mem {α : Type} {l : List (Nat × α)} {k : Nat}
    (h : k ∉ l.map Prod.fst) : assocFind l k = none := by
  induction l with
  | nil => rfl
  | cons hd tl ih =>
    obtain ⟨k', v'⟩ := hd
    have h1 : ¬ k' = k := fun e => h (by simp [e])
    have h2 : k ∉ tl.map Prod.fst := fun e => h (by simp [e])
    simp [assocFind, h1, ih h2]

theorem assocFind_assocErase_self {α : Type} (l : List (Nat × α)) (k : Nat)
    (h : (l.map Prod.fst).Nodup) : assocFind (assocErase l k) k = none := by
  induction l with
  | nil => rfl
  | cons hd tl ih =>
    obtain ⟨k', v'⟩ := hd
    simp only [List.map_cons, List.nodup_cons] at h
    by_cases hk : k' = k
    · subst hk
      simpa [assocErase] using
        assocFind_eq_none_of_not_mem (by simpa using h.1)
    · simp [assocErase, hk, assocFind, ih h.2]

theorem mem_of_getLast?_eq {α : Type} {l : List α} {a : α}
    (h : l.getLast? = some a) : a ∈ l := by
  have h2 : a ∈ l.getLast? := by simp [h]
  obtain ⟨hne, rfl⟩ := List.mem_getLast?_eq_getLast h2
  exact List.getLast_mem hne

theorem lru_probe (l : List Nat) (v : Nat) (h : l.getLast? = some v) :
    lruVictim l = (some v, l.dropLast) := by
  cases l with
  | nil => simp at h
  | cons a as => simp [lruVictim, h]

/-- C7: `AllocatePage` pops the back of the free list when it is non-empty,
otherwise returns `num_pages_` and increments it; it never touches the file;
and an `allocate; deallocate(id); allocate` round trip returns `id` again
(free-list LIFO reuse).  Hypotheses: the file has at least its header page
and the free list holds only valid non-header ids (both established by the
`DiskManager` constructor and preserved by every operation). -/
theorem allocate_page_spec_and_lifo_reuse (d : DiskManagerState)
    (hn : 1 ≤ d.num_pages)
    (hfree : ∀ p ∈ d.free_list, p ≠ 0 ∧ p < d.num_pages) :
    (d.allocatePage.1 = (d.free_list.getLast?).getD d.num_pages) ∧
    (d.allocatePage.2.free_list = d.free_list.dropLast) ∧
    (d.allocatePage.2.num_pages =
      if d.free_list.isEmpty then d.num_pages + 1 else d.num_pages) ∧
    (d.allocatePage.2.file = d.file) ∧
    (∃ d₂, d.allocatePage.2.deallocatePage d.allocatePage.1 = some d₂ ∧
      d₂.allocatePage.1 = d.allocatePage.1) := by
  obtain ⟨np, fl, fi⟩ := d
  have hn' : ¬ np = 0 := by simpa using Nat.one_le_iff_ne_zero.mp hn
  by_cases he : fl = []
  · subst he
    refine ⟨by simp [DiskManagerState.allocatePage],
      by simp [DiskManagerState.allocatePage],
      by simp [DiskManagerState.allocatePage],
      by simp [DiskManagerState.allocatePage],
      ⟨⟨np + 1, [np], fi⟩, ?_, ?_⟩⟩
    · simp only [DiskManagerState.allocatePage, DiskManagerState.deallocatePage,
        List.isEmpty_nil, if_true]
      rw [if_neg hn', if_neg (by simp)]
      rfl
    · simp [DiskManagerState.allocatePage]
  · obtain ⟨x, hx⟩ : ∃ x, fl.getLast? = some x := by
      cases hl : fl.getLast? with
      | none => exact absurd (by simpa using hl) he
      | some x => exact ⟨x, rfl⟩
    obtain ⟨hx0, hxlt⟩ := hfree x (mem_of_getLast?_eq hx)
    have hxlt' : x < np := hxlt
    have hie : fl.isEmpty = false := by
      cases fl with
      | nil => exact absurd rfl he
      | cons a as => rfl
    refine ⟨by simp [DiskManagerState.allocatePage, hie, hx],
      by simp [DiskManagerState.allocatePage, hie],
      by simp [DiskManagerState.allocatePage, hie],
      by simp [DiskManagerState.allocatePage, hie],
      ⟨⟨np, fl.dropLast ++ [x], fi⟩, ?_, ?_⟩⟩
    · simp only [DiskManagerState.allocatePage, DiskManagerState.deallocatePage, hie,
        Bool.false_eq_true, if_false, hx, Option.getD_some]
      rw [if_neg hx0, if_neg (by simp only [not_le]; omega)]
    · simp [DiskManagerState.allocatePage, hx, he]

theorem allocate_page_lifo_witness :
    (({ num_pages := 3, free_list := [2], file := [] } : DiskManagerState).allocatePage).1 = 2 := by
  have h := allocate_page_spec_and_lifo_reuse ⟨3, [2], []⟩ (by decide)
    (by decide)
  simpa using h.1

/-- C8: `Victim` pops and returns the back (least-recently-unpinned) element
of the recency list, or `None` when nothing is tracked; and in the concrete
pool-of-3 run that fetches pages 1, 2, 3, unpins all three with
`dirty = false` and then fetches page 4, the evicted frame is frame 0 — the
frame that was bound to page id 1. -/
theorem lru_victim_spec_and_eviction_order :
    (∀ (l : List Nat) (v : Nat), l.getLast? = some v →
        lruVictim l = (some v, l.dropLast)) ∧
    lruVictim ([] : List Nat) = (none, []) ∧
    assocFind lruLoaded.page_table 1 = some 0 ∧
    lruLoaded.free_list = [] ∧
    (lruLoaded.fetchPage true 4).1 = some 0 ∧
    assocFind (lruLoaded.fetchPage true 4).2.page_table 1 = none ∧
    assocFind (lruLoaded.fetchPage true 4).2.page_table 4 = some 0 :=
  ⟨lru_probe, rfl, rfl, rfl, rfl, rfl, rfl⟩

theorem lru_victim_witness : lruVictim [5] = (some 5, []) := by
  have h := lru_victim_spec_and_eviction_order.1 [5] 5 (by simp)
  simpa using h

/-- C3 (amended): `FetchPage(id)` returns `None` iff `id` is not resident
and either no frame can be freed (`FindFreeFrame` fails: free list empty
and the replacer has no victim, or the dirty victim's write-back fails) or
the disk read of `id` fails (`id ≥ page_count`); in every other case it
returns a valid frame. -/
theorem fetchPage_none_characterization (s : BPMState) (wOk : Bool) (pid : Nat) :
    (s.fetchPage wOk pid).1 = none ↔
      (assocFind s.page_table pid = none ∧
        ((s.findFreeFrame wOk).1 = none ∨
          ¬ pid < (s.findFreeFrame wOk).2.disk.num_pages)) := by
  unfold BPMState.fetchPage
  cases h : assocFind s.page_table pid with
  | some f => simp [h]
  | none =>
    simp only [h]
    cases h2 : s.findFreeFrame wOk with
    | mk o s1 =>
      cases o with
      | none => simp [h2]
      | some f =>
        unfold DiskManagerState.readPage
        by_cases hr : pid < s1.disk.num_pages
        · simp [h2, hr]
        · simp [h2, hr]

/-- C4: when eviction selects a dirty victim, the victim's bytes are written
to the disk file and only then is its directory mapping removed; if the
write-back fails, `FindFreeFrame` fails with the directory, frames and disk
untouched and the victim back in the replacer, and the enclosing
`FetchPage`/`NewPage` fails. -/
theorem eviction_writeback_order (s : BPMState) (v : Nat)
    (hfree : s.free_list = [])
    (hv : s.replacer.getLast? = some v)
    (hd : (s.getFrame v).is_dirty = true)
    (hnd : (s.page_table.map Prod.fst).Nodup) :
    ((s.findFreeFrame true).1 = some v ∧
      assocFind (s.findFreeFrame true).2.disk.file (s.getFrame v).pid_word =
        some ⟨(s.getFrame v).pid_word, (s.getFrame v).payload⟩ ∧
      assocFind (s.findFreeFrame true).2.page_table (s.getFrame v).pid_word = none) ∧
    ((s.findFreeFrame false).1 = none ∧
      (s.findFreeFrame false).2.page_table = s.page_table ∧
      v ∈ (s.findFreeFrame false).2.replacer ∧
      (s.findFreeFrame false).2.disk = s.disk ∧
      (s.findFreeFrame false).2.frames = s.frames ∧
      (∀ pid, assocFind s.page_table pid = none → (s.fetchPage false pid).1 = none) ∧
      (s.newPage false).1 = none) := by
  obtain ⟨fr, pt, fl, rep, dsk⟩ := s
  have hfl : fl = [] := hfree
  subst hfl
  dsimp only at hv hd hnd ⊢
  have hvic : lruVictim rep = (some v, rep.dropLast) := lru_probe _ _ hv
  have hd2 : (fr.getD v zeroFrame).is_dirty = true := hd
  have hred : BPMState.findFreeFrame ⟨fr, pt, [], rep, dsk⟩ true =
      (some v,
        ⟨fr.set v zeroFrame,
         assocErase pt (fr.getD v zeroFrame).pid_word,
         [],
         rep.dropLast,
         ⟨if (fr.getD v zeroFrame).pid_word ≥ dsk.num_pages
            then (fr.getD v zeroFrame).pid_word + 1 else dsk.num_pages,
          dsk.free_list,
          assocSet dsk.file (fr.getD v zeroFrame).pid_word
            ⟨(fr.getD v zeroFrame).pid_word, (fr.getD v zeroFrame).payload⟩⟩⟩) := by
    simp only [BPMState.findFreeFrame, hvic, BPMState.getFrame, BPMState.setFrame,
      DiskManagerState.writePage, hd2, reduceIte]
  have hredf : BPMState.findFreeFrame ⟨fr, pt, [], rep, dsk⟩ false =
      (none, ⟨fr, pt, [], lruUnpin rep.dropLast v, dsk⟩) := by
    have hw : dsk.writePage (fr.getD v zeroFrame).pid_word
        ⟨(fr.getD v zeroFrame).pid_word, (fr.getD v zeroFrame).payload⟩ false = none := rfl
    simp only [BPMState.findFreeFrame, hvic, BPMState.getFrame, hd2, reduceIte, hw]
  constructor
  · refine ⟨by rw [hred], ?_, ?_⟩
    · rw [hred]
      exact assocFind_assocSet_self dsk.file _ _
    · rw [hred]
      exact assocFind_assocErase_self pt _ hnd
  · refine ⟨by rw [hredf], by rw [hredf], ?_, by rw [hredf], by rw [hredf], ?_, ?_⟩
    · rw [hredf]
      simp [lruUnpin]
    · intro pid hp
      unfold BPMState.fetchPage
      have hp2 : assocFind pt pid = none := hp
      dsimp only
      rw [hp2, hredf]
    · unfold BPMState.newPage
      rw [hredf]

theorem eviction_writeback_witness :
    ((dirtyVictimPool.findFreeFrame true).1 = some 0 ∧
      assocFind (dirtyVictimPool.findFreeFrame true).2.page_table 7 = none) ∧
    ((dirtyVictimPool.findFreeFrame false).1 = none ∧
      (dirtyVictimPool.findFreeFrame false).2.page_table = dirtyVictimPool.page_table) := by
  have h := eviction_writeback_order dirtyVictimPool 0 rfl rfl rfl (by decide)
  exact ⟨⟨h.1.1, h.1.2.2⟩, ⟨h.2.1, h.2.2.1⟩⟩

end MiniDB


namespace MiniDB

theorem findKeyAux_nonneg (keys : List Int) (key : Int) :
    ∀ (fuel : Nat) (left right : Int), 0 ≤ left →
      0 ≤ findKeyAux keys key fuel left right := by
  intro fuel
  induction fuel with
  | zero => intro l r h; simpa [findKeyAux] using h
  | succ fuel ih =>
    intro l r h
    rw [findKeyAux]
    dsimp only
    by_cases hlr : l ≤ r
    · rw [if_pos hlr]
      by_cases h1 : keys.getD ((l + r) / 2).toNat 0 = key
      · rw [if_pos h1]; omega
      · rw [if_neg h1]
        by_cases h2 : keys.getD ((l + r) / 2).toNat 0 < key
        · rw [if_pos h2]; exact ih _ _ (by omega)
        · rw [if_neg h2]; exact ih _ _ h
    · rw [if_neg hlr]; exact h

theorem findKeyAux_finds (keys : List Int) (key : Int) (n : Int)
    (hs : ∀ i j : Nat, i < j → (j : Int) < n → keys.getD i 0 < keys.getD j 0) :
    ∀ (fuel : Nat) (left right : Int),
      0 ≤ left → right < n →
      (∃ i : Nat, left ≤ (i : Int) ∧ (i : Int) ≤ right ∧ keys.getD i 0 = key) →
      (right + 1 - left).toNat ≤ fuel →
      ∃ m : Nat, findKeyAux keys key fuel left right = (m : Int) ∧
        keys.getD m 0 = key ∧ (m : Int) < n := by
  intro fuel
  induction fuel with
  | zero =>
    intro l r _ _ hex hf
    obtain ⟨i, h1, h2, _⟩ := hex
    omega
  | succ fuel ih =>
    intro l r hl hr hex hf
    obtain ⟨i, hi1, hi2, hik⟩ := hex
    have hlr : l ≤ r := le_trans hi1 hi2
    have hm1 : l ≤ (l + r) / 2 := by omega
    have hm2 : (l + r) / 2 ≤ r := by omega
    rw [findKeyAux]
    dsimp only
    rw [if_pos hlr]
    by_cases h1 : keys.getD ((l + r) / 2).toNat 0 = key
    · rw [if_pos h1]
      exact ⟨((l + r) / 2).toNat, by omega, h1, by omega⟩
    · rw [if_neg h1]
      by_cases h2 : keys.getD ((l + r) / 2).toNat 0 < key
      · rw [if_pos h2]
        have hnext : ∃ j : Nat, (l + r) / 2 + 1 ≤ (j : Int) ∧ (j : Int) ≤ r ∧
            keys.getD j 0 = key := by
          refine ⟨i, ?_, hi2, hik⟩
          by_contra hc
          push_neg at hc
          rcases Nat.lt_or_ge i ((l + r) / 2).toNat with hlt | hge
          · have := hs i ((l + r) / 2).toNat hlt (by omega)
            omega
          · have : i = ((l + r) / 2).toNat := by omega
            exact h1 (this ▸ hik)
        exact ih ((l + r) / 2 + 1) r (by omega) hr hnext (by omega)
      · rw [if_neg h2]
        have hnext : ∃ j : Nat, l ≤ (j : Int) ∧ (j : Int) ≤ (l + r) / 2 - 1 ∧
            keys.getD j 0 = key := by
          refine ⟨i, hi1, ?_, hik⟩
          by_contra hc
          push_neg at hc
          rcases Nat.lt_or_ge ((l + r) / 2).toNat i with hlt | hge
          · have := hs ((l + r) / 2).toNat i hlt (by omega)
            omega
          · have : i = ((l + r) / 2).toNat := by omega
            exact h1 (this ▸ hik)
        exact ih l ((l + r) / 2 - 1) hl (by omega) hnext (by omega)

/-- C10: the leaf-node mutators are atomic on failure.  `Insert` returns
`false` on a full node and on a present key (the latter needs the leaf
invariant: `keys[0..num_keys)` strictly increasing, `num_keys ≤ MAX_KEYS`,
under which the node's binary search is exact); `Remove` returns `false` on
an absent key; and whenever either returns `false` the node — `num_keys`,
`keys`, `values` — is returned unchanged. -/
theorem leaf_mutators_fail_atomically (p : NodePayload) (key : Int) (v : RID)
    (hb : 0 ≤ p.num_keys ∧ p.num_keys ≤ MAX_KEYS)
    (hs : ∀ i j : Nat, i < j → (j : Int) < p.num_keys → p.key i < p.key j) :
    (p.isFull = true → p.leafInsert key v = (false, p)) ∧
    ((∃ i : Nat, (i : Int) < p.num_keys ∧ p.key i = key) →
      p.leafInsert key v = (false, p)) ∧
    ((∀ i : Nat, (i : Int) < p.num_keys → p.key i ≠ key) →
      p.leafRemove key = (false, p)) ∧
    (∀ q, p.leafInsert key v = (false, q) → q = p) ∧
    (∀ q, p.leafRemove key = (false, q) → q = p) := by
  have hb10 : p.num_keys ≤ 10 := hb.2
  refine ⟨?_, ?_, ?_, ?_, ?_⟩
  · intro hfull
    simp [NodePayload.leafInsert, hfull]
  · intro hex
    obtain ⟨i, hi, hik⟩ := hex
    by_cases hfull : p.isFull
    · simp [NodePayload.leafInsert, hfull]
    · obtain ⟨m, hm, hmk, hmn⟩ :=
        findKeyAux_finds p.keys key p.num_keys hs 64 0 (p.num_keys - 1)
          le_rfl (by omega) ⟨i, by omega, by omega, hik⟩ (by omega)
      have hm' : p.findKey key = (m : Int) := hm
      have hcond : p.findKey key < p.num_keys ∧ p.key (p.findKey key).toNat = key := by
        constructor
        · rw [hm']; exact hmn
        · rw [hm']
          simpa [NodePayload.key] using hmk
      simp [NodePayload.leafInsert, hfull, hcond]
  · intro habs
    have hnn : 0 ≤ p.findKey key :=
      findKeyAux_nonneg p.keys key 64 0 (p.num_keys - 1) le_rfl
    by_cases hge : p.findKey key ≥ p.num_keys
    · simp [NodePayload.leafRemove, hge]
    · have hne : p.key (p.findKey key).toNat ≠ key := habs _ (by omega)
      simp [NodePayload.leafRemove, hne]
  · intro q h
    unfold NodePayload.leafInsert at h
    dsimp only at h
    split at h
    · exact ((Prod.mk.injEq _ _ _ _).mp h).2.symm
    · split at h
      · exact ((Prod.mk.injEq _ _ _ _).mp h).2.symm
      · exact absurd ((Prod.mk.injEq _ _ _ _).mp h).1 (by simp)
  · intro q h
    unfold NodePayload.leafRemove at h
    dsimp only at h
    split at h
    · exact ((Prod.mk.injEq _ _ _ _).mp h).2.symm
    · exact absurd ((Prod.mk.injEq _ _ _ _).mp h).1 (by simp)

theorem leaf_mutators_witness :
    singleLeaf.leafInsert 5 ⟨1, 1⟩ = (false, singleLeaf) ∧
    singleLeaf.leafRemove 99 = (false, singleLeaf) := by
  have hnk : singleLeaf.num_keys = 1 := by decide
  have hs : ∀ i j : Nat, i < j → (j : Int) < singleLeaf.num_keys →
      singleLeaf.key i < singleLeaf.key j := by
    intro i j hij hj
    rw [hnk] at hj
    omega
  have h1 := leaf_mutators_fail_atomically singleLeaf 5 ⟨1, 1⟩ (by decide) hs
  have h2 := leaf_mutators_fail_atomically singleLeaf 99 ⟨1, 1⟩ (by decide) hs
  refine ⟨h1.2.1 ⟨0, by decide, by decide⟩, h2.2.2.1 ?_⟩
  intro i hi
  rw [hnk] at hi
  have hi0 : i = 0 := by omega
  subst hi0
  decide

end MiniDB


namespace MiniDB

theorem list_set_getD_self {α : Type} :
    ∀ (l : List α) (i : Nat) (d : α), i < l.length → l.set i (l.getD i d) = l
  | [], i, d, h => absurd h (by simp)
  | a :: as, 0, d, _ => by simp [List.getD]
  | a :: as, i + 1, d, h => by
    simp only [List.set_cons_succ, List.getD_cons_succ]
    rw [list_set_getD_self as i d (by simpa using h)]

theorem list_getD_set_self {α : Type} (l : List α) (i : Nat) (a d : α)
    (h : i < l.length) : (l.set i a).getD i d = a := by
  simp [List.getD, List.getElem?_set_self', h]

/-- A resident-page fetch followed by `unpin(id, false)` returns the frame
index of the page and restores the whole state except the replacer's
recency order. -/
theorem fetch_hit_then_unpin (s : BPMState) (pid f : Nat)
    (h : assocFind s.page_table pid = some f)
    (hf : f < s.frames.length)
    (hp : 0 ≤ (s.getFrame f).pin_count) :
    (s.fetchPage true pid).1 = some f ∧
    ∃ rep, ((s.fetchPage true pid).2.unpinPage pid false).2 =
      { s with replacer := rep } := by
  obtain ⟨fr, pt, fl, rep, dsk⟩ := s
  have h' : assocFind pt pid = some f := h
  have hf' : f < fr.length := hf
  have hp0 : 0 ≤ (fr.getD f zeroFrame).pin_count := hp
  rcases hF : fr.getD f zeroFrame with ⟨w, pl, pc, dr⟩
  rw [hF] at hp0
  dsimp only at hp0
  have hfetch : BPMState.fetchPage ⟨fr, pt, fl, rep, dsk⟩ true pid =
      (some f, ⟨fr.set f ⟨w, pl, pc + 1, dr⟩, pt, fl, lruPin rep f, dsk⟩) := by
    simp only [BPMState.fetchPage, h', BPMState.getFrame, BPMState.setFrame, hF]
  have hgd : (fr.set f ⟨w, pl, pc + 1, dr⟩).getD f zeroFrame = ⟨w, pl, pc + 1, dr⟩ :=
    list_getD_set_self fr f _ zeroFrame hf'
  have hframes : (fr.set f ⟨w, pl, pc + 1, dr⟩).set f ⟨w, pl, pc + 1 - 1, dr || false⟩ = fr := by
    rw [List.set_set]
    have he : (⟨w, pl, pc + 1 - 1, dr || false⟩ : Frame) = ⟨w, pl, pc, dr⟩ := by simp
    rw [he, ← hF]
    exact list_set_getD_self fr f zeroFrame hf'
  refine ⟨by rw [hfetch], ?_⟩
  rw [hfetch]
  unfold BPMState.unpinPage
  dsimp only
  rw [h']
  dsimp only [BPMState.getFrame]
  rw [hgd]
  dsimp only
  rw [if_neg (by omega : ¬ pc + 1 ≤ 0)]
  dsimp only [BPMState.setFrame]
  by_cases hz : pc + 1 - 1 = 0
  · rw [if_pos hz]
    dsimp only
    rw [hframes]
    exact ⟨_, rfl⟩
  · rw [if_neg hz]
    dsimp only
    rw [hframes]
    exact ⟨_, rfl⟩

end MiniDB


namespace MiniDB

/-- On states where the pages it touches are resident, `Search` changes
nothing but the replacer's recency order. -/
theorem search_resident_core (t : TreeState) (key : Int)
    (hTW : ∀ pr ∈ t.bpm.page_table, pr.2 < t.bpm.frames.length)
    (hpins : ∀ fr ∈ t.bpm.frames, 0 ≤ fr.pin_count)
    (hroot : t.isEmpty = false → t.is_root_leaf = false →
      assocFind t.bpm.page_table t.root_page_id ≠ none)
    (hleaf : t.isEmpty = false →
      assocFind t.bpm.page_table (t.findLeafPageId key).1 ≠ none) :
    ∃ rep, (t.search key).2 = { t with bpm := { t.bpm with replacer := rep } } := by
  by_cases hem : t.isEmpty = true
  · exact ⟨t.bpm.replacer, by simp [TreeState.search, hem]⟩
  · have hem' : t.isEmpty = false := by simpa using hem
    -- Step 1: FindLeafPageId touches at most the (resident) root and
    -- restores everything but the replacer.
    obtain ⟨c, rep₁, hflp⟩ : ∃ c rep₁, t.findLeafPageId key =
        (c, { t with bpm := { t.bpm with replacer := rep₁ } }) := by
      by_cases hrl : t.is_root_leaf = true
      · refine ⟨t.root_page_id, t.bpm.replacer, ?_⟩
        unfold TreeState.findLeafPageId
        simp only [hem', Bool.false_eq_true, if_false, hrl, eq_self_iff_true, if_true]
        rw [← hrl]
      · have hrl' : t.is_root_leaf = false := by simpa using hrl
        obtain ⟨f0, hf0⟩ : ∃ f0, assocFind t.bpm.page_table t.root_page_id = some f0 := by
          cases hh : assocFind t.bpm.page_table t.root_page_id with
          | none => exact absurd hh (hroot hem' hrl')
          | some f0 => exact ⟨f0, rfl⟩
        have hfl0 : f0 < t.bpm.frames.length := hTW _ (assocFind_mem hf0)
        have hpin0 : 0 ≤ (t.bpm.getFrame f0).pin_count := by
          apply hpins
          simp only [BPMState.getFrame]
          rw [List.getD_eq_getElem t.bpm.frames zeroFrame hfl0]
          exact List.getElem_mem hfl0
        obtain ⟨hfe, rep₁, hru⟩ :=
          fetch_hit_then_unpin t.bpm t.root_page_id f0 hf0 hfl0 hpin0
        refine ⟨(((t.bpm.fetchPage true t.root_page_id).2.getFrame f0).payload).findChild key,
          rep₁, ?_⟩
        unfold TreeState.findLeafPageId TreeState.getNode TreeState.unpin TreeState.payloadOf
        simp only [hem', Bool.false_eq_true, if_false, hrl']
        try dsimp only
        rw [hfe]
        try dsimp only
        rw [hru]
    -- Step 2: the leaf page is resident; its fetch/unpin pair also
    -- restores everything but the replacer.
    have hlefc : assocFind t.bpm.page_table c ≠ none := by
      have hh := hleaf hem'
      rw [hflp] at hh
      exact hh
    obtain ⟨f1, hf1⟩ : ∃ f1, assocFind t.bpm.page_table c = some f1 := by
      cases hh : assocFind t.bpm.page_table c with
      | none => exact absurd hh hlefc
      | some f1 => exact ⟨f1, rfl⟩
    have hfl1 : f1 < t.bpm.frames.length := hTW _ (assocFind_mem hf1)
    have hpin1 : 0 ≤ (t.bpm.getFrame f1).pin_count := by
      apply hpins
      simp only [BPMState.getFrame]
      rw [List.getD_eq_getElem t.bpm.frames zeroFrame hfl1]
      exact List.getElem_mem hfl1
    obtain ⟨hfe1, rep₂, hru1⟩ :=
      fetch_hit_then_unpin { t.bpm with replacer := rep₁ } c f1 hf1 hfl1 hpin1
    refine ⟨rep₂, ?_⟩
    unfold TreeState.search TreeState.getNode TreeState.unpin
    simp only [hem', Bool.false_eq_true, if_false]
    rw [hflp]
    try dsimp only
    rw [hfe1]
    try dsimp only
    rw [hru1]

theorem dirtyMono_refl (s : BPMState) : dirtyMono s s := fun _ h => h

theorem dirtyMono_trans {s₁ s₂ s₃ : BPMState}
    (h1 : dirtyMono s₁ s₂) (h2 : dirtyMono s₂ s₃) : dirtyMono s₁ s₃ :=
  fun i h => h1 i (h2 i h)

theorem dirtyMono_of_frames_eq {s s' : BPMState} (h : s'.frames = s.frames) :
    dirtyMono s s' := by
  intro i hi
  unfold BPMState.getFrame at hi ⊢
  rw [h] at hi
  exact hi

theorem list_getD_set_cases {α : Type} :
    ∀ (l : List α) (f i : Nat) (a d : α),
      (l.set f a).getD i d = if i = f ∧ f < l.length then a else l.getD i d
  | [], f, i, a, d => by simp
  | x :: xs, 0, 0, a, d => by simp [List.getD]
  | x :: xs, 0, i + 1, a, d => by simp [List.getD]
  | x :: xs, f + 1, 0, a, d => by simp [List.getD]
  | x :: xs, f + 1, i + 1, a, d => by
    simp only [List.set_cons_succ, List.getD_cons_succ]
    rw [list_getD_set_cases xs f i a d]
    by_cases h : i = f ∧ f < xs.length
    · rw [if_pos h, if_pos ⟨by omega, by simp only [List.length_cons]; omega⟩]
    · have hne : ¬ (i + 1 = f + 1 ∧ f + 1 < (x :: xs).length) := by
        intro hc
        obtain ⟨hc1, hc2⟩ := hc
        simp only [List.length_cons] at hc2
        exact h ⟨by omega, by omega⟩
      rw [if_neg h, if_neg hne]

theorem getFrame_setFrame_cases (s : BPMState) (f i : Nat) (fr : Frame) :
    (s.setFrame f fr).getFrame i =
      if i = f ∧ f < s.frames.length then fr else s.getFrame i := by
  unfold BPMState.setFrame BPMState.getFrame
  try dsimp only
  exact list_getD_set_cases s.frames f i fr zeroFrame

theorem setFrame_dirtyMono (s : BPMState) (f : Nat) (fr : Frame)
    (h : fr.is_dirty = true → (s.getFrame f).is_dirty = true) :
    dirtyMono s (s.setFrame f fr) := by
  intro i hi
  rw [getFrame_setFrame_cases] at hi
  by_cases hc : i = f ∧ f < s.frames.length
  · rw [if_pos hc] at hi
    rw [hc.1]
    exact h hi
  · rw [if_neg hc] at hi
    exact hi

theorem findFreeFrame_dirtyMono (s : BPMState) (wOk : Bool) :
    dirtyMono s (s.findFreeFrame wOk).2 := by
  obtain ⟨frs, pt, fl, rep, dsk⟩ := s
  unfold BPMState.findFreeFrame
  cases fl with
  | cons f rest => exact dirtyMono_of_frames_eq rfl
  | nil =>
    try dsimp only
    rcases hv : lruVictim rep with ⟨o, rep'⟩
    cases o with
    | none =>
      simp only [hv]
      exact dirtyMono_refl _
    | some f =>
      simp only [hv]
      try dsimp only
      by_cases hd : (frs.getD f zeroFrame).is_dirty = true
      · simp only [BPMState.getFrame, hd]
        try dsimp only
        cases hw : DiskManagerState.writePage dsk (frs.getD f zeroFrame).pid_word
            ⟨(frs.getD f zeroFrame).pid_word, (frs.getD f zeroFrame).payload⟩ wOk with
        | none =>
          simp only [hw]
          exact dirtyMono_of_frames_eq rfl
        | some d =>
          simp only [hw]
          refine @dirtyMono_trans _ ⟨frs, pt, [], rep', d⟩ _
            (dirtyMono_of_frames_eq rfl) ?_
          refine dirtyMono_trans
            (setFrame_dirtyMono ⟨frs, pt, [], rep', d⟩ f zeroFrame (fun hz => absurd hz (by decide)))
            (dirtyMono_of_frames_eq rfl)
      · simp only [BPMState.getFrame]
        try dsimp only
        rw [if_neg hd]
        refine @dirtyMono_trans _ ⟨frs, pt, [], rep', dsk⟩ _
          (dirtyMono_of_frames_eq rfl) ?_
        refine dirtyMono_trans
          (setFrame_dirtyMono ⟨frs, pt, [], rep', dsk⟩ f zeroFrame (fun hz => absurd hz (by decide)))
          (dirtyMono_of_frames_eq rfl)

theorem fetchPage_dirtyMono (s : BPMState) (wOk : Bool) (pid : Nat) :
    dirtyMono s (s.fetchPage wOk pid).2 := by
  unfold BPMState.fetchPage
  cases h : assocFind s.page_table pid with
  | some f =>
    simp only [h]
    try dsimp only
    refine dirtyMono_trans (setFrame_dirtyMono s f _ ?_) (dirtyMono_of_frames_eq rfl)
    intro hdi
    simpa using hdi
  | none =>
    simp only [h]
    rcases hff : s.findFreeFrame wOk with ⟨o, s₁⟩
    have hm1 : dirtyMono s s₁ := by
      have hmm := findFreeFrame_dirtyMono s wOk
      rw [hff] at hmm
      exact hmm
    cases o with
    | none =>
      simp only [hff]
      exact hm1
    | some f =>
      simp only [hff]
      try dsimp only
      cases hr : s₁.disk.readPage pid with
      | none =>
        simp only [hr]
        exact dirtyMono_trans hm1 (dirtyMono_of_frames_eq rfl)
      | some dp =>
        simp only [hr]
        unfold BPMState.updatePage
        try dsimp only
        refine dirtyMono_trans hm1 (dirtyMono_trans (setFrame_dirtyMono s₁ f _ ?_)
          (dirtyMono_trans (setFrame_dirtyMono _ f _ ?_) (dirtyMono_of_frames_eq rfl)))
        · intro hdi
          simpa using hdi
        · intro hdi
          simpa using hdi

theorem unpinPage_false_dirtyMono (s : BPMState) (pid : Nat) :
    dirtyMono s (s.unpinPage pid false).2 := by
  unfold BPMState.unpinPage
  cases h : assocFind s.page_table pid with
  | none =>
    simp only [h]
    exact dirtyMono_refl s
  | some f =>
    simp only [h]
    try dsimp only
    by_cases hp : (s.getFrame f).pin_count ≤ 0
    · rw [if_pos hp]
      exact dirtyMono_refl s
    · rw [if_neg hp]
      try dsimp only
      by_cases hz : (s.getFrame f).pin_count - 1 = 0
      · rw [if_pos hz]
        refine dirtyMono_trans (setFrame_dirtyMono s f _ ?_) (dirtyMono_of_frames_eq rfl)
        intro hdi
        simpa using hdi
      · rw [if_neg hz]
        refine setFrame_dirtyMono s f _ ?_
        intro hdi
        simpa using hdi

theorem findLeafPageId_dirtyMono (t : TreeState) (key : Int) :
    dirtyMono t.bpm (t.findLeafPageId key).2.bpm := by
  unfold TreeState.findLeafPageId
  cases hem : t.isEmpty with
  | true =>
    simp only [hem, if_true]
    exact dirtyMono_refl _
  | false =>
    simp only [hem, Bool.false_eq_true, if_false]
    cases hrl : t.is_root_leaf with
    | true =>
      simp only [hrl, if_true]
      exact dirtyMono_refl _
    | false =>
      simp only [hrl, Bool.false_eq_true, if_false]
      unfold TreeState.getNode TreeState.unpin
      try dsimp only
      cases hfo : (t.bpm.fetchPage true t.root_page_id).1 with
      | none =>
        simp only [hfo]
        exact fetchPage_dirtyMono t.bpm true t.root_page_id
      | some f =>
        simp only [hfo]
        try dsimp only
        exact dirtyMono_trans (fetchPage_dirtyMono t.bpm true t.root_page_id)
          (unpinPage_false_dirtyMono _ t.root_page_id)

/-- For every tree state and key, `Search` never turns a dirty bit on: it
unpins with `dirty = false` everywhere, and the only dirty-bit write a
fetch can make on its behalf is the eviction reset, which clears a bit. -/
theorem search_never_dirties (t : TreeState) (key : Int) :
    dirtyMono t.bpm (t.search key).2.bpm := by
  unfold TreeState.search
  cases hem : t.isEmpty with
  | true =>
    simp only [hem, if_true]
    exact dirtyMono_refl _
  | false =>
    simp only [hem, Bool.false_eq_true, if_false]
    rcases hflp : t.findLeafPageId key with ⟨lpid, t₁⟩
    have hm1 : dirtyMono t.bpm t₁.bpm := by
      have hmm := findLeafPageId_dirtyMono t key
      rw [hflp] at hmm
      exact hmm
    simp only [hflp]
    unfold TreeState.getNode TreeState.unpin
    try dsimp only
    cases hfo : (t₁.bpm.fetchPage true lpid).1 with
    | none =>
      simp only [hfo]
      exact dirtyMono_trans hm1 (fetchPage_dirtyMono t₁.bpm true lpid)
    | some f =>
      simp only [hfo]
      try dsimp only
      exact dirtyMono_trans hm1
        (dirtyMono_trans (fetchPage_dirtyMono t₁.bpm true lpid)
          (unpinPage_false_dirtyMono _ lpid))

/-- C9 (amended): `Search` never sets a frame's dirty bit — for every state
and key, any frame dirty after the call was dirty before (eviction during a
fetch miss may only *clear* the victim's bit) — and on states where the
pages it touches are resident it changes nothing but the replacer's recency
order: the root descriptor, every frame (contents, pin counts, dirty bits),
the directory, the free-frame list and the disk are all exactly as before
the call.  (When a touched page is not resident the search loads it, which
rebinds a frame — see the counterexample.) -/
theorem search_resident_preserves_state (t : TreeState) (key : Int) :
    dirtyMono t.bpm (t.search key).2.bpm ∧
    ((∀ pr ∈ t.bpm.page_table, pr.2 < t.bpm.frames.length) →
      (∀ fr ∈ t.bpm.frames, 0 ≤ fr.pin_count) →
      (t.isEmpty = false → t.is_root_leaf = false →
        assocFind t.bpm.page_table t.root_page_id ≠ none) →
      (t.isEmpty = false →
        assocFind t.bpm.page_table (t.findLeafPageId key).1 ≠ none) →
      ∃ rep, (t.search key).2 = { t with bpm := { t.bpm with replacer := rep } }) :=
  ⟨search_never_dirties t key, fun hTW hpins hroot hleaf =>
    search_resident_core t key hTW hpins hroot hleaf⟩

theorem search_resident_witness :
    ∃ rep, (residentLeafTree.search 5).2 =
      { residentLeafTree with bpm := { residentLeafTree.bpm with replacer := rep } } := by
  apply (search_resident_preserves_state residentLeafTree 5).2
  · intro pr hpr
    have h1 : pr = (1, 0) := by
      simpa [residentLeafTree] using hpr
    subst h1
    simp [residentLeafTree]
  · intro fr hfr
    have h1 : fr = { pid_word := 1, payload := singleLeaf, pin_count := 0, is_dirty := false } := by
      simpa [residentLeafTree] using hfr
    subst h1
    simp
  · intro _ hrl
    exact absurd hrl (by decide)
  · intro _
    decide

end MiniDB


namespace MiniDB

/-- C9: counterexample to the claim as stated.  `searchMissTree` is a
single-leaf tree whose root page is on disk but not resident; `Search(5)`
succeeds (returning the stored `RID(7, 0)`), but the fetch miss loads the
page into a frame and adds a binding to the directory — the directory's
page bindings are not "exactly as they were before the call". -/
theorem search_miss_changes_directory :
    (searchMissTree.search 5).1 = some ⟨7, 0⟩ ∧
      (searchMissTree.search 5).2.bpm.page_table ≠ searchMissTree.bpm.page_table :=
  ⟨rfl, by decide⟩

end MiniDB
